import Mathlib

/-!
# M17TS touchscreen bridge: command parsing and UI state

A shallow embedding of `TS/M17TS.cpp` (class `CM17TS`).

Conventions of the embedding:

* C strings are lists of characters. A string of unbounded length (a name, a
  text, a call sign taken from a datagram) that is formatted into one of the
  fixed-size arrays `char text[100]`, `char buffer[20]` must fit there together
  with its NUL; otherwise the handler writes behind the end of the array, which
  is the fault `overrun`. Directives that only hold literals, `%u` values (at
  most ten digits) or `%.Nf` values always fit and are written without a test;
* `unsigned int` values are natural numbers, reduced modulo `2^32` where the
  source increments or subtracts;
* a `float` value is the rational number it denotes; every `float` operation
  of the source rounds its exact result to single precision (`f32`); the
  conversions `std::stof` and the `%.Nf` formatting of `sprintf` are parameters
  (`LibC`);
* an uncaught C++ exception (`std::out_of_range` from `vector::at`,
  `std::invalid_argument` from `std::stof`) or a failed `assert` ends the
  process: a handler returns `Except.error` in that case; a store behind the end
  of an array (`screenBuffer[50]`, `command[100]`, `text[100]`, `buffer[20]`)
  is reported the same way (`overrun`);
* the bytes written to the serial link and the datagrams written to the
  control socket are recorded, in order, in the fields `uart` and `socket`.
-/

namespace M17TS

/-! ## Constants of the source file -/

/-- The field separator of the daemon protocol (`DELIMITER = ":"`). -/
def DELIMITER : Char := ':'

/-- The constant `RSSI_BASE = 140U`. -/
def RSSI_BASE : Nat := 140

/-- The modulus of `unsigned int` arithmetic. -/
def U32 : Nat := 4294967296

/-- The three bytes `"\xFF\xFF\xFF"` that end every display directive. -/
def TERMINATOR : List Char := [Char.ofNat 255, Char.ofNat 255, Char.ofNat 255]

/-! ## Faults -/

/-- Ways in which a handler ends the process instead of returning. -/
inductive Fault where
  | out_of_range
  | invalid_argument
  | assertion
  | overrun
deriving DecidableEq, Repr

deriving instance DecidableEq for Except

/-- The checked element access `std::vector::at`. -/
def vec_at {α : Type} (v : List α) (i : Nat) : Except Fault α :=
  match v.get? i with
  | some x => Except.ok x
  | none => Except.error Fault.out_of_range

/-! ## C library functions used by the parser -/

/-- The C string held in a receive buffer: the characters before the first NUL. -/
def cstr (buf : List Char) : List Char :=
  buf.takeWhile (fun c => c ≠ Char.ofNat 0)

/-- One call of `strtok(s, DELIMITER)`: skip leading delimiters; when nothing
is left the result is NULL (`none`); otherwise the token runs up to the next
delimiter, which is overwritten, and scanning resumes behind it. The pair is
the token and the saved rest. -/
def strtok (s : List Char) : Option (List Char × List Char) :=
  match s.dropWhile (fun c => c = DELIMITER) with
  | [] => none
  | c :: cs =>
    some ((c :: cs).takeWhile (fun x => x ≠ DELIMITER),
          ((c :: cs).dropWhile (fun x => x ≠ DELIMITER)).drop 1)

/-- The loop `while ((p = strtok(s, DELIMITER)) != NULL) ptrs.push_back(p)`,
run for at most `fuel` iterations. -/
def strtokLoop : Nat → List Char → List (List Char)
  | 0, _ => []
  | fuel + 1, s =>
    match strtok s with
    | none => []
    | some (p, rest) => p :: strtokLoop fuel rest

/-- The vector `ptrs` built by `parseCommand` from the received datagram. Each
iteration consumes at least one character, so `length + 1` iterations always
reach the NULL result. -/
def splitFields (command : List Char) : List (List Char) :=
  strtokLoop ((cstr command).length + 1) (cstr command)

/-- The white-space characters skipped by `atoi` (`isspace` in the C locale). -/
def isspace (c : Char) : Bool :=
  c = ' ' || c = '\t' || c = '\n' || c = Char.ofNat 11 || c = Char.ofNat 12 || c = '\r'

/-- The value of a decimal digit character, if it is one. -/
def digitVal (c : Char) : Option Nat :=
  if '0'.toNat ≤ c.toNat ∧ c.toNat ≤ '9'.toNat then some (c.toNat - '0'.toNat) else none

/-- Accumulate the leading decimal digits of a string. -/
def atoiDigits : List Char → Nat → Nat
  | [], acc => acc
  | c :: cs, acc =>
    match digitVal c with
    | some d => atoiDigits cs (10 * acc + d)
    | none => acc

/-- The C library `strtol` in base 10: optional white space, an optional sign,
then decimal digits up to the first other character; `0` when there is no
digit. A value outside the 64 bits of `long` is replaced by `LONG_MIN` or
`LONG_MAX`. -/
def strtol (s : List Char) : Int :=
  max (-9223372036854775808) (min 9223372036854775807
    (match s.dropWhile isspace with
     | '-' :: cs => - (atoiDigits cs 0 : Int)
     | '+' :: cs => (atoiDigits cs 0 : Int)
     | cs => (atoiDigits cs 0 : Int)))

/-- The conversion of a `long` to `int`: the low 32 bits, read as a signed
number. -/
def toInt32 (v : Int) : Int :=
  (v + 2147483648) % 4294967296 - 2147483648

/-- The C library `atoi`, which is `(int) strtol(nptr, NULL, 10)`: the number
read when it lies in the range of `int`, its low 32 bits otherwise. -/
def atoi (s : List Char) : Int :=
  toInt32 (strtol s)

/-- The formatting of `sprintf` with `%u`. -/
def fmtU (n : Nat) : List Char := Nat.toDigits 10 n

/-- Round a rational number to the nearest integer, a tie to the even one. -/
def roundEven (q : ℚ) : ℤ :=
  if q - ⌊q⌋ < 1 / 2 then ⌊q⌋
  else if 1 / 2 < q - ⌊q⌋ then ⌊q⌋ + 1
  else if ⌊q⌋ % 2 = 0 then ⌊q⌋ else ⌊q⌋ + 1

/-- The rounding of an exact result to `float` (IEEE 754 single precision,
round to nearest, ties to even): with `2^e ≤ |x| < 2^(e+1)` the result is the
nearest multiple of `2^(e-23)`, and of `2^(-149)` below the normal range.
Results beyond the largest `float` (about `3.4 * 10^38`) are not modelled. -/
def f32 (x : ℚ) : ℚ :=
  if x = 0 then 0
  else
    (roundEven (x / (2 : ℚ) ^ (max (Int.log 2 |x|) (-126) - 23)) : ℚ) *
      (2 : ℚ) ^ (max (Int.log 2 |x|) (-126) - 23)

/-- The floating-point services of the C/C++ library, a `float` being the
rational number it denotes: `stof` is `std::stof` (it throws when no number can
be read) and `fmtF p x` is `sprintf` with `%.pf`. -/
structure LibC where
  stof : List Char → Except Fault ℚ
  fmtF : Nat → ℚ → List Char

/-! ## Data model -/

/-- Modelled from the spec: the configuration collaborator `CConf` (its header
is not part of the sources); only the persisted values that `CM17TS` reads or
writes are kept: last selected channel and destination, volume, dimmer
settings, brightness and the metric-units flag. -/
structure CConf where
  channel : List Char
  destination : List Char
  volume : Nat
  dimLevel : Nat
  dimTime : Nat
  brightness : Nat
  metric : Bool
deriving DecidableEq, Repr

/-- Modelled from the spec: the enumeration behind `m_slider` (declared in
`M17TS.h`, which is not part of the sources): the control a slider read is
expected for, `SI_NONE` or `SI_VOLUME`. -/
inductive SLIDER where
  | SI_NONE
  | SI_VOLUME
deriving DecidableEq, Repr

/-- The members of `CM17TS` that the handlers read or write, followed by the
two output traces. -/
structure CM17TS where
  m_conf : CConf
  m_channels : List (List Char)
  m_destinations : List (List Char)
  m_channelIdx : Nat
  m_destinationIdx : Nat
  m_localTX : Bool
  m_transmit : Bool
  m_receive : Bool
  m_page : Nat
  m_slider : SLIDER
  m_volume : Nat
  m_sMeter : Nat
  m_dimLevel : Nat
  m_dimTime : Nat
  m_brightness : Nat
  m_source : List Char
  m_text : List Char
  m_callsigns : List Char
  m_metric : Bool
  uart : List (List Char)
  socket : List (List Char)
deriving DecidableEq, Repr

/-! ## Output primitives -/

/-- The method `sendCommand`: write the directive to the serial link, then the
terminator. -/
def sendCommand (st : CM17TS) (command : List Char) : CM17TS :=
  { st with uart := st.uart ++ [command, TERMINATOR] }

/-- The statements `::sprintf(text, ...); sendCommand(text);` with
`char text[100U]`, for a directive that holds a string of unbounded length:
`sprintf` stores the directive and its NUL, so a directive of 100 characters or
more is written behind the end of `text`. -/
def sendText (st : CM17TS) (directive : List Char) : Except Fault CM17TS :=
  if directive.length < 100 then Except.ok (sendCommand st directive)
  else Except.error Fault.overrun

/-- A call of `m_socket->write(buffer, ...)`: one datagram to the daemon. -/
def socketWrite (st : CM17TS) (buffer : List Char) : CM17TS :=
  { st with socket := st.socket ++ [buffer] }

/-- The method `getChannels`: send `CHAN:?`. -/
def getChannels (st : CM17TS) : CM17TS :=
  socketWrite st ("CHAN".toList ++ [DELIMITER] ++ "?".toList)

/-- The method `setChannel`: build `CHAN:<channel>` in `char buffer[20U]` with
`strcpy` and `strcat`, then send it. The datagram and its NUL must fit in the
20 bytes; a channel name of 15 characters or more is written behind the end of
`buffer`. -/
def setChannel (st : CM17TS) (channel : List Char) : Except Fault CM17TS :=
  if ("CHAN".toList ++ [DELIMITER] ++ channel).length < 20 then
    Except.ok (socketWrite st ("CHAN".toList ++ [DELIMITER] ++ channel))
  else Except.error Fault.overrun

/-- The method `getDestinations`: send `DEST:?`. -/
def getDestinations (st : CM17TS) : CM17TS :=
  socketWrite st ("DEST".toList ++ [DELIMITER] ++ "?".toList)

/-- The method `setDestination`: build `DEST:<destination>` in
`char buffer[20U]` with `strcpy` and `strcat`, then send it; a destination name
of 15 characters or more is written behind the end of `buffer`. -/
def setDestination (st : CM17TS) (destination : List Char) : Except Fault CM17TS :=
  if ("DEST".toList ++ [DELIMITER] ++ destination).length < 20 then
    Except.ok (socketWrite st ("DEST".toList ++ [DELIMITER] ++ destination))
  else Except.error Fault.overrun

/-- The method `setVolume`: persist the volume, then send `VOL:<volume>` (at
most 14 characters for an `unsigned int`, which fit `buffer[20U]`). -/
def setVolume (st : CM17TS) (volume : Nat) : CM17TS :=
  socketWrite { st with m_conf := { st.m_conf with volume := volume } }
    ("VOL".toList ++ [DELIMITER] ++ fmtU volume)

/-- The method `setTransmit`: send `TX:1` or `TX:0`. -/
def setTransmit (st : CM17TS) (transmit : Bool) : CM17TS :=
  socketWrite st ("TX".toList ++ [DELIMITER] ++ (if transmit then "1".toList else "0".toList))

/-! ## Selection lists -/

/-- The range-for loop of `selectChannel` / `selectDestination`: `n` counts the
entries passed, `idx` is the index member (the sentinel until a match). -/
def selectLoop (persisted : List Char) : List (List Char) → Nat → Nat → Nat
  | [], _, idx => idx
  | it :: rest, n, idx =>
    if it = persisted then n else selectLoop persisted rest ((n + 1) % U32) idx

/-- The method `selectChannel`. -/
def selectChannel (st : CM17TS) : Except Fault CM17TS :=
  let found := selectLoop st.m_conf.channel st.m_channels 0 0xFFFF
  let st1 := { st with m_channelIdx := if found = 0xFFFF then 0 else found }
  match vec_at st1.m_channels st1.m_channelIdx with
  | Except.error e => Except.error e
  | Except.ok channel =>
    match sendText st1 ("CHANNEL.txt=\"".toList ++ channel ++ "\"".toList) with
    | Except.error e => Except.error e
    | Except.ok st2 => setChannel st2 channel

/-- The method `selectDestination`. -/
def selectDestination (st : CM17TS) : Except Fault CM17TS :=
  let found := selectLoop st.m_conf.destination st.m_destinations 0 0xFFFF
  let st1 := { st with m_destinationIdx := if found = 0xFFFF then 0 else found }
  match vec_at st1.m_destinations st1.m_destinationIdx with
  | Except.error e => Except.error e
  | Except.ok destination =>
    match sendText st1 ("DESTINATION.txt=\"".toList ++ destination ++ "\"".toList) with
    | Except.error e => Except.error e
    | Except.ok st2 => setDestination st2 destination

/-- The index update of `channelChanged` / `destinationChanged` for a list of
`size` entries: `val == -1` steps back, anything else steps forward. -/
def rotateIdx (idx size : Nat) (val : Int) : Nat :=
  if val = -1 then
    if idx = 0 then (size + U32 - 1) % U32 else idx - 1
  else
    if (idx + 1) % U32 = size then 0 else (idx + 1) % U32

/-- The method `channelChanged`. -/
def channelChanged (st : CM17TS) (val : Int) : Except Fault CM17TS :=
  if st.m_channels.isEmpty then Except.error Fault.assertion
  else
    let st1 := { st with m_channelIdx := rotateIdx st.m_channelIdx st.m_channels.length val }
    match vec_at st1.m_channels st1.m_channelIdx with
    | Except.error e => Except.error e
    | Except.ok channel =>
      match sendText st1 ("CHANNEL.txt=\"".toList ++ channel ++ "\"".toList) with
      | Except.error e => Except.error e
      | Except.ok st2 =>
        let st3 := { st2 with m_conf := { st2.m_conf with channel := channel } }
        setChannel st3 channel

/-- The method `destinationChanged`. -/
def destinationChanged (st : CM17TS) (val : Int) : Except Fault CM17TS :=
  if st.m_destinations.isEmpty then Except.error Fault.assertion
  else
    let st1 := { st with
      m_destinationIdx := rotateIdx st.m_destinationIdx st.m_destinations.length val }
    match vec_at st1.m_destinations st1.m_destinationIdx with
    | Except.error e => Except.error e
    | Except.ok destination =>
      match sendText st1 ("DESTINATION.txt=\"".toList ++ destination ++ "\"".toList) with
      | Except.error e => Except.error e
      | Except.ok st2 =>
        let st3 := { st2 with m_conf := { st2.m_conf with destination := destination } }
        setDestination st3 destination

/-- The method `volumeChanged`. -/
def volumeChanged (st : CM17TS) : CM17TS :=
  sendCommand { st with m_slider := SLIDER.SI_VOLUME } "get VOLUME.val".toList

/-- The method `transmit`. -/
def transmit (st : CM17TS) : CM17TS :=
  setTransmit { st with m_localTX := !st.m_localTX } (!st.m_localTX)

/-! ## Pages -/

/-- The block `if (!m_destinations.empty()) { ... }` shared by `gotoPage0` and
`gotoPage1`: show the selected channel and destination. -/
def showSelection (st : CM17TS) : Except Fault CM17TS :=
  if !st.m_destinations.isEmpty then
    match vec_at st.m_channels st.m_channelIdx with
    | Except.error e => Except.error e
    | Except.ok channel =>
      match sendText st ("CHANNEL.txt=\"".toList ++ channel ++ "\"".toList) with
      | Except.error e => Except.error e
      | Except.ok st1 =>
        match vec_at st1.m_destinations st1.m_destinationIdx with
        | Except.error e => Except.error e
        | Except.ok destination =>
          sendText st1 ("DESTINATION.txt=\"".toList ++ destination ++ "\"".toList)
  else Except.ok st

/-- The method `gotoPage0`. -/
def gotoPage0 (st : CM17TS) : Except Fault CM17TS :=
  let st1 := { sendCommand st "page page0".toList with m_page := 0 }
  let st2 := sendCommand st1 ("VOLUME.val=".toList ++ fmtU st1.m_volume)
  showSelection st2

/-- The directives of `gotoPage1` that follow the selection block. -/
def gotoPage1Tail (st : CM17TS) : Except Fault CM17TS :=
  match sendText st ("SOURCE.txt=\"".toList ++ st.m_source ++ "\"".toList) with
  | Except.error e => Except.error e
  | Except.ok st1 =>
  match sendText st1 ("CALLSIGNS.txt=\"".toList ++ st1.m_callsigns ++ "\"".toList) with
  | Except.error e => Except.error e
  | Except.ok st2 =>
  match sendText st2 ("TEXT.txt=\"".toList ++ st2.m_text ++ "\"".toList) with
  | Except.error e => Except.error e
  | Except.ok st3 =>
    let st4 := if st3.m_receive then sendCommand st3 "RX.txt=\"RX\"".toList
               else sendCommand st3 "RX.txt=\"\"".toList
    let st5 := if st4.m_transmit then sendCommand st4 "TX.txt=\"TX\"".toList
               else sendCommand st4 "TX.txt=\"\"".toList
    Except.ok (sendCommand st5 ("S_METER.val=".toList ++ fmtU st5.m_sMeter))

/-- The method `gotoPage1`. -/
def gotoPage1 (st : CM17TS) : Except Fault CM17TS :=
  let st1 := { sendCommand st "page page1".toList with m_page := 1 }
  let st2 := sendCommand st1 ("timer=".toList ++ fmtU st1.m_dimTime)
  match showSelection st2 with
  | Except.error e => Except.error e
  | Except.ok st3 => gotoPage1Tail st3

/-! ## Command router -/

/-- The method `showRX`. -/
def showRX (st : CM17TS) (isEnd : Bool) (source destination : List Char) :
    Except Fault CM17TS :=
  if isEnd then
    let st1 := { st with m_receive := false, m_sMeter := 0, m_source := [], m_text := [],
                         m_callsigns := [] }
    let st2 := sendCommand st1 "S_METER.val=0".toList
    let st3 := sendCommand st2 "RX.txt=\"\"".toList
    let st4 := sendCommand st3 "CALLSIGNS.pco=BLUE".toList
    let st5 := sendCommand st4 "TEXT.pco=BLUE".toList
    let st6 := sendCommand st5 "SOURCE.pco=BLUE".toList
    let st7 := sendCommand st6 "timer=dimTime".toList
    Except.ok (sendCommand st7 "tm0.en=1".toList)
  else
    match gotoPage1 { st with m_receive := true } with
    | Except.error e => Except.error e
    | Except.ok st1 =>
      let st2 := { st1 with m_source := source }
      let st3 := sendCommand st2 "CALLSIGNS.pco=WHITE".toList
      let st4 := sendCommand st3 "TEXT.pco=YELLOW".toList
      let st5 := sendCommand st4 "SOURCE.pco=BLACK".toList
      match sendText st5
        ("SOURCE.txt=\"".toList ++ source ++ " > ".toList ++ destination ++ "\"".toList) with
      | Except.error e => Except.error e
      | Except.ok st6 =>
        let st7 := sendCommand st6 "RX.txt=\"RX\"".toList
        Except.ok (sendCommand st7 "tm0.en=0".toList)

/-- The method `showText`. -/
def showText (st : CM17TS) : Except Fault CM17TS :=
  sendText st ("TEXT.txt=\"".toList ++ st.m_text ++ "\"".toList)

/-- The method `showCallsigns`. -/
def showCallsigns (st : CM17TS) : Except Fault CM17TS :=
  sendText st ("CALLSIGNS.txt=\"".toList ++ st.m_callsigns ++ "\"".toList)

/-- The value stored in `m_sMeter` by `showRSSI`: `dBm` is `std::abs(rssi)`, and
`RSSI_BASE - rssi` is computed in `unsigned int`. -/
def sMeterOf (rssi : Int) : Nat :=
  let dBm := rssi.natAbs
  if dBm < RSSI_BASE then
    let v := (((RSSI_BASE : Int) - rssi) % (U32 : Int)).toNat
    if v > 100 then 100 else v
  else 0

/-- The method `showRSSI`. -/
def showRSSI (st : CM17TS) (rssi : Int) : CM17TS :=
  let st1 := { st with m_sMeter := sMeterOf rssi }
  if st1.m_page = 1 then sendCommand st1 ("S_METER.val=".toList ++ fmtU st1.m_sMeter)
  else st1

/-- The gauge value computed for a track or a bearing in `showGPS`:
`float gauge = angle + 90; if (gauge>360){gauge=gauge-360;}`, both operations in
`float`. -/
def gaugeOf (angle : ℚ) : ℚ :=
  let gauge := f32 (angle + 90)
  if gauge > 360 then f32 (gauge - 360) else gauge

/-- The altitude block of `showGPS`. -/
def showAltitude (lib : LibC) (st : CM17TS) (altitude : Option ℚ) : CM17TS :=
  match altitude with
  | some a =>
    if st.m_metric then
      sendCommand st ("ALTITUDE.txt=\"".toList ++ lib.fmtF 1 a ++ " m\"".toList)
    else
      sendCommand st
        ("ALTITUDE.txt=\"".toList ++ lib.fmtF 1 (f32 (a * f32 (328 / 100))) ++ " ft\"".toList)
  | none => st

/-- The speed and track block of `showGPS`. -/
def showSpeedTrack (lib : LibC) (st : CM17TS) (speed track : Option ℚ) : CM17TS :=
  match speed, track with
  | some s, some t =>
    let st1 :=
      if st.m_metric then
        sendCommand st ("SPEED.txt=\"".toList ++ lib.fmtF 1 s ++ " km/h\"".toList)
      else
        sendCommand st
          ("SPEED.txt=\"".toList ++ lib.fmtF 1 (f32 (s / f32 (1602 / 1000))) ++ " mph\"".toList)
    sendCommand st1 ("TRACK.txt=\"".toList ++ lib.fmtF 0 (gaugeOf t) ++ "\"".toList)
  | _, _ => st

/-- The bearing and distance block of `showGPS`. -/
def showBearingDistance (lib : LibC) (st : CM17TS) (bearing distance : Option ℚ) : CM17TS :=
  match bearing, distance with
  | some b, some d =>
    let st1 := sendCommand st ("BEARING.txt=\"".toList ++ lib.fmtF 0 (gaugeOf b) ++ "\"".toList)
    if st1.m_metric then
      sendCommand st1 ("DISTANCE.txt=\"".toList ++ lib.fmtF 0 d ++ " km\"".toList)
    else
      sendCommand st1
        ("DISTANCE.txt=\"".toList ++ lib.fmtF 0 (f32 (d / f32 (1602 / 1000))) ++
          " miles\"".toList)
  | _, _ => st

/-- The method `showGPS`. Its directives are formatted into `char text[100U]`
as well; they fit whenever the locator has at most 85 characters, which holds
for every datagram that `run` passes on (at most 99 bytes, eight further
fields), so no test is made here. -/
def showGPS (lib : LibC) (st : CM17TS) (latitude longitude : ℚ) (locator : List Char)
    (altitude speed track bearing distance : Option ℚ) : CM17TS :=
  let st1 := sendCommand st "page GPS".toList
  let st2 :=
    if latitude < 0 then
      sendCommand st1
        ("LATITUDE.txt=\"".toList ++ lib.fmtF 3 (-latitude) ++ [Char.ofNat 176] ++ " S\"".toList)
    else
      sendCommand st1
        ("LATITUDE.txt=\"".toList ++ lib.fmtF 3 latitude ++ [Char.ofNat 176] ++ " N\"".toList)
  let st3 :=
    if longitude < 0 then
      sendCommand st2
        ("LONGITUDE.txt=\"".toList ++ lib.fmtF 3 (-longitude) ++ [Char.ofNat 176] ++ " W\"".toList)
    else
      sendCommand st2
        ("LONGITUDE.txt=\"".toList ++ lib.fmtF 3 longitude ++ [Char.ofNat 176] ++ " E\"".toList)
  let st4 := sendCommand st3 ("LOCATOR.txt=\"".toList ++ locator ++ "\"".toList)
  let st5 := showAltitude lib st4 altitude
  let st6 := showSpeedTrack lib st5 speed track
  let st7 := showBearingDistance lib st6 bearing distance
  let st8 := sendCommand st7 "delay=5000".toList
  sendCommand st8 "page page1".toList

/-- The arguments that the `GPS` branch of `parseCommand` decodes for `showGPS`. -/
structure GPSFix where
  latitude : ℚ
  longitude : ℚ
  locator : List Char
  altitude : Option ℚ
  speed : Option ℚ
  track : Option ℚ
  bearing : Option ℚ
  distance : Option ℚ
deriving DecidableEq, Repr

/-- The statement `std::stof(ptrs.at(i))`. -/
def stofAt (lib : LibC) (ptrs : List (List Char)) (i : Nat) : Except Fault ℚ :=
  match vec_at ptrs i with
  | Except.error e => Except.error e
  | Except.ok p => lib.stof p

/-- The statements `if (::strlen(ptrs.at(i)) > 0) field = std::stof(ptrs.at(i));`
for an optional field. -/
def optStofAt (lib : LibC) (ptrs : List (List Char)) (i : Nat) : Except Fault (Option ℚ) :=
  match vec_at ptrs i with
  | Except.error e => Except.error e
  | Except.ok p =>
    if p.length > 0 then
      match lib.stof p with
      | Except.error e => Except.error e
      | Except.ok x => Except.ok (some x)
    else Except.ok none

/-- The decoding done by the `GPS` branch of `parseCommand`, in source order. -/
def parseGPS (lib : LibC) (ptrs : List (List Char)) : Except Fault GPSFix :=
  match stofAt lib ptrs 1 with
  | Except.error e => Except.error e
  | Except.ok latitude =>
  match stofAt lib ptrs 2 with
  | Except.error e => Except.error e
  | Except.ok longitude =>
  match vec_at ptrs 3 with
  | Except.error e => Except.error e
  | Except.ok locator =>
  match optStofAt lib ptrs 4 with
  | Except.error e => Except.error e
  | Except.ok altitude =>
  match optStofAt lib ptrs 5 with
  | Except.error e => Except.error e
  | Except.ok speed =>
  match optStofAt lib ptrs 6 with
  | Except.error e => Except.error e
  | Except.ok track =>
  match optStofAt lib ptrs 7 with
  | Except.error e => Except.error e
  | Except.ok bearing =>
  match optStofAt lib ptrs 8 with
  | Except.error e => Except.error e
  | Except.ok distance =>
    Except.ok { latitude := latitude, longitude := longitude, locator := locator,
                altitude := altitude, speed := speed, track := track,
                bearing := bearing, distance := distance }

/-- The `RX` branch of `parseCommand`. -/
def commandRX (st : CM17TS) (ptrs : List (List Char)) : Except Fault CM17TS :=
  match vec_at ptrs 1 with
  | Except.error e => Except.error e
  | Except.ok p1 =>
  match vec_at ptrs 2 with
  | Except.error e => Except.error e
  | Except.ok source =>
  match vec_at ptrs 3 with
  | Except.error e => Except.error e
  | Except.ok destination => showRX st (decide (atoi p1 = 1)) source destination

/-- The `TX` branch of `parseCommand`. -/
def commandTX (st : CM17TS) (ptrs : List (List Char)) : Except Fault CM17TS :=
  match vec_at ptrs 1 with
  | Except.error e => Except.error e
  | Except.ok p1 =>
    let st1 := { st with m_transmit := decide (atoi p1 = 1) }
    if st1.m_transmit then
      let st2 := sendCommand st1 "dim=brightness".toList
      let st3 := sendCommand st2 "timer=dimTime".toList
      let st4 := sendCommand st3 "tm0.en=0".toList
      Except.ok (sendCommand st4 "TX.txt=\"TX\"".toList)
    else
      Except.ok (sendCommand st1 "TX.txt=\"\"".toList)

/-- The method `parseCommand`, applied to the received datagram. -/
def parseCommand (lib : LibC) (st : CM17TS) (command : List Char) : Except Fault CM17TS :=
  let ptrs := splitFields command
  match vec_at ptrs 0 with
  | Except.error e => Except.error e
  | Except.ok keyword =>
    if keyword = "CHAN".toList then
      selectChannel { st with m_channels := ptrs.drop 1 }
    else if keyword = "DEST".toList then
      selectDestination { st with m_destinations := ptrs.drop 1 }
    else if keyword = "RX".toList then
      commandRX st ptrs
    else if keyword = "TX".toList then
      commandTX st ptrs
    else if keyword = "TEXT".toList then
      match vec_at ptrs 1 with
      | Except.error e => Except.error e
      | Except.ok p1 => showText { st with m_text := p1 }
    else if keyword = "CALLS".toList then
      match vec_at ptrs 1 with
      | Except.error e => Except.error e
      | Except.ok p1 => showCallsigns { st with m_callsigns := p1 }
    else if keyword = "RSSI".toList then
      match vec_at ptrs 1 with
      | Except.error e => Except.error e
      | Except.ok p1 => Except.ok (showRSSI st (atoi p1))
    else if keyword = "GPS".toList then
      match parseGPS lib ptrs with
      | Except.error e => Except.error e
      | Except.ok fix =>
        Except.ok (showGPS lib st fix.latitude fix.longitude fix.locator fix.altitude
          fix.speed fix.track fix.bearing fix.distance)
    else Except.ok st

/-! ## Screen event dispatcher -/

/-- The value assembled from a slider frame:
`(command[4] << 24) | (command[3] << 16) | (command[2] << 8) | (command[1] << 0)`. -/
def sliderValue (command : List Nat) : Nat :=
  (command.getD 4 0 <<< 24) ||| (command.getD 3 0 <<< 16) |||
    (command.getD 2 0 <<< 8) ||| (command.getD 1 0 <<< 0)

set_option linter.unusedVariables false in
/-- The method `parseScreen`; `command` is the reassembly buffer (bytes) and
`length` the number of bytes received, which only the diagnostic dump uses. -/
def parseScreen (st : CM17TS) (command : List Nat) (length : Nat) : Except Fault CM17TS :=
  if command.getD 0 0 = 0x65 then
    if command.getD 1 0 = 1 then
      if command.getD 2 0 = 3 then channelChanged st 1
      else if command.getD 2 0 = 4 then channelChanged st (-1)
      else if command.getD 2 0 = 5 then destinationChanged st 1
      else if command.getD 2 0 = 6 then destinationChanged st (-1)
      else if command.getD 2 0 = 7 then gotoPage1 st
      else if command.getD 2 0 = 8 then gotoPage1 st
      else if command.getD 2 0 = 10 then Except.ok (volumeChanged st)
      else Except.ok st
    else if command.getD 1 0 = 2 then
      if command.getD 2 0 = 1 then gotoPage0 st
      else if command.getD 2 0 = 2 then gotoPage0 st
      else if command.getD 2 0 = 3 then Except.ok (transmit st)
      else Except.ok st
    else Except.ok st
  else if command.getD 0 0 = 0x71 then
    match st.m_slider with
    | SLIDER.SI_VOLUME =>
      let st1 := { st with m_volume := sliderValue command }
      let st2 := setVolume st1 st1.m_volume
      Except.ok { st2 with m_slider := SLIDER.SI_NONE }
    | _ => Except.ok st
  else Except.ok st

/-! ## Start of the session -/

/-- The member initialisers of the constructor, with the configuration as read
by `run` (`m_brightness` has no initialiser; `run` assigns it before use). -/
def construct (conf : CConf) : CM17TS :=
  { m_conf := conf, m_channels := [], m_destinations := [], m_channelIdx := 0,
    m_destinationIdx := 0, m_localTX := false, m_transmit := false, m_receive := false,
    m_page := 0, m_slider := SLIDER.SI_NONE, m_volume := 50, m_sMeter := 0,
    m_dimLevel := 100, m_dimTime := 30, m_brightness := conf.brightness, m_source := [],
    m_text := [], m_callsigns := [], m_metric := true, uart := [], socket := [] }

/-- The part of `run` between opening the transports and entering the loop;
`version` is the macro `VERSION` of `Version.h`, formatted into `text[100U]`
like the strings of the handlers. -/
def startup (version : List Char) (st : CM17TS) : Except Fault CM17TS :=
  let st1 := { st with m_metric := st.m_conf.metric, m_volume := st.m_conf.volume,
                       m_dimLevel := st.m_conf.dimLevel, m_dimTime := st.m_conf.dimTime,
                       m_brightness := st.m_conf.brightness }
  let st2 := setVolume st1 st1.m_volume
  let st3 := sendCommand st2 ("dimLevel=".toList ++ fmtU st2.m_dimLevel)
  let st4 := sendCommand st3 ("dimTime=".toList ++ fmtU st3.m_dimTime)
  let st5 := sendCommand st4 ("brightness=".toList ++ fmtU st4.m_brightness)
  let st6 := sendCommand st5 "bkcmd=2".toList
  match gotoPage1 st6 with
  | Except.error e => Except.error e
  | Except.ok st7 =>
    sendText st7 ("TEXT.txt=\"M17TS ".toList ++ version ++ " started\"".toList)

/-- An initial state: both lists empty, both indices 0. -/
def Initial (st : CM17TS) : Prop :=
  st.m_channels = [] ∧ st.m_destinations = [] ∧ st.m_channelIdx = 0 ∧ st.m_destinationIdx = 0

/-- The states reached from an initial state by daemon datagrams and display
frames whose handlers return. -/
inductive Reachable (lib : LibC) : CM17TS → Prop where
  | init {st : CM17TS} : Initial st → Reachable lib st
  | command {st st1 : CM17TS} (datagram : List Char) :
      Reachable lib st → parseCommand lib st datagram = Except.ok st1 → Reachable lib st1
  | screen {st st1 : CM17TS} (frame : List Nat) (length : Nat) :
      Reachable lib st → parseScreen st frame length = Except.ok st1 → Reachable lib st1

/-- The selection invariant of the data model: a non-empty list has a valid
index. -/
def IndexValid (st : CM17TS) : Prop :=
  (st.m_channels ≠ [] → st.m_channelIdx < st.m_channels.length) ∧
  (st.m_destinations ≠ [] → st.m_destinationIdx < st.m_destinations.length)

/-- Repeat a handler `k` times, stopping at the first fault. -/
def iterate (f : CM17TS → Except Fault CM17TS) : Nat → CM17TS → Except Fault CM17TS
  | 0, st => Except.ok st
  | k + 1, st =>
    match f st with
    | Except.error e => Except.error e
    | Except.ok st1 => iterate f k st1

/-- An inbound message of the event loop: a datagram from the daemon, or a
reassembled frame from the display together with the byte count. -/
inductive Event where
  | datagram (command : List Char)
  | frame (buffer : List Nat) (length : Nat)
deriving DecidableEq, Repr

/-- Dispatch one inbound message as `run` does. -/
def handle (lib : LibC) (st : CM17TS) : Event → Except Fault CM17TS
  | Event.datagram command => parseCommand lib st command
  | Event.frame buffer length => parseScreen st buffer length

/-- Dispatch a sequence of inbound messages, stopping at the first fault. -/
def handleAll (lib : LibC) : CM17TS → List Event → Except Fault CM17TS
  | st, [] => Except.ok st
  | st, ev :: evs =>
    match handle lib st ev with
    | Except.error e => Except.error e
    | Except.ok st1 => handleAll lib st1 evs

/-- The state of a returned handler, or `dflt` after a fault. -/
def stateOr (dflt : CM17TS) : Except Fault CM17TS → CM17TS
  | Except.ok st => st
  | Except.error _ => dflt

/-- A library instance for closed examples: `stof` reads an unsigned decimal
integer and `fmtF` prints the integer part. -/
def libSample : LibC :=
  { stof := fun s =>
      if s.all Char.isDigit ∧ s ≠ [] then Except.ok (atoiDigits s 0 : ℚ)
      else Except.error Fault.invalid_argument,
    fmtF := fun _ x => fmtU x.floor.toNat }

/-- A configuration for closed examples. -/
def confSample : CConf :=
  { channel := "B".toList, destination := "ALL".toList, volume := 50, dimLevel := 100,
    dimTime := 30, brightness := 100, metric := true }

/-- The four members that make up the two selection lists. -/
def SameSelection (st st1 : CM17TS) : Prop :=
  st1.m_channels = st.m_channels ∧ st1.m_channelIdx = st.m_channelIdx ∧
  st1.m_destinations = st.m_destinations ∧ st1.m_destinationIdx = st.m_destinationIdx

/-- The state reached from the sample configuration by the given messages. -/
def sampleAfter (evs : List Event) : CM17TS :=
  stateOr (construct confSample) (handleAll libSample (construct confSample) evs)

/-- A short session: a channel list, a destination list, one CHAN_UP touch. -/
def sampleSession : List Event :=
  [Event.datagram "CHAN:A:B:C".toList, Event.datagram "DEST:X:ALL".toList,
   Event.frame [0x65, 1, 3, 255, 255, 255] 6]

/-! ## The loop of `run` -/

/-- The locals `screenBuffer[50]`, `endBuffer[3]` and `screenIdx` of `run`;
`endBuffer` is the triple `(endBuffer[0], endBuffer[1], endBuffer[2])`. -/
structure Reassembler where
  screenBuffer : List Nat
  endBuffer : Nat × Nat × Nat
  screenIdx : Nat
deriving DecidableEq, Repr

/-- The reassembler before the first byte and after each dispatched frame:
`screenIdx = 0` and a zeroed window (the buffer keeps whatever it holds). -/
def Reassembler.reset (buffer : List Nat) : Reassembler :=
  { screenBuffer := buffer, endBuffer := (0, 0, 0), screenIdx := 0 }

/-- The statements of `run` for one byte `c` read from the serial link:
store it at `screenBuffer[screenIdx++]`, shift it into `endBuffer`, and when
the window is `FF FF FF` hand `(screenBuffer, screenIdx)` to `parseScreen`,
zero the window and reset `screenIdx`. The second component is the call of
`parseScreen` that is due, if any. -/
def serialByte (r : Reassembler) (c : Nat) :
    Except Fault (Reassembler × Option (List Nat × Nat)) :=
  if r.screenIdx < 50 then
    let buffer := r.screenBuffer.set r.screenIdx c
    let idx := r.screenIdx + 1
    let window : Nat × Nat × Nat := (c, r.endBuffer.1, r.endBuffer.2.1)
    if window = (0xFF, 0xFF, 0xFF) then
      Except.ok ({ screenBuffer := buffer, endBuffer := (0, 0, 0), screenIdx := 0 },
                 some (buffer, idx))
    else
      Except.ok ({ screenBuffer := buffer, endBuffer := window, screenIdx := idx }, none)
  else Except.error Fault.overrun

/-- Feed a run of bytes to the reassembler, collecting the calls of
`parseScreen` that become due, in order. -/
def feed : Reassembler → List Nat → Except Fault (Reassembler × List (List Nat × Nat))
  | r, [] => Except.ok (r, [])
  | r, c :: cs =>
    match serialByte r c with
    | Except.error e => Except.error e
    | Except.ok (r1, call) =>
      match feed r1 cs with
      | Except.error e => Except.error e
      | Except.ok (r2, calls) => Except.ok (r2, call.toList ++ calls)

/-- Modelled from the spec: the class `CTimer` (`Timer.h` is not part of the
sources), the recurring timer of the poll scheduler. It counts ticks in
`m_timer` while running (`m_timer > 0`), is stopped when `m_timer = 0`, and has
expired once the count reaches `m_timeout`. -/
structure CTimer where
  m_ticksPerSec : Nat
  m_timeout : Nat
  m_timer : Nat
deriving DecidableEq, Repr

/-- Modelled from the spec: the constructor `CTimer(ticksPerSec, secs, msecs)`. -/
def CTimer.create (ticksPerSec secs msecs : Nat) : CTimer :=
  { m_ticksPerSec := ticksPerSec,
    m_timeout := if secs > 0 ∨ msecs > 0 then (secs * 1000 + msecs) * ticksPerSec / 1000 + 1
                 else 0,
    m_timer := 0 }

/-- Modelled from the spec: `CTimer::start`, (re)start counting. -/
def CTimer.start (t : CTimer) : CTimer :=
  if t.m_timeout > 0 then { t with m_timer := 1 } else t

/-- Modelled from the spec: `CTimer::stop`. -/
def CTimer.stop (t : CTimer) : CTimer :=
  { t with m_timer := 0 }

/-- Modelled from the spec: `CTimer::isRunning`. -/
def CTimer.isRunning (t : CTimer) : Bool :=
  decide (t.m_timer > 0)

/-- Modelled from the spec: `CTimer::hasExpired`. -/
def CTimer.hasExpired (t : CTimer) : Bool :=
  if t.m_timeout = 0 ∨ t.m_timer = 0 then false else decide (t.m_timer ≥ t.m_timeout)

/-- Modelled from the spec: `CTimer::clock`, advance a running timer. -/
def CTimer.clock (t : CTimer) (ticks : Nat) : CTimer :=
  if t.m_timer > 0 ∧ t.m_timeout > 0 then { t with m_timer := t.m_timer + ticks } else t

/-- The object and the locals of `run` that live across loop iterations. -/
structure Loop where
  host : CM17TS
  serial : Reassembler
  timer : CTimer
deriving DecidableEq, Repr

/-- The first two parts of the loop body: a datagram read from the socket into
`char command[100U]` (`ret > 0`, so a non-empty one; at most 100 bytes are
stored) is closed with `command[ret] = 0` and goes to `parseCommand`; for a
datagram of 100 bytes or more that store is behind the end of `command`. A byte
read from the serial link goes through the reassembler, and a completed frame
to `parseScreen`. `none` stands for a read that returned nothing. -/
def receive (lib : LibC) (l : Loop) (datagram : Option (List Char)) (byte : Option Nat) :
    Except Fault Loop :=
  match (match datagram with
         | some command =>
           if command.length > 0 then
             if command.length < 100 then parseCommand lib l.host command
             else Except.error Fault.overrun
           else Except.ok l.host
         | none => Except.ok l.host) with
  | Except.error e => Except.error e
  | Except.ok host1 =>
    match byte with
    | none => Except.ok { l with host := host1 }
    | some c =>
      match serialByte l.serial c with
      | Except.error e => Except.error e
      | Except.ok (serial1, none) => Except.ok { l with host := host1, serial := serial1 }
      | Except.ok (serial1, some (buffer, length)) =>
        match parseScreen host1 buffer length with
        | Except.error e => Except.error e
        | Except.ok host2 => Except.ok { l with host := host2, serial := serial1 }

/-- The third part of the loop body, the poll scheduler: `timer.clock(20U)`
and the block under `if (timer.isRunning() && timer.hasExpired())`. -/
def pollScheduler (l : Loop) : Loop :=
  let timer1 := l.timer.clock 20
  if timer1.isRunning && timer1.hasExpired then
    if l.host.m_channels.isEmpty then
      { l with host := getChannels l.host, timer := timer1.start }
    else if l.host.m_destinations.isEmpty then
      { l with host := getDestinations l.host, timer := timer1.start }
    else
      { l with timer := timer1.stop }
  else { l with timer := timer1 }

/-- One iteration of the loop of `run`. -/
def tick (lib : LibC) (l : Loop) (datagram : Option (List Char)) (byte : Option Nat) :
    Except Fault Loop :=
  match receive lib l datagram byte with
  | Except.error e => Except.error e
  | Except.ok l1 => Except.ok (pollScheduler l1)

/-- Successive iterations of the loop, one per pair of reads. -/
def ticks (lib : LibC) : Loop → List (Option (List Char) × Option Nat) → Except Fault Loop
  | l, [] => Except.ok l
  | l, (datagram, byte) :: rest =>
    match tick lib l datagram byte with
    | Except.error e => Except.error e
    | Except.ok l1 => ticks lib l1 rest

/-- The same iterations with the poll scheduler left out. -/
def receives (lib : LibC) : Loop → List (Option (List Char) × Option Nat) → Except Fault Loop
  | l, [] => Except.ok l
  | l, (datagram, byte) :: rest =>
    match receive lib l datagram byte with
    | Except.error e => Except.error e
    | Except.ok l1 => receives lib l1 rest

/-- The loop state on entry: the started host, an arbitrary buffer content
with a reset reassembler, and the timer `CTimer(1000U, 0U, 100U)` started. -/
def Loop.enter (host : CM17TS) (buffer : List Nat) : Loop :=
  { host := host, serial := Reassembler.reset buffer,
    timer := (CTimer.create 1000 0 100).start }

/-! ## Vocabulary for the GPS page -/

/-- Whether a sequence of writes to the display holds an update of the text of
`widget`, that is, a directive that starts with `widget.txt=`. -/
def hasUpdate (widget : List Char) (writes : List (List Char)) : Bool :=
  writes.any (fun d => (widget ++ ".txt=".toList).isPrefixOf d)

/-- The updates present in a sequence of writes, for the eight widgets of the
GPS page in the order LATITUDE, LONGITUDE, LOCATOR, ALTITUDE, SPEED, TRACK,
BEARING, DISTANCE. -/
def updates (writes : List (List Char)) : List Bool :=
  [hasUpdate "LATITUDE".toList writes, hasUpdate "LONGITUDE".toList writes,
   hasUpdate "LOCATOR".toList writes, hasUpdate "ALTITUDE".toList writes,
   hasUpdate "SPEED".toList writes, hasUpdate "TRACK".toList writes,
   hasUpdate "BEARING".toList writes, hasUpdate "DISTANCE".toList writes]

/-- The handler step from `st` to `st1` wrote `block` to the display and the
updates in `block` are `sig`. -/
def EmitsSig (st st1 : CM17TS) (sig : List Bool) : Prop :=
  ∃ block, st1.uart = st.uart ++ block ∧ updates block = sig

/-- The remainder `x mod 360` of a rational number of degrees, in `[0, 360)`. -/
def mod360 (x : ℚ) : ℚ :=
  x - 360 * (⌊x / 360⌋ : ℚ)

/-- The loop state of returned iterations, or `dflt` after a fault. -/
def loopOr (dflt : Loop) : Except Fault Loop → Loop
  | Except.ok l => l
  | Except.error _ => dflt

/-- The host after `startup` with the sample configuration. -/
def sampleStarted : CM17TS :=
  stateOr (construct confSample) (startup "1.0".toList (construct confSample))

/-- The loop as entered with the sample configuration and a zeroed buffer. -/
def sampleLoop : Loop :=
  Loop.enter sampleStarted (List.replicate 50 0)

/-- The sample loop after the given iterations. -/
def sampleLoopAfter (inputs : List (Option (List Char) × Option Nat)) : Loop :=
  loopOr sampleLoop (ticks libSample sampleLoop inputs)

/-- The sample loop after four idle iterations: the timer expires at the next
one, and both lists are still empty. -/
def sampleExpiring : Loop :=
  sampleLoopAfter (List.replicate 4 (none, none))

/-- The sample loop after `CHAN:A`, `DEST:B` and three idle iterations: the
timer has expired with both lists populated and is stopped. -/
def sampleStopped : Loop :=
  sampleLoopAfter ((some "CHAN:A".toList, none) :: (some "DEST:B".toList, none) ::
    List.replicate 3 (none, none))

/-- Reads for later iterations: a new channel list with a byte, a byte alone,
and idle iterations beyond the timer period. -/
def sampleReads : List (Option (List Char) × Option Nat) :=
  (some "CHAN:X:Y".toList, some 0x65) :: (none, some 0x02) :: List.replicate 8 (none, none)

/-! ## Vocabulary for the volume -/

/-- Whether a datagram written to the daemon is a `VOL` command. -/
def isVol (d : List Char) : Bool :=
  "VOL:".toList.isPrefixOf d

/-- The handler step from `st` to `st1` left the volume alone: `m_volume` is
unchanged and no `VOL` command was added to the socket trace. -/
def SameVolume (st st1 : CM17TS) : Prop :=
  st1.m_volume = st.m_volume ∧ st1.socket.filter isVol = st.socket.filter isVol

/-- The volume is at most 100 and so is the value of every `VOL` command in the
socket trace. -/
def VolumeOK (st : CM17TS) : Prop :=
  st.m_volume ≤ 100 ∧
  ∀ d ∈ st.socket.filter isVol, ∃ v, v ≤ 100 ∧ d = "VOL:".toList ++ fmtU v

/-- The states reached from `st0` by daemon datagrams and display frames whose
handlers return, when every slider value frame (`0x71`) that arrives while a
volume query is pending carries a value of at most 100. -/
inductive ReachableWithin (lib : LibC) (st0 : CM17TS) : CM17TS → Prop where
  | start : ReachableWithin lib st0 st0
  | command {st st1 : CM17TS} (datagram : List Char) :
      ReachableWithin lib st0 st → parseCommand lib st datagram = Except.ok st1 →
      ReachableWithin lib st0 st1
  | screen {st st1 : CM17TS} (frame : List Nat) (length : Nat) :
      ReachableWithin lib st0 st →
      (st.m_slider = SLIDER.SI_VOLUME → frame.getD 0 0 = 0x71 → sliderValue frame ≤ 100) →
      parseScreen st frame length = Except.ok st1 →
      ReachableWithin lib st0 st1

/-! ## Vocabulary for the page -/

/-- The page that a display directive selects: 0 for `page page0`, 1 for
`page page1`; any other directive (`page GPS` included) selects neither. -/
def pageOf (d : List Char) : Option Nat :=
  if d = "page page0".toList then some 0
  else if d = "page page1".toList then some 1
  else none

/-- The page named by the most recent `page page0` / `page page1` directive of a
display trace, if there is one. -/
def lastPage (uart : List (List Char)) : Option Nat :=
  (uart.filterMap pageOf).getLast?

/-- The member `m_page` names the page of the most recent `page page0` /
`page page1` directive written to the display. -/
def PageSync (st : CM17TS) : Prop :=
  lastPage st.uart = some st.m_page

/-- The handler step from `st` to `st1` left the page alone: `m_page` is
unchanged and no `page page0` / `page page1` directive was written. -/
def SamePage (st st1 : CM17TS) : Prop :=
  st1.m_page = st.m_page ∧ st1.uart.filterMap pageOf = st.uart.filterMap pageOf

/-- The sample host after the datagrams `CHAN:A:ABCDEFGHIJKLMNOPQRS` and
`DEST:X:ABCDEFGHIJKLMNOPQRS`: neither persisted name is in its list, so both
indices are 0 and the names sent back are `A` and `X`; the second entry of each
list has 19 characters. -/
def sampleLong : CM17TS :=
  sampleAfter [Event.datagram "CHAN:A:ABCDEFGHIJKLMNOPQRS".toList,
    Event.datagram "DEST:X:ABCDEFGHIJKLMNOPQRS".toList]

/-- The sample host after `startup` and the touch frame `65 02 01` (RIGHT on
the second page), which `parseScreen` answers with `gotoPage0`. -/
def samplePage0 : CM17TS :=
  stateOr sampleStarted (parseScreen sampleStarted [0x65, 2, 1, 255, 255, 255] 6)


/-! ## Basic facts -/

theorem vec_at_ok {α : Type} {v : List α} {i : Nat} {x : α}
    (h : vec_at v i = Except.ok x) : i < v.length ∧ v.get? i = some x := by
  unfold vec_at at h
  cases hg : v.get? i with
  | none => rw [hg] at h; cases h
  | some y =>
    rw [hg] at h
    injection h with h
    subst h
    exact ⟨(List.get?_eq_some.mp hg).1, rfl⟩

theorem vec_at_of_lt {α : Type} {v : List α} {i : Nat} (h : i < v.length) :
    vec_at v i = Except.ok (v.get ⟨i, h⟩) := by
  unfold vec_at
  rw [List.get?_eq_get h]

/-! ## The fixed-size arrays -/

theorem sendText_ok {st st1 : CM17TS} {d : List Char} (h : sendText st d = Except.ok st1) :
    st1 = sendCommand st d ∧ d.length < 100 := by
  unfold sendText at h
  split at h
  · rename_i hl
    injection h with h
    exact ⟨h.symm, hl⟩
  · cases h

theorem sendText_of_lt (st : CM17TS) {d : List Char} (h : d.length < 100) :
    sendText st d = Except.ok (sendCommand st d) := by
  unfold sendText
  rw [if_pos h]

theorem sendText_overrun (st : CM17TS) {d : List Char} (h : 100 ≤ d.length) :
    sendText st d = Except.error Fault.overrun := by
  unfold sendText
  rw [if_neg (by omega)]

theorem datagram_length (keyword name : List Char) :
    (keyword ++ [DELIMITER] ++ name).length = keyword.length + 1 + name.length := by
  simp only [List.length_append, List.length_cons, List.length_nil]

theorem setChannel_ok {st st1 : CM17TS} {c : List Char} (h : setChannel st c = Except.ok st1) :
    st1 = socketWrite st ("CHAN".toList ++ [DELIMITER] ++ c) ∧ c.length < 15 := by
  unfold setChannel at h
  split at h
  · rename_i hl
    injection h with h
    rw [datagram_length] at hl
    have h4 : "CHAN".toList.length = 4 := rfl
    exact ⟨h.symm, by omega⟩
  · cases h

theorem setChannel_of_lt (st : CM17TS) {c : List Char} (h : c.length < 15) :
    setChannel st c = Except.ok (socketWrite st ("CHAN".toList ++ [DELIMITER] ++ c)) := by
  unfold setChannel
  have h4 : "CHAN".toList.length = 4 := rfl
  rw [if_pos (by rw [datagram_length]; omega)]

theorem setChannel_overrun (st : CM17TS) {c : List Char} (h : 15 ≤ c.length) :
    setChannel st c = Except.error Fault.overrun := by
  unfold setChannel
  have h4 : "CHAN".toList.length = 4 := rfl
  rw [if_neg (by rw [datagram_length]; omega)]

theorem setDestination_ok {st st1 : CM17TS} {c : List Char}
    (h : setDestination st c = Except.ok st1) :
    st1 = socketWrite st ("DEST".toList ++ [DELIMITER] ++ c) ∧ c.length < 15 := by
  unfold setDestination at h
  split at h
  · rename_i hl
    injection h with h
    rw [datagram_length] at hl
    have h4 : "DEST".toList.length = 4 := rfl
    exact ⟨h.symm, by omega⟩
  · cases h

theorem setDestination_of_lt (st : CM17TS) {c : List Char} (h : c.length < 15) :
    setDestination st c = Except.ok (socketWrite st ("DEST".toList ++ [DELIMITER] ++ c)) := by
  unfold setDestination
  have h4 : "DEST".toList.length = 4 := rfl
  rw [if_pos (by rw [datagram_length]; omega)]

theorem setDestination_overrun (st : CM17TS) {c : List Char} (h : 15 ≤ c.length) :
    setDestination st c = Except.error Fault.overrun := by
  unfold setDestination
  have h4 : "DEST".toList.length = 4 := rfl
  rw [if_neg (by rw [datagram_length]; omega)]

/-- A returned `showSelection` wrote nothing or the two selection directives. -/
theorem showSelection_form {st st1 : CM17TS} (h : showSelection st = Except.ok st1) :
    st1 = st ∨ ∃ c d, st1 = sendCommand (sendCommand st c) d ∧
      c.head? = some 'C' ∧ d.head? = some 'D' := by
  unfold showSelection at h
  split at h
  · split at h
    · cases h
    · split at h
      · cases h
      · rename_i s1 hs1
        split at h
        · cases h
        · obtain ⟨e1, -⟩ := sendText_ok hs1
          obtain ⟨e2, -⟩ := sendText_ok h
          subst e1
          exact Or.inr ⟨_, _, e2, rfl, rfl⟩
  · injection h with h
    exact Or.inl h.symm

/-- A returned `gotoPage1Tail` wrote its six directives. -/
theorem gotoPage1Tail_form {st st1 : CM17TS} (h : gotoPage1Tail st = Except.ok st1) :
    st1 = sendCommand (sendCommand (sendCommand (sendCommand (sendCommand (sendCommand st
      ("SOURCE.txt=\"".toList ++ st.m_source ++ "\"".toList))
      ("CALLSIGNS.txt=\"".toList ++ st.m_callsigns ++ "\"".toList))
      ("TEXT.txt=\"".toList ++ st.m_text ++ "\"".toList))
      (if st.m_receive then "RX.txt=\"RX\"".toList else "RX.txt=\"\"".toList))
      (if st.m_transmit then "TX.txt=\"TX\"".toList else "TX.txt=\"\"".toList))
      ("S_METER.val=".toList ++ fmtU st.m_sMeter) := by
  unfold gotoPage1Tail at h
  split at h
  · cases h
  · rename_i s1 h1
    split at h
    · cases h
    · rename_i s2 h2
      split at h
      · cases h
      · rename_i s3 h3
        obtain ⟨e1, -⟩ := sendText_ok h1
        obtain ⟨e2, -⟩ := sendText_ok h2
        obtain ⟨e3, -⟩ := sendText_ok h3
        subst e1
        subst e2
        subst e3
        injection h with h
        rw [← h]
        cases hr : st.m_receive <;> cases ht : st.m_transmit <;>
          simp [sendCommand, hr, ht]

theorem SameSelection.indexValid {st st1 : CM17TS} (h : SameSelection st st1)
    (hv : IndexValid st) : IndexValid st1 := by
  obtain ⟨h1, h2, h3, h4⟩ := h
  unfold IndexValid at *
  rw [h1, h2, h3, h4]
  exact hv

theorem sameSelection_refl (st : CM17TS) : SameSelection st st := ⟨rfl, rfl, rfl, rfl⟩

theorem SameSelection.trans {a b c : CM17TS} (h1 : SameSelection a b) (h2 : SameSelection b c) :
    SameSelection a c := by
  obtain ⟨a1, a2, a3, a4⟩ := h1
  obtain ⟨b1, b2, b3, b4⟩ := h2
  exact ⟨b1.trans a1, b2.trans a2, b3.trans a3, b4.trans a4⟩

theorem showSelection_same {st st1 : CM17TS} (h : showSelection st = Except.ok st1) :
    SameSelection st st1 := by
  rcases showSelection_form h with e | ⟨c, d, e, -, -⟩
  · subst e
    exact sameSelection_refl _
  · subst e
    exact ⟨rfl, rfl, rfl, rfl⟩

theorem sendCommand_same (st : CM17TS) (c : List Char) : SameSelection st (sendCommand st c) :=
  ⟨rfl, rfl, rfl, rfl⟩

theorem gotoPage1Tail_same {st st1 : CM17TS} (h : gotoPage1Tail st = Except.ok st1) :
    SameSelection st st1 := by
  rw [gotoPage1Tail_form h]
  repeat (refine SameSelection.trans ?_ (sendCommand_same _ _))
  exact sameSelection_refl _

theorem gotoPage1_same {st st1 : CM17TS} (h : gotoPage1 st = Except.ok st1) :
    SameSelection st st1 := by
  unfold gotoPage1 at h
  dsimp only at h
  split at h
  · cases h
  · rename_i st3 h3
    exact (showSelection_same h3).trans (gotoPage1Tail_same h)

theorem gotoPage0_same {st st1 : CM17TS} (h : gotoPage0 st = Except.ok st1) :
    SameSelection st st1 := by
  unfold gotoPage0 at h
  have h1 := showSelection_same h
  exact SameSelection.trans (by exact ⟨rfl, rfl, rfl, rfl⟩) h1

theorem showRX_same {st st1 : CM17TS} {isEnd : Bool} {source destination : List Char}
    (h : showRX st isEnd source destination = Except.ok st1) : SameSelection st st1 := by
  unfold showRX at h
  split at h
  · injection h with h
    rw [← h]
    repeat (refine SameSelection.trans ?_ (sendCommand_same _ _))
    exact ⟨rfl, rfl, rfl, rfl⟩
  · split at h
    · cases h
    · rename_i st2 h2
      dsimp only at h
      split at h
      · cases h
      · rename_i st6 h6
        obtain ⟨e6, -⟩ := sendText_ok h6
        subst e6
        injection h with h
        rw [← h]
        repeat (refine SameSelection.trans ?_ (sendCommand_same _ _))
        have h3 := gotoPage1_same h2
        exact SameSelection.trans (SameSelection.trans (by exact ⟨rfl, rfl, rfl, rfl⟩) h3)
          (by exact ⟨rfl, rfl, rfl, rfl⟩)

theorem commandRX_same {st st1 : CM17TS} {ptrs : List (List Char)}
    (h : commandRX st ptrs = Except.ok st1) : SameSelection st st1 := by
  unfold commandRX at h
  split at h
  · cases h
  · split at h
    · cases h
    · split at h
      · cases h
      · exact showRX_same h

theorem commandTX_same {st st1 : CM17TS} {ptrs : List (List Char)}
    (h : commandTX st ptrs = Except.ok st1) : SameSelection st st1 := by
  unfold commandTX at h
  split at h
  · cases h
  · dsimp only at h
    split at h <;>
    · injection h with h
      subst h
      exact ⟨rfl, rfl, rfl, rfl⟩

theorem showRSSI_same (st : CM17TS) (rssi : Int) : SameSelection st (showRSSI st rssi) := by
  unfold showRSSI
  dsimp only
  split <;> exact ⟨rfl, rfl, rfl, rfl⟩

theorem showAltitude_same (lib : LibC) (st : CM17TS) (a : Option ℚ) :
    SameSelection st (showAltitude lib st a) := by
  unfold showAltitude
  split
  · split <;> exact ⟨rfl, rfl, rfl, rfl⟩
  · exact sameSelection_refl _

theorem showSpeedTrack_same (lib : LibC) (st : CM17TS) (s t : Option ℚ) :
    SameSelection st (showSpeedTrack lib st s t) := by
  unfold showSpeedTrack
  split
  · dsimp only
    split <;> exact ⟨rfl, rfl, rfl, rfl⟩
  · exact sameSelection_refl _

theorem showBearingDistance_same (lib : LibC) (st : CM17TS) (b d : Option ℚ) :
    SameSelection st (showBearingDistance lib st b d) := by
  unfold showBearingDistance
  split
  · dsimp only
    split <;> exact ⟨rfl, rfl, rfl, rfl⟩
  · exact sameSelection_refl _

theorem showGPS_same (lib : LibC) (st : CM17TS) (latitude longitude : ℚ) (locator : List Char)
    (altitude speed track bearing distance : Option ℚ) :
    SameSelection st
      (showGPS lib st latitude longitude locator altitude speed track bearing distance) := by
  unfold showGPS
  dsimp only
  refine SameSelection.trans ?_ (sendCommand_same _ _)
  refine SameSelection.trans ?_ (sendCommand_same _ _)
  refine SameSelection.trans ?_ (showBearingDistance_same _ _ _ _)
  refine SameSelection.trans ?_ (showSpeedTrack_same _ _ _ _)
  refine SameSelection.trans ?_ (showAltitude_same _ _ _)
  refine SameSelection.trans ?_ (sendCommand_same _ _)
  split <;> split <;> exact ⟨rfl, rfl, rfl, rfl⟩

theorem selectChannel_valid {st st1 : CM17TS} (h : selectChannel st = Except.ok st1) :
    st1.m_channels = st.m_channels ∧ st1.m_channelIdx < st1.m_channels.length ∧
    st1.m_destinations = st.m_destinations ∧ st1.m_destinationIdx = st.m_destinationIdx := by
  unfold selectChannel at h
  dsimp only at h
  split at h
  · cases h
  · rename_i ch hch
    split at h
    · cases h
    · rename_i s2 hs2
      obtain ⟨e2, -⟩ := sendText_ok hs2
      obtain ⟨e3, -⟩ := setChannel_ok h
      subst e2
      subst e3
      exact ⟨rfl, (vec_at_ok hch).1, rfl, rfl⟩

theorem selectDestination_valid {st st1 : CM17TS} (h : selectDestination st = Except.ok st1) :
    st1.m_destinations = st.m_destinations ∧
    st1.m_destinationIdx < st1.m_destinations.length ∧
    st1.m_channels = st.m_channels ∧ st1.m_channelIdx = st.m_channelIdx := by
  unfold selectDestination at h
  dsimp only at h
  split at h
  · cases h
  · rename_i d hd
    split at h
    · cases h
    · rename_i s2 hs2
      obtain ⟨e2, -⟩ := sendText_ok hs2
      obtain ⟨e3, -⟩ := setDestination_ok h
      subst e2
      subst e3
      exact ⟨rfl, (vec_at_ok hd).1, rfl, rfl⟩

theorem channelChanged_valid {st st1 : CM17TS} {val : Int}
    (h : channelChanged st val = Except.ok st1) :
    st1.m_channels = st.m_channels ∧ st1.m_channelIdx < st1.m_channels.length ∧
    st1.m_destinations = st.m_destinations ∧ st1.m_destinationIdx = st.m_destinationIdx := by
  unfold channelChanged at h
  split at h
  · cases h
  · dsimp only at h
    split at h
    · cases h
    · rename_i ch hch
      split at h
      · cases h
      · rename_i s2 hs2
        obtain ⟨e2, -⟩ := sendText_ok hs2
        obtain ⟨e3, -⟩ := setChannel_ok h
        subst e2
        subst e3
        exact ⟨rfl, (vec_at_ok hch).1, rfl, rfl⟩

theorem destinationChanged_valid {st st1 : CM17TS} {val : Int}
    (h : destinationChanged st val = Except.ok st1) :
    st1.m_destinations = st.m_destinations ∧
    st1.m_destinationIdx < st1.m_destinations.length ∧
    st1.m_channels = st.m_channels ∧ st1.m_channelIdx = st.m_channelIdx := by
  unfold destinationChanged at h
  split at h
  · cases h
  · dsimp only at h
    split at h
    · cases h
    · rename_i d hd
      split at h
      · cases h
      · rename_i s2 hs2
        obtain ⟨e2, -⟩ := sendText_ok hs2
        obtain ⟨e3, -⟩ := setDestination_ok h
        subst e2
        subst e3
        exact ⟨rfl, (vec_at_ok hd).1, rfl, rfl⟩

theorem indexValid_of_channel {st st1 : CM17TS} (hv : IndexValid st)
    (h : st1.m_channelIdx < st1.m_channels.length ∧
      st1.m_destinations = st.m_destinations ∧ st1.m_destinationIdx = st.m_destinationIdx) :
    IndexValid st1 := by
  obtain ⟨h1, h2, h3⟩ := h
  refine ⟨fun _ => h1, ?_⟩
  rw [h2, h3]
  exact hv.2

theorem indexValid_of_destination {st st1 : CM17TS} (hv : IndexValid st)
    (h : st1.m_destinationIdx < st1.m_destinations.length ∧
      st1.m_channels = st.m_channels ∧ st1.m_channelIdx = st.m_channelIdx) :
    IndexValid st1 := by
  obtain ⟨h1, h2, h3⟩ := h
  refine ⟨?_, fun _ => h1⟩
  rw [h2, h3]
  exact hv.1

theorem parseCommand_indexValid {lib : LibC} {st st1 : CM17TS} {command : List Char}
    (hv : IndexValid st) (h : parseCommand lib st command = Except.ok st1) :
    IndexValid st1 := by
  unfold parseCommand at h
  dsimp only at h
  split at h
  · cases h
  · split at h
    · have h1 := selectChannel_valid h
      exact indexValid_of_channel hv h1.2
    · split at h
      · have h1 := selectDestination_valid h
        exact indexValid_of_destination hv h1.2
      · split at h
        · exact (commandRX_same h).indexValid hv
        · split at h
          · exact (commandTX_same h).indexValid hv
          · split at h
            · split at h
              · cases h
              · obtain ⟨e, -⟩ := sendText_ok h
                subst e
                exact SameSelection.indexValid ⟨rfl, rfl, rfl, rfl⟩ hv
            · split at h
              · split at h
                · cases h
                · obtain ⟨e, -⟩ := sendText_ok h
                  subst e
                  exact SameSelection.indexValid ⟨rfl, rfl, rfl, rfl⟩ hv
              · split at h
                · split at h
                  · cases h
                  · injection h with h
                    subst h
                    exact (showRSSI_same _ _).indexValid hv
                · split at h
                  · split at h
                    · cases h
                    · injection h with h
                      subst h
                      exact (showGPS_same _ _ _ _ _ _ _ _ _ _).indexValid hv
                  · injection h with h
                    subst h
                    exact hv

theorem parseScreen_indexValid {st st1 : CM17TS} {frame : List Nat} {length : Nat}
    (hv : IndexValid st) (h : parseScreen st frame length = Except.ok st1) :
    IndexValid st1 := by
  unfold parseScreen at h
  have hid : ∀ {s : CM17TS}, Except.ok (ε := Fault) st = Except.ok s → IndexValid s := by
    intro s hs
    injection hs with hs
    subst hs
    exact hv
  have hch : ∀ {v : Int} {s : CM17TS}, channelChanged st v = Except.ok s → IndexValid s :=
    fun hs => indexValid_of_channel hv (channelChanged_valid hs).2
  have hde : ∀ {v : Int} {s : CM17TS}, destinationChanged st v = Except.ok s → IndexValid s :=
    fun hs => indexValid_of_destination hv (destinationChanged_valid hs).2
  have hp1 : ∀ {s : CM17TS}, gotoPage1 st = Except.ok s → IndexValid s :=
    fun hs => (gotoPage1_same hs).indexValid hv
  have hp0 : ∀ {s : CM17TS}, gotoPage0 st = Except.ok s → IndexValid s :=
    fun hs => (gotoPage0_same hs).indexValid hv
  split at h
  · split at h
    · split at h
      · exact hch h
      · split at h
        · exact hch h
        · split at h
          · exact hde h
          · split at h
            · exact hde h
            · split at h
              · exact hp1 h
              · split at h
                · exact hp1 h
                · split at h
                  · injection h with h
                    subst h
                    exact SameSelection.indexValid ⟨rfl, rfl, rfl, rfl⟩ hv
                  · exact hid h
    · split at h
      · split at h
        · exact hp0 h
        · split at h
          · exact hp0 h
          · split at h
            · injection h with h
              subst h
              exact SameSelection.indexValid ⟨rfl, rfl, rfl, rfl⟩ hv
            · exact hid h
      · exact hid h
  · split at h
    · split at h
      · injection h with h
        subst h
        exact SameSelection.indexValid ⟨rfl, rfl, rfl, rfl⟩ hv
      · exact hid h
    · exact hid h

theorem initial_indexValid {st : CM17TS} (h : Initial st) : IndexValid st := by
  obtain ⟨h1, h2, _, _⟩ := h
  exact ⟨fun hne => absurd h1 hne, fun hne => absurd h2 hne⟩

theorem reachable_handleAll {lib : LibC} {st st1 : CM17TS} (evs : List Event)
    (hr : Reachable lib st) (h : handleAll lib st evs = Except.ok st1) : Reachable lib st1 := by
  induction evs generalizing st with
  | nil =>
    injection h with h
    subst h
    exact hr
  | cons ev evs ih =>
    unfold handleAll at h
    split at h
    · cases h
    · rename_i st2 h2
      refine ih ?_ h
      cases ev with
      | datagram c => exact Reachable.command c hr h2
      | frame b l => exact Reachable.screen b l hr h2

theorem initial_construct (conf : CConf) : Initial (construct conf) := ⟨rfl, rfl, rfl, rfl⟩

theorem reachable_indexValid {lib : LibC} {st : CM17TS} (h : Reachable lib st) :
    IndexValid st := by
  induction h with
  | init hi => exact initial_indexValid hi
  | command d _ hs ih => exact parseCommand_indexValid ih hs
  | screen f l _ hs ih => exact parseScreen_indexValid ih hs

theorem sampleAfter_reachable (evs : List Event)
    (h : handleAll libSample (construct confSample) evs = Except.ok (sampleAfter evs)) :
    Reachable libSample (sampleAfter evs) :=
  reachable_handleAll evs (Reachable.init (initial_construct _)) h

/-! ## The tokenizer -/

theorem strtok_rest_length {s p rest : List Char} (h : strtok s = some (p, rest)) :
    rest.length < s.length := by
  unfold strtok at h
  split at h
  · cases h
  · rename_i c cs hd
    injection h with h
    injection h with _ h2
    subst h2
    have h1 : ((c :: cs).dropWhile (fun x => x ≠ DELIMITER)).length ≤ (c :: cs).length :=
      (List.dropWhile_sublist _).length_le
    have h3 : (s.dropWhile (fun c => c = DELIMITER)).length ≤ s.length :=
      (List.dropWhile_sublist _).length_le
    rw [hd] at h3
    rw [List.length_drop]
    simp only [List.length_cons] at h1 h3
    omega

theorem strtokLoop_length_le (fuel : Nat) (s : List Char) :
    (strtokLoop fuel s).length ≤ s.length := by
  induction fuel generalizing s with
  | zero => simp [strtokLoop]
  | succ n ih =>
    unfold strtokLoop
    split
    · simp
    · rename_i p rest h
      have h1 := strtok_rest_length h
      have h2 := ih rest
      simp only [List.length_cons]
      omega

theorem cstr_length_le (buf : List Char) : (cstr buf).length ≤ buf.length :=
  (List.takeWhile_sublist _).length_le

theorem splitFields_length_le (command : List Char) :
    (splitFields command).length ≤ command.length :=
  (strtokLoop_length_le _ _).trans (cstr_length_le _)

/-! ## Selection by name -/

/-- The loop returns the sentinel unchanged when no entry matches, and
otherwise the position of the first match (counted from `n`). -/
theorem selectLoop_spec (persisted : List Char) (l : List (List Char)) (n idx : Nat)
    (h : n + l.length ≤ U32) :
    (persisted ∉ l → selectLoop persisted l n idx = idx) ∧
    (persisted ∈ l → ∃ k, selectLoop persisted l n idx = n + k ∧ k < l.length ∧
        l.get? k = some persisted ∧ ∀ j, j < k → l.get? j ≠ some persisted) := by
  induction l generalizing n with
  | nil => simp [selectLoop]
  | cons it rest ih =>
    unfold selectLoop
    by_cases he : it = persisted
    · subst he
      simp only [if_true, List.mem_cons, true_or, not_true_eq_false, false_implies, true_and,
        forall_true_left]
      exact ⟨0, rfl, by simp, rfl, fun j hj => absurd hj (Nat.not_lt_zero j)⟩
    · have he1 : persisted ≠ it := fun e => he e.symm
      rw [if_neg he]
      by_cases hr : rest = []
      · subst hr
        simp [selectLoop, he1]
      · have hpos : 0 < rest.length := List.length_pos.mpr hr
        simp only [List.length_cons] at h
        have hmod : (n + 1) % U32 = n + 1 := Nat.mod_eq_of_lt (by omega)
        rw [hmod]
        obtain ⟨ih1, ih2⟩ := ih (n + 1) (by omega)
        constructor
        · intro hm
          exact ih1 (fun hc => hm (List.mem_cons_of_mem _ hc))
        · intro hm
          have hm1 : persisted ∈ rest := by
            rcases List.mem_cons.mp hm with hc | hc
            · exact absurd hc he1
            · exact hc
          obtain ⟨k, hk1, hk2, hk3, hk4⟩ := ih2 hm1
          refine ⟨k + 1, by rw [hk1]; omega, by simp only [List.length_cons]; omega, ?_, ?_⟩
          · simpa using hk3
          · intro j hj
            cases j with
            | zero =>
              simp only [List.get?_cons_zero, ne_eq, Option.some.injEq]
              exact he
            | succ j =>
              simp only [List.get?_cons_succ]
              exact hk4 j (by omega)

/-- The index chosen by name: the first position of the persisted name, or 0. -/
theorem selectIdx_spec (persisted : List Char) (l : List (List Char)) (hne : l ≠ [])
    (h : l.length < 0xFFFF) :
    (if selectLoop persisted l 0 0xFFFF = 0xFFFF then 0 else selectLoop persisted l 0 0xFFFF)
        < l.length ∧
    (persisted ∈ l →
      l.get? (if selectLoop persisted l 0 0xFFFF = 0xFFFF then 0
              else selectLoop persisted l 0 0xFFFF) = some persisted ∧
      ∀ j, j < (if selectLoop persisted l 0 0xFFFF = 0xFFFF then 0
                else selectLoop persisted l 0 0xFFFF) → l.get? j ≠ some persisted) ∧
    (persisted ∉ l →
      (if selectLoop persisted l 0 0xFFFF = 0xFFFF then 0
       else selectLoop persisted l 0 0xFFFF) = 0) := by
  obtain ⟨h1, h2⟩ := selectLoop_spec persisted l 0 0xFFFF (by unfold U32; omega)
  have hpos : 0 < l.length := List.length_pos.mpr hne
  by_cases hm : persisted ∈ l
  · obtain ⟨k, hk1, hk2, hk3, hk4⟩ := h2 hm
    rw [hk1, Nat.zero_add, if_neg (by omega)]
    exact ⟨hk2, fun _ => ⟨hk3, hk4⟩, fun hc => absurd hm hc⟩
  · rw [h1 hm, if_pos rfl]
    exact ⟨hpos, fun hc => absurd hc hm, fun _ => rfl⟩

theorem directive_length (widget name : List Char) :
    (widget ++ name ++ "\"".toList).length = widget.length + name.length + 1 := by
  simp only [List.length_append]
  rfl

theorem get_short {l : List (List Char)} {b : Nat} (hshort : ∀ n ∈ l, n.length < b) {i : Nat}
    (h : i < l.length) : (l.get ⟨i, h⟩).length < b :=
  hshort _ (List.get_mem l i h)

theorem selectChannel_spec (st : CM17TS) (hne : st.m_channels ≠ [])
    (hlen : st.m_channels.length < 0xFFFF) (hshort : ∀ n ∈ st.m_channels, n.length < 15) :
    ∃ st1, selectChannel st = Except.ok st1 ∧ st1.m_channels = st.m_channels ∧
      st1.m_conf = st.m_conf ∧
      (st.m_conf.channel ∈ st.m_channels →
        st.m_channels.get? st1.m_channelIdx = some st.m_conf.channel ∧
        ∀ j, j < st1.m_channelIdx → st.m_channels.get? j ≠ some st.m_conf.channel) ∧
      (st.m_conf.channel ∉ st.m_channels → st1.m_channelIdx = 0) := by
  obtain ⟨hlt, h1, h2⟩ := selectIdx_spec st.m_conf.channel st.m_channels hne hlen
  have hs := get_short hshort hlt
  have hw : "CHANNEL.txt=\"".toList.length = 13 := rfl
  unfold selectChannel
  dsimp only
  rw [vec_at_of_lt hlt]
  dsimp only
  rw [sendText_of_lt _ (by rw [directive_length]; omega)]
  dsimp only
  rw [setChannel_of_lt _ hs]
  exact ⟨_, rfl, rfl, rfl, h1, h2⟩

theorem selectDestination_spec (st : CM17TS) (hne : st.m_destinations ≠ [])
    (hlen : st.m_destinations.length < 0xFFFF)
    (hshort : ∀ n ∈ st.m_destinations, n.length < 15) :
    ∃ st1, selectDestination st = Except.ok st1 ∧ st1.m_destinations = st.m_destinations ∧
      st1.m_conf = st.m_conf ∧
      (st.m_conf.destination ∈ st.m_destinations →
        st.m_destinations.get? st1.m_destinationIdx = some st.m_conf.destination ∧
        ∀ j, j < st1.m_destinationIdx →
          st.m_destinations.get? j ≠ some st.m_conf.destination) ∧
      (st.m_conf.destination ∉ st.m_destinations → st1.m_destinationIdx = 0) := by
  obtain ⟨hlt, h1, h2⟩ := selectIdx_spec st.m_conf.destination st.m_destinations hne hlen
  have hs := get_short hshort hlt
  have hw : "DESTINATION.txt=\"".toList.length = 17 := rfl
  unfold selectDestination
  dsimp only
  rw [vec_at_of_lt hlt]
  dsimp only
  rw [sendText_of_lt _ (by rw [directive_length]; omega)]
  dsimp only
  rw [setDestination_of_lt _ hs]
  exact ⟨_, rfl, rfl, rfl, h1, h2⟩

theorem parseCommand_CHAN (lib : LibC) (st : CM17TS) (command : List Char)
    (names : List (List Char)) (h : splitFields command = "CHAN".toList :: names) :
    parseCommand lib st command = selectChannel { st with m_channels := names } := by
  unfold parseCommand
  dsimp only
  rw [h]
  rfl

theorem parseCommand_DEST (lib : LibC) (st : CM17TS) (command : List Char)
    (names : List (List Char)) (h : splitFields command = "DEST".toList :: names) :
    parseCommand lib st command = selectDestination { st with m_destinations := names } := by
  unfold parseCommand
  dsimp only
  rw [h]
  rfl

theorem names_length_lt {command keyword : List Char} {names : List (List Char)}
    (h100 : command.length ≤ 100) (h : splitFields command = keyword :: names) :
    names.length < 0xFFFF := by
  have := splitFields_length_le command
  rw [h] at this
  simp only [List.length_cons] at this
  omega

/-! ## Rotation -/

theorem rotateIdx_forward (i n : Nat) (hi : i < n) (hn : n < U32) :
    rotateIdx i n 1 = (i + 1) % n := by
  unfold rotateIdx
  have h1 : ¬ ((1 : Int) = -1) := by decide
  rw [if_neg h1]
  have hmod : (i + 1) % U32 = i + 1 := Nat.mod_eq_of_lt (by omega)
  rw [hmod]
  by_cases he : i + 1 = n
  · rw [if_pos he, he, Nat.mod_self]
  · rw [if_neg he, Nat.mod_eq_of_lt (by omega)]

theorem rotateIdx_backward (i n : Nat) (hi : i < n) (hn : n < U32) :
    rotateIdx i n (-1) = (i + n - 1) % n := by
  unfold rotateIdx
  rw [if_pos rfl]
  by_cases h0 : i = 0
  · subst h0
    rw [if_pos rfl]
    have e : n + U32 - 1 = (n - 1) + U32 := by omega
    rw [e, Nat.add_mod_right, Nat.mod_eq_of_lt (by omega), Nat.zero_add,
      Nat.mod_eq_of_lt (by omega)]
  · rw [if_neg h0]
    have e : i + n - 1 = (i - 1) + n := by omega
    rw [e, Nat.add_mod_right, Nat.mod_eq_of_lt (by omega)]

theorem channelChanged_spec (st : CM17TS) (val : Int) (hne : st.m_channels ≠ [])
    (hlt : rotateIdx st.m_channelIdx st.m_channels.length val < st.m_channels.length)
    (hshort : ∀ n ∈ st.m_channels, n.length < 15) :
    ∃ st1, channelChanged st val = Except.ok st1 ∧ st1.m_channels = st.m_channels ∧
      st1.m_channelIdx = rotateIdx st.m_channelIdx st.m_channels.length val := by
  unfold channelChanged
  have he : st.m_channels.isEmpty = false := by
    cases hc : st.m_channels with
    | nil => exact absurd hc hne
    | cons a l => rfl
  have hs := get_short hshort hlt
  have hw : "CHANNEL.txt=\"".toList.length = 13 := rfl
  rw [he]
  dsimp only
  rw [vec_at_of_lt hlt]
  dsimp only
  rw [sendText_of_lt _ (by rw [directive_length]; omega)]
  dsimp only
  rw [setChannel_of_lt _ hs]
  exact ⟨_, rfl, rfl, rfl⟩

theorem destinationChanged_spec (st : CM17TS) (val : Int) (hne : st.m_destinations ≠ [])
    (hlt : rotateIdx st.m_destinationIdx st.m_destinations.length val <
      st.m_destinations.length)
    (hshort : ∀ n ∈ st.m_destinations, n.length < 15) :
    ∃ st1, destinationChanged st val = Except.ok st1 ∧
      st1.m_destinations = st.m_destinations ∧
      st1.m_destinationIdx = rotateIdx st.m_destinationIdx st.m_destinations.length val := by
  unfold destinationChanged
  have he : st.m_destinations.isEmpty = false := by
    cases hc : st.m_destinations with
    | nil => exact absurd hc hne
    | cons a l => rfl
  have hs := get_short hshort hlt
  have hw : "DESTINATION.txt=\"".toList.length = 17 := rfl
  rw [he]
  dsimp only
  rw [vec_at_of_lt hlt]
  dsimp only
  rw [sendText_of_lt _ (by rw [directive_length]; omega)]
  dsimp only
  rw [setDestination_of_lt _ hs]
  exact ⟨_, rfl, rfl, rfl⟩

theorem iterate_channel_forward (k : Nat) (st : CM17TS) (hne : st.m_channels ≠ [])
    (hi : st.m_channelIdx < st.m_channels.length) (hn : st.m_channels.length < U32)
    (hshort : ∀ n ∈ st.m_channels, n.length < 15) :
    ∃ st1, iterate (fun s => channelChanged s 1) k st = Except.ok st1 ∧
      st1.m_channels = st.m_channels ∧
      st1.m_channelIdx = (st.m_channelIdx + k) % st.m_channels.length := by
  induction k generalizing st with
  | zero => exact ⟨st, rfl, rfl, (Nat.mod_eq_of_lt hi).symm⟩
  | succ k ih =>
    have hpos : 0 < st.m_channels.length := List.length_pos.mpr hne
    have hr := rotateIdx_forward _ _ hi hn
    obtain ⟨st1, e1, e2, e3⟩ := channelChanged_spec st 1 hne
      (by rw [hr]; exact Nat.mod_lt _ hpos) hshort
    have hi1 : st1.m_channelIdx < st1.m_channels.length := by
      rw [e3, e2, hr]
      exact Nat.mod_lt _ hpos
    obtain ⟨st2, f1, f2, f3⟩ := ih st1 (by rw [e2]; exact hne) hi1 (by rw [e2]; exact hn)
      (by rw [e2]; exact hshort)
    refine ⟨st2, ?_, f2.trans e2, ?_⟩
    · unfold iterate
      rw [e1]
      exact f1
    · rw [f3, e3, e2, hr, Nat.mod_add_mod]
      congr 1
      omega

theorem iterate_destination_forward (k : Nat) (st : CM17TS) (hne : st.m_destinations ≠ [])
    (hi : st.m_destinationIdx < st.m_destinations.length)
    (hn : st.m_destinations.length < U32)
    (hshort : ∀ n ∈ st.m_destinations, n.length < 15) :
    ∃ st1, iterate (fun s => destinationChanged s 1) k st = Except.ok st1 ∧
      st1.m_destinations = st.m_destinations ∧
      st1.m_destinationIdx = (st.m_destinationIdx + k) % st.m_destinations.length := by
  induction k generalizing st with
  | zero => exact ⟨st, rfl, rfl, (Nat.mod_eq_of_lt hi).symm⟩
  | succ k ih =>
    have hpos : 0 < st.m_destinations.length := List.length_pos.mpr hne
    have hr := rotateIdx_forward _ _ hi hn
    obtain ⟨st1, e1, e2, e3⟩ := destinationChanged_spec st 1 hne
      (by rw [hr]; exact Nat.mod_lt _ hpos) hshort
    have hi1 : st1.m_destinationIdx < st1.m_destinations.length := by
      rw [e3, e2, hr]
      exact Nat.mod_lt _ hpos
    obtain ⟨st2, f1, f2, f3⟩ := ih st1 (by rw [e2]; exact hne) hi1 (by rw [e2]; exact hn)
      (by rw [e2]; exact hshort)
    refine ⟨st2, ?_, f2.trans e2, ?_⟩
    · unfold iterate
      rw [e1]
      exact f1
    · rw [f3, e3, e2, hr, Nat.mod_add_mod]
      congr 1
      omega

/-! ## Slider frames -/

theorem or_bytes_eq (b1 b2 b3 b4 : Nat) (h1 : b1 < 256) (h2 : b2 < 256) (h3 : b3 < 256) :
    (b4 <<< 24) ||| (b3 <<< 16) ||| (b2 <<< 8) ||| (b1 <<< 0) =
      b1 + 256 * b2 + 65536 * b3 + 16777216 * b4 := by
  simp only [Nat.shiftLeft_eq, Nat.pow_zero, Nat.mul_one]
  have e1 : b4 * 2 ^ 24 ||| b3 * 2 ^ 16 = 2 ^ 16 * (b3 + 256 * b4) := by
    have := Nat.mul_add_lt_is_or (i := 24) (b := b3 * 2 ^ 16) (by omega) b4
    rw [Nat.mul_comm b4 (2 ^ 24), ← this]
    omega
  have e2 : 2 ^ 16 * (b3 + 256 * b4) ||| b2 * 2 ^ 8 = 2 ^ 8 * (b2 + 256 * b3 + 65536 * b4) := by
    have := Nat.mul_add_lt_is_or (i := 16) (b := b2 * 2 ^ 8) (by omega) (b3 + 256 * b4)
    rw [← this]
    omega
  have e3 : 2 ^ 8 * (b2 + 256 * b3 + 65536 * b4) ||| b1 =
      b1 + 256 * b2 + 65536 * b3 + 16777216 * b4 := by
    have := Nat.mul_add_lt_is_or (i := 8) (b := b1) (by omega) (b2 + 256 * b3 + 65536 * b4)
    rw [← this]
    omega
  rw [e1, e2, e3]

theorem sliderValue_frame (b0 b1 b2 b3 b4 : Nat) (rest : List Nat)
    (h1 : b1 < 256) (h2 : b2 < 256) (h3 : b3 < 256) :
    sliderValue (b0 :: b1 :: b2 :: b3 :: b4 :: rest) =
      b1 + 256 * b2 + 65536 * b3 + 16777216 * b4 := by
  unfold sliderValue
  simp only [List.getD_cons_succ, List.getD_cons_zero]
  exact or_bytes_eq b1 b2 b3 b4 h1 h2 h3

theorem parseScreen_slider (st : CM17TS) (rest : List Nat) (length : Nat) :
    parseScreen st (0x71 :: rest) length =
      match st.m_slider with
      | SLIDER.SI_VOLUME =>
        Except.ok { setVolume { st with m_volume := sliderValue (0x71 :: rest) }
                      (sliderValue (0x71 :: rest)) with m_slider := SLIDER.SI_NONE }
      | _ => Except.ok st := by
  unfold parseScreen
  have h0 : ¬ ((0x71 :: rest).getD 0 0 = 0x65) := by
    simp only [List.getD_cons_zero]
    decide
  have h1 : (0x71 :: rest).getD 0 0 = 0x71 := by simp only [List.getD_cons_zero]
  rw [if_neg h0, if_pos h1]

/-! ## Signal strength -/

theorem sMeterOf_eq (rssi : Int) :
    ((sMeterOf rssi : Nat) : Int) =
      if |rssi| < 140 then min 100 (max 0 (140 - rssi)) else 0 := by
  unfold sMeterOf RSSI_BASE U32
  dsimp only
  have habs : |rssi| = (rssi.natAbs : Int) := Int.abs_eq_natAbs rssi
  rw [habs]
  by_cases h : rssi.natAbs < 140
  · have h' : (rssi.natAbs : Int) < 140 := by omega
    rw [if_pos h, if_pos h']
    have hmod : ((140 : Int) - rssi) % 4294967296 = 140 - rssi :=
      Int.emod_eq_of_lt (by omega) (by omega)
    simp only [Nat.cast_ofNat] at *
    rw [hmod]
    by_cases h2 : (140 - rssi).toNat > 100
    · rw [if_pos h2]
      have : (100 : Int) < 140 - rssi := by omega
      rw [max_eq_right (by omega), min_eq_left (by omega)]
      rfl
    · rw [if_neg h2]
      have : 140 - rssi ≤ 100 := by omega
      rw [max_eq_right (by omega), min_eq_right (by omega)]
      omega
  · have h' : ¬ (rssi.natAbs : Int) < 140 := by omega
    rw [if_neg h, if_neg h']
    rfl

theorem sMeterOf_le (rssi : Int) : sMeterOf rssi ≤ 100 := by
  unfold sMeterOf
  dsimp only
  split
  · split <;> omega
  · omega

theorem showRSSI_sMeter (st : CM17TS) (rssi : Int) :
    (showRSSI st rssi).m_sMeter = sMeterOf rssi := by
  unfold showRSSI
  dsimp only
  split <;> rfl

theorem parseCommand_RSSI (lib : LibC) (st : CM17TS) (command p : List Char)
    (rest : List (List Char)) (h : splitFields command = "RSSI".toList :: p :: rest) :
    parseCommand lib st command = Except.ok (showRSSI st (atoi p)) := by
  unfold parseCommand
  dsimp only
  rw [h]
  rfl

/-! ## Receive commands -/

theorem showSelection_ok (st : CM17TS) (hv : IndexValid st)
    (hc : st.m_channels ≠ [] ∨ st.m_destinations = [])
    (hcs : ∀ n ∈ st.m_channels, n.length < 86) (hds : ∀ n ∈ st.m_destinations, n.length < 82) :
    ∃ st1, showSelection st = Except.ok st1 ∧ st1.m_receive = st.m_receive ∧
      st1.m_page = st.m_page ∧ st1.m_source = st.m_source ∧
      st1.m_callsigns = st.m_callsigns ∧ st1.m_text = st.m_text := by
  unfold showSelection
  by_cases hd : st.m_destinations = []
  · rw [hd]
    exact ⟨st, rfl, rfl, rfl, rfl, rfl, rfl⟩
  · have hcne : st.m_channels ≠ [] := by
      rcases hc with hc | hc
      · exact hc
      · exact absurd hc hd
    have h1 := hv.1 hcne
    have h2 := hv.2 hd
    have hs1 := get_short hcs h1
    have hs2 := get_short hds h2
    have hw1 : "CHANNEL.txt=\"".toList.length = 13 := rfl
    have hw2 : "DESTINATION.txt=\"".toList.length = 17 := rfl
    have he : (!st.m_destinations.isEmpty) = true := by
      cases hl : st.m_destinations with
      | nil => exact absurd hl hd
      | cons a l => rfl
    rw [if_pos he, vec_at_of_lt h1]
    dsimp only
    rw [sendText_of_lt _ (by rw [directive_length]; omega)]
    dsimp only
    have h3 : vec_at
        (sendCommand st ("CHANNEL.txt=\"".toList ++
          st.m_channels.get ⟨st.m_channelIdx, h1⟩ ++ "\"".toList)).m_destinations
        (sendCommand st ("CHANNEL.txt=\"".toList ++
          st.m_channels.get ⟨st.m_channelIdx, h1⟩ ++ "\"".toList)).m_destinationIdx =
        Except.ok (st.m_destinations.get ⟨st.m_destinationIdx, h2⟩) := vec_at_of_lt h2
    rw [h3]
    dsimp only
    rw [sendText_of_lt _ (by rw [directive_length]; omega)]
    exact ⟨_, rfl, rfl, rfl, rfl, rfl, rfl⟩

theorem gotoPage1Tail_ok (st : CM17TS) (h1 : st.m_source.length < 87)
    (h2 : st.m_callsigns.length < 84) (h3 : st.m_text.length < 89) :
    ∃ st1, gotoPage1Tail st = Except.ok st1 ∧ st1.m_receive = st.m_receive ∧
      st1.m_page = st.m_page := by
  have hw1 : "SOURCE.txt=\"".toList.length = 12 := rfl
  have hw2 : "CALLSIGNS.txt=\"".toList.length = 15 := rfl
  have hw3 : "TEXT.txt=\"".toList.length = 10 := rfl
  have hflags : ∀ (q : CM17TS) (c : List Char),
      (sendCommand q c).m_receive = q.m_receive ∧ (sendCommand q c).m_page = q.m_page ∧
      (sendCommand q c).m_callsigns = q.m_callsigns ∧ (sendCommand q c).m_text = q.m_text :=
    fun _ _ => ⟨rfl, rfl, rfl, rfl⟩
  unfold gotoPage1Tail
  rw [sendText_of_lt _ (by rw [directive_length]; omega)]
  dsimp only
  rw [sendText_of_lt _ (by rw [directive_length, (hflags _ _).2.2.1]; omega)]
  dsimp only
  rw [sendText_of_lt _ (by
    rw [directive_length, (hflags _ _).2.2.2, (hflags _ _).2.2.2]; omega)]
  refine ⟨_, rfl, ?_, ?_⟩
  · dsimp only
    rw [(hflags _ _).1]
    split <;> split <;> simp only [hflags]
  · dsimp only
    rw [(hflags _ _).2.1]
    split <;> split <;> simp only [hflags]

theorem gotoPage1_ok (st : CM17TS) (hv : IndexValid st)
    (hc : st.m_channels ≠ [] ∨ st.m_destinations = [])
    (hcs : ∀ n ∈ st.m_channels, n.length < 86) (hds : ∀ n ∈ st.m_destinations, n.length < 82)
    (h1 : st.m_source.length < 87) (h2 : st.m_callsigns.length < 84)
    (h3 : st.m_text.length < 89) :
    ∃ st1, gotoPage1 st = Except.ok st1 ∧ st1.m_receive = st.m_receive ∧ st1.m_page = 1 := by
  have key : ∀ q : CM17TS, IndexValid q → (q.m_channels ≠ [] ∨ q.m_destinations = []) →
      (∀ n ∈ q.m_channels, n.length < 86) → (∀ n ∈ q.m_destinations, n.length < 82) →
      q.m_source.length < 87 → q.m_callsigns.length < 84 → q.m_text.length < 89 →
      ∃ st1, (match showSelection q with
        | Except.error e => Except.error e
        | Except.ok st3 => gotoPage1Tail st3) = Except.ok st1 ∧
        st1.m_receive = q.m_receive ∧ st1.m_page = q.m_page := by
    intro q hq1 hq2 hq3 hq4 hq5 hq6 hq7
    obtain ⟨q1, e1, e2, e3, e4, e5, e6⟩ := showSelection_ok q hq1 hq2 hq3 hq4
    obtain ⟨q2, f1, f2, f3⟩ := gotoPage1Tail_ok q1 (by rw [e4]; exact hq5)
      (by rw [e5]; exact hq6) (by rw [e6]; exact hq7)
    rw [e1]
    exact ⟨q2, f1, f2.trans e2, f3.trans e3⟩
  have hq1 : IndexValid (sendCommand { sendCommand st "page page1".toList with m_page := 1 }
      ("timer=".toList ++ fmtU st.m_dimTime)) :=
    SameSelection.indexValid (by exact ⟨rfl, rfl, rfl, rfl⟩) hv
  have hq2 : (sendCommand { sendCommand st "page page1".toList with m_page := 1 }
      ("timer=".toList ++ fmtU st.m_dimTime)).m_channels ≠ [] ∨
      (sendCommand { sendCommand st "page page1".toList with m_page := 1 }
      ("timer=".toList ++ fmtU st.m_dimTime)).m_destinations = [] := hc
  obtain ⟨st1, e1, e2, e3⟩ := key _ hq1 hq2 hcs hds h1 h2 h3
  have e0 : gotoPage1 st = Except.ok st1 := e1
  exact ⟨st1, e0, e2, e3⟩

/-- With consistent selection lists (valid indices, and a channel list that
is non-empty whenever the destination list is) and strings that fit
`text[100]` (names, source, call signs, text, and the new source and
destination together below 84 characters), `RX` with end=0 returns with
`m_receive` set, page 1 and the source stored. -/
theorem showRX_begin_ok (st : CM17TS) (source destination : List Char) (hv : IndexValid st)
    (hc : st.m_channels ≠ [] ∨ st.m_destinations = [])
    (hcs : ∀ n ∈ st.m_channels, n.length < 86) (hds : ∀ n ∈ st.m_destinations, n.length < 82)
    (h1 : st.m_source.length < 87) (h2 : st.m_callsigns.length < 84)
    (h3 : st.m_text.length < 89) (h4 : source.length + destination.length < 84) :
    ∃ st1, showRX st false source destination = Except.ok st1 ∧ st1.m_receive = true ∧
      st1.m_page = 1 ∧ st1.m_source = source := by
  obtain ⟨st2, e1, e2, e3⟩ := gotoPage1_ok { st with m_receive := true } hv hc hcs hds h1 h2 h3
  have hflags : ∀ (q : CM17TS) (c : List Char),
      (sendCommand q c).m_receive = q.m_receive ∧ (sendCommand q c).m_page = q.m_page ∧
      (sendCommand q c).m_source = q.m_source := fun _ _ => ⟨rfl, rfl, rfl⟩
  have hl : ("SOURCE.txt=\"".toList ++ source ++ " > ".toList ++ destination ++
      "\"".toList).length < 100 := by
    simp only [List.length_append]
    have hw1 : "SOURCE.txt=\"".toList.length = 12 := rfl
    have hw2 : " > ".toList.length = 3 := rfl
    have hw3 : "\"".toList.length = 1 := rfl
    omega
  unfold showRX
  rw [if_neg (by decide), e1]
  dsimp only
  rw [sendText_of_lt _ hl]
  refine ⟨_, rfl, ?_, ?_, ?_⟩
  · simp only [hflags]
    exact e2
  · simp only [hflags]
    exact e3
  · simp only [hflags]

/-! ## End of a reception, unknown keywords -/

theorem parseCommand_RX (lib : LibC) (st : CM17TS) (command p1 source destination : List Char)
    (rest : List (List Char))
    (h : splitFields command = "RX".toList :: p1 :: source :: destination :: rest) :
    parseCommand lib st command = showRX st (decide (atoi p1 = 1)) source destination := by
  unfold parseCommand
  dsimp only
  rw [h]
  rfl

theorem showRX_end (st : CM17TS) (source destination : List Char) :
    ∃ st1, showRX st true source destination = Except.ok st1 ∧ st1.m_receive = false ∧
      st1.m_sMeter = 0 ∧ st1.m_source = [] ∧ st1.m_text = [] ∧ st1.m_callsigns = [] := by
  have hflags : ∀ (q : CM17TS) (c : List Char),
      (sendCommand q c).m_receive = q.m_receive ∧ (sendCommand q c).m_sMeter = q.m_sMeter ∧
      (sendCommand q c).m_source = q.m_source ∧ (sendCommand q c).m_text = q.m_text ∧
      (sendCommand q c).m_callsigns = q.m_callsigns := fun _ _ => ⟨rfl, rfl, rfl, rfl, rfl⟩
  unfold showRX
  rw [if_pos rfl]
  refine ⟨_, rfl, ?_, ?_, ?_, ?_, ?_⟩ <;> simp only [hflags]

/-! ## Touch events on the selection lists -/

theorem channelChanged_effect (st : CM17TS) (val : Int) (hne : st.m_channels ≠ [])
    (hlt : rotateIdx st.m_channelIdx st.m_channels.length val < st.m_channels.length)
    (hshort : ∀ n ∈ st.m_channels, n.length < 15) :
    ∃ st1 name, channelChanged st val = Except.ok st1 ∧
      st1.m_channelIdx = rotateIdx st.m_channelIdx st.m_channels.length val ∧
      st1.m_channels = st.m_channels ∧
      st.m_channels.get? st1.m_channelIdx = some name ∧
      st1.uart = st.uart ++ ["CHANNEL.txt=\"".toList ++ name ++ "\"".toList, TERMINATOR] ∧
      st1.m_conf.channel = name ∧
      st1.socket = st.socket ++ ["CHAN:".toList ++ name] := by
  unfold channelChanged
  have he : st.m_channels.isEmpty = false := by
    cases hc : st.m_channels with
    | nil => exact absurd hc hne
    | cons a l => rfl
  have hs := get_short hshort hlt
  have hw : "CHANNEL.txt=\"".toList.length = 13 := rfl
  rw [he]
  dsimp only
  rw [vec_at_of_lt hlt]
  dsimp only
  rw [sendText_of_lt _ (by rw [directive_length]; omega)]
  dsimp only
  rw [setChannel_of_lt _ hs]
  refine ⟨_, st.m_channels.get ⟨_, hlt⟩, rfl, rfl, rfl, ?_, rfl, rfl, ?_⟩
  · exact List.get?_eq_get hlt
  · show st.socket ++ [_] = st.socket ++ [_]
    simp [DELIMITER]

theorem destinationChanged_effect (st : CM17TS) (val : Int) (hne : st.m_destinations ≠ [])
    (hlt : rotateIdx st.m_destinationIdx st.m_destinations.length val <
      st.m_destinations.length)
    (hshort : ∀ n ∈ st.m_destinations, n.length < 15) :
    ∃ st1 name, destinationChanged st val = Except.ok st1 ∧
      st1.m_destinationIdx = rotateIdx st.m_destinationIdx st.m_destinations.length val ∧
      st1.m_destinations = st.m_destinations ∧
      st.m_destinations.get? st1.m_destinationIdx = some name ∧
      st1.uart = st.uart ++ ["DESTINATION.txt=\"".toList ++ name ++ "\"".toList, TERMINATOR] ∧
      st1.m_conf.destination = name ∧
      st1.socket = st.socket ++ ["DEST:".toList ++ name] := by
  unfold destinationChanged
  have he : st.m_destinations.isEmpty = false := by
    cases hc : st.m_destinations with
    | nil => exact absurd hc hne
    | cons a l => rfl
  have hs := get_short hshort hlt
  have hw : "DESTINATION.txt=\"".toList.length = 17 := rfl
  rw [he]
  dsimp only
  rw [vec_at_of_lt hlt]
  dsimp only
  rw [sendText_of_lt _ (by rw [directive_length]; omega)]
  dsimp only
  rw [setDestination_of_lt _ hs]
  refine ⟨_, st.m_destinations.get ⟨_, hlt⟩, rfl, rfl, rfl, ?_, rfl, rfl, ?_⟩
  · exact List.get?_eq_get hlt
  · show st.socket ++ [_] = st.socket ++ [_]
    simp [DELIMITER]

theorem rotateIdx_lt (i n : Nat) (val : Int) (hi : i < n) (hn : n < U32) :
    rotateIdx i n val < n := by
  unfold rotateIdx
  have hmod : (i + 1) % U32 = i + 1 := Nat.mod_eq_of_lt (by omega)
  split
  · split
    · have e : n + U32 - 1 = (n - 1) + U32 := by omega
      rw [e, Nat.add_mod_right, Nat.mod_eq_of_lt (by omega)]
      omega
    · omega
  · rw [hmod]
    split <;> omega

theorem parseScreen_touch (st : CM17TS) (rest : List Nat) (length : Nat) :
    parseScreen st (0x65 :: 1 :: 3 :: rest) length = channelChanged st 1 ∧
    parseScreen st (0x65 :: 1 :: 4 :: rest) length = channelChanged st (-1) ∧
    parseScreen st (0x65 :: 1 :: 5 :: rest) length = destinationChanged st 1 ∧
    parseScreen st (0x65 :: 1 :: 6 :: rest) length = destinationChanged st (-1) :=
  ⟨rfl, rfl, rfl, rfl⟩

/-! ## GPS datagrams -/

theorem vec_at_none {α : Type} {v : List α} {i : Nat} (h : v.length ≤ i) :
    vec_at v i = Except.error Fault.out_of_range := by
  unfold vec_at
  rw [List.get?_eq_none.mpr h]

/-- Fewer than eight fields after the keyword never decode: the access
`ptrs.at(8U)` is reached (unless a conversion throws first) and throws. -/
theorem parseGPS_short (lib : LibC) (ptrs : List (List Char)) (h : ptrs.length ≤ 8) :
    ∃ e, parseGPS lib ptrs = Except.error e := by
  have h8 : optStofAt lib ptrs 8 = Except.error Fault.out_of_range := by
    unfold optStofAt
    rw [vec_at_none h]
  unfold parseGPS
  repeat' split
  all_goals first
    | exact ⟨_, rfl⟩
    | (rename_i h9; rw [h8] at h9; cases h9)

theorem parseCommand_GPS (lib : LibC) (st : CM17TS) (command : List Char)
    (rest : List (List Char)) (h : splitFields command = "GPS".toList :: rest) :
    parseCommand lib st command =
      match parseGPS lib ("GPS".toList :: rest) with
      | Except.error e => Except.error e
      | Except.ok fix =>
        Except.ok (showGPS lib st fix.latitude fix.longitude fix.locator fix.altitude
          fix.speed fix.track fix.bearing fix.distance) := by
  unfold parseCommand
  dsimp only
  rw [h]
  rfl

/-! ## The GPS page -/

theorem hasUpdate_append (w : List Char) (a b : List (List Char)) :
    hasUpdate w (a ++ b) = (hasUpdate w a || hasUpdate w b) := by
  unfold hasUpdate
  rw [List.any_append]

theorem updates_append (a b : List (List Char)) :
    updates (a ++ b) = List.zipWith (fun x y => x || y) (updates a) (updates b) := by
  unfold updates
  simp only [hasUpdate_append, List.zipWith_cons_cons, List.zipWith_nil_right]

theorem EmitsSig.chain {a b c : CM17TS} {s1 s2 : List Bool} (h1 : EmitsSig a b s1)
    (h2 : EmitsSig b c s2) : EmitsSig a c (List.zipWith (fun x y => x || y) s1 s2) := by
  obtain ⟨b1, e1, u1⟩ := h1
  obtain ⟨b2, e2, u2⟩ := h2
  refine ⟨b1 ++ b2, ?_, ?_⟩
  · rw [e2, e1, List.append_assoc]
  · rw [updates_append, u1, u2]

theorem sendCommand_emits (st : CM17TS) (c : List Char) :
    EmitsSig st (sendCommand st c) (updates [c, TERMINATOR]) :=
  ⟨[c, TERMINATOR], rfl, rfl⟩

theorem showAltitude_emits (lib : LibC) (st : CM17TS) (altitude : Option ℚ) :
    EmitsSig st (showAltitude lib st altitude)
      [false, false, false, altitude.isSome, false, false, false, false] := by
  unfold showAltitude
  cases altitude with
  | none => exact ⟨[], (List.append_nil _).symm, rfl⟩
  | some a =>
    dsimp only
    split
    · exact ⟨_, rfl, rfl⟩
    · exact ⟨_, rfl, rfl⟩

theorem showSpeedTrack_emits (lib : LibC) (st : CM17TS) (speed track : Option ℚ) :
    EmitsSig st (showSpeedTrack lib st speed track)
      [false, false, false, false, speed.isSome && track.isSome,
       speed.isSome && track.isSome, false, false] := by
  unfold showSpeedTrack
  cases speed with
  | none => exact ⟨[], (List.append_nil _).symm, rfl⟩
  | some s =>
    cases track with
    | none => exact ⟨[], (List.append_nil _).symm, rfl⟩
    | some t =>
      dsimp only
      split
      · exact (sendCommand_emits _ _).chain (sendCommand_emits _ _)
      · exact (sendCommand_emits _ _).chain (sendCommand_emits _ _)

theorem showBearingDistance_emits (lib : LibC) (st : CM17TS) (bearing distance : Option ℚ) :
    EmitsSig st (showBearingDistance lib st bearing distance)
      [false, false, false, false, false, false, bearing.isSome && distance.isSome,
       bearing.isSome && distance.isSome] := by
  unfold showBearingDistance
  cases bearing with
  | none => exact ⟨[], (List.append_nil _).symm, rfl⟩
  | some b =>
    cases distance with
    | none => exact ⟨[], (List.append_nil _).symm, rfl⟩
    | some d =>
      dsimp only
      split
      · exact (sendCommand_emits _ _).chain (sendCommand_emits _ _)
      · exact (sendCommand_emits _ _).chain (sendCommand_emits _ _)

theorem latitude_emits (lib : LibC) (st : CM17TS) (latitude : ℚ) :
    EmitsSig st
      (if latitude < 0 then
        sendCommand st ("LATITUDE.txt=\"".toList ++ lib.fmtF 3 (-latitude) ++
          [Char.ofNat 176] ++ " S\"".toList)
       else
        sendCommand st ("LATITUDE.txt=\"".toList ++ lib.fmtF 3 latitude ++
          [Char.ofNat 176] ++ " N\"".toList))
      [true, false, false, false, false, false, false, false] := by
  split
  · exact ⟨_, rfl, rfl⟩
  · exact ⟨_, rfl, rfl⟩

theorem longitude_emits (lib : LibC) (st : CM17TS) (longitude : ℚ) :
    EmitsSig st
      (if longitude < 0 then
        sendCommand st ("LONGITUDE.txt=\"".toList ++ lib.fmtF 3 (-longitude) ++
          [Char.ofNat 176] ++ " W\"".toList)
       else
        sendCommand st ("LONGITUDE.txt=\"".toList ++ lib.fmtF 3 longitude ++
          [Char.ofNat 176] ++ " E\"".toList))
      [false, true, false, false, false, false, false, false] := by
  split
  · exact ⟨_, rfl, rfl⟩
  · exact ⟨_, rfl, rfl⟩

theorem locator_emits (st : CM17TS) (locator : List Char) :
    EmitsSig st (sendCommand st ("LOCATOR.txt=\"".toList ++ locator ++ "\"".toList))
      [false, false, true, false, false, false, false, false] :=
  ⟨_, rfl, rfl⟩

theorem plain_emits (st : CM17TS) (c : List Char)
    (h : updates [c, TERMINATOR] = [false, false, false, false, false, false, false, false]) :
    EmitsSig st (sendCommand st c)
      [false, false, false, false, false, false, false, false] :=
  ⟨_, rfl, h⟩

theorem showGPS_emits (lib : LibC) (st : CM17TS) (latitude longitude : ℚ)
    (locator : List Char) (altitude speed track bearing distance : Option ℚ) :
    EmitsSig st
      (showGPS lib st latitude longitude locator altitude speed track bearing distance)
      [true, true, true, altitude.isSome, speed.isSome && track.isSome,
       speed.isSome && track.isSome, bearing.isSome && distance.isSome,
       bearing.isSome && distance.isSome] := by
  have h1 := plain_emits st "page GPS".toList rfl
  have h2 := h1.chain (latitude_emits lib _ latitude)
  have h3 := h2.chain (longitude_emits lib _ longitude)
  have h4 := h3.chain (locator_emits _ locator)
  have h5 := h4.chain (showAltitude_emits lib _ altitude)
  have h6 := h5.chain (showSpeedTrack_emits lib _ speed track)
  have h7 := h6.chain (showBearingDistance_emits lib _ bearing distance)
  have h8 := h7.chain (plain_emits _ "delay=5000".toList rfl)
  have h9 := h8.chain (plain_emits _ "page page1".toList rfl)
  have hsig : List.zipWith (fun x y => x || y) (List.zipWith (fun x y => x || y)
      (List.zipWith (fun x y => x || y) (List.zipWith (fun x y => x || y)
      (List.zipWith (fun x y => x || y) (List.zipWith (fun x y => x || y)
      (List.zipWith (fun x y => x || y) (List.zipWith (fun x y => x || y)
        [false, false, false, false, false, false, false, false]
        [true, false, false, false, false, false, false, false])
        [false, true, false, false, false, false, false, false])
        [false, false, true, false, false, false, false, false])
        [false, false, false, altitude.isSome, false, false, false, false])
        [false, false, false, false, speed.isSome && track.isSome,
          speed.isSome && track.isSome, false, false])
        [false, false, false, false, false, false, bearing.isSome && distance.isSome,
          bearing.isSome && distance.isSome])
        [false, false, false, false, false, false, false, false])
        [false, false, false, false, false, false, false, false] =
      [true, true, true, altitude.isSome, speed.isSome && track.isSome,
       speed.isSome && track.isSome, bearing.isSome && distance.isSome,
       bearing.isSome && distance.isSome] := by
    simp
  rw [hsig] at h9
  exact h9

/-! ## Single precision -/

theorem roundEven_intCast (k : ℤ) : roundEven (k : ℚ) = k := by
  unfold roundEven
  rw [Int.floor_intCast, sub_self, if_pos (by norm_num)]

theorem f32_exact (x : ℚ) (k j : ℤ) (hx : x = k * (2 : ℚ) ^ j)
    (hlt : |x| < (2 : ℚ) ^ (j + 24)) (hj : -149 ≤ j) : f32 x = x := by
  unfold f32
  split
  · rename_i h0
    exact h0.symm
  · rename_i h0
    have hpos : 0 < |x| := abs_pos.mpr h0
    have hlog : Int.log 2 |x| < j + 24 :=
      (Int.lt_zpow_iff_log_lt (by norm_num) hpos).mp (by exact_mod_cast hlt)
    have he : max (Int.log 2 |x|) (-126) - 23 ≤ j := by
      have : max (Int.log 2 |x|) (-126) ≤ j + 23 := max_le (by omega) (by omega)
      omega
    generalize max (Int.log 2 |x|) (-126) - 23 = u at he
    obtain ⟨n, hn⟩ := Int.eq_ofNat_of_zero_le (sub_nonneg.mpr he)
    have hu : (2 : ℚ) ^ u ≠ 0 := zpow_ne_zero _ (by norm_num)
    have h2 : (2 : ℚ) ^ j = (2 : ℚ) ^ (n : ℤ) * (2 : ℚ) ^ u := by
      rw [← zpow_add₀ (by norm_num : (2 : ℚ) ≠ 0), ← hn]
      congr 1
      omega
    have hq : x / (2 : ℚ) ^ u = ((k * 2 ^ n : ℤ) : ℚ) := by
      rw [hx, h2, ← mul_assoc, mul_div_assoc, div_self hu, mul_one]
      push_cast
      rw [zpow_natCast]
    rw [hq, roundEven_intCast, ← hq, div_mul_cancel₀ _ hu]


theorem roundEven_near (q : ℚ) (z : ℤ) (h1 : (z : ℚ) - 1 / 2 < q) (h2 : q < z + 1 / 2) :
    roundEven q = z := by
  unfold roundEven
  by_cases hz : (z : ℚ) ≤ q
  · have hf : ⌊q⌋ = z := Int.floor_eq_iff.mpr ⟨hz, by linarith⟩
    rw [hf, if_pos (by linarith)]
  · have hf : ⌊q⌋ = z - 1 := Int.floor_eq_iff.mpr ⟨by push_cast; linarith, by push_cast; linarith⟩
    rw [hf, if_neg (by push_cast; linarith), if_pos (by push_cast; linarith)]
    omega

theorem f32_grid (x : ℚ) (e : ℤ) (h1 : (2 : ℚ) ^ e ≤ |x|) (h2 : |x| < (2 : ℚ) ^ (e + 1))
    (he : -126 ≤ e) :
    f32 x = (roundEven (x / (2 : ℚ) ^ (e - 23)) : ℚ) * (2 : ℚ) ^ (e - 23) := by
  have hpos : 0 < |x| := lt_of_lt_of_le (zpow_pos (by norm_num) e) h1
  have hlog : Int.log 2 |x| = e := by
    apply le_antisymm
    · have h3 : Int.log 2 |x| < e + 1 :=
        (Int.lt_zpow_iff_log_lt (b := 2) (by norm_num) hpos).mp (by exact_mod_cast h2)
      omega
    · exact (Int.zpow_le_iff_le_log (b := 2) (by norm_num) hpos).mp (by exact_mod_cast h1)
  unfold f32
  rw [if_neg (abs_pos.mp hpos), hlog, max_eq_left he]

theorem mod360_low (x : ℚ) (h0 : 0 ≤ x) (h1 : x < 360) : mod360 x = x := by
  unfold mod360
  have hf : ⌊x / 360⌋ = 0 := by
    rw [Int.floor_eq_iff]
    constructor
    · simp only [Int.cast_zero]
      positivity
    · simp only [Int.cast_zero, zero_add]
      rw [div_lt_one (by norm_num)]
      exact h1
  rw [hf]
  simp

theorem mod360_high (x : ℚ) (h0 : 360 ≤ x) (h1 : x < 720) : mod360 x = x - 360 := by
  unfold mod360
  have hf : ⌊x / 360⌋ = 1 := by
    rw [Int.floor_eq_iff]
    constructor
    · simp only [Int.cast_one]
      rw [le_div_iff₀ (by norm_num)]
      linarith
    · simp only [Int.cast_one]
      rw [div_lt_iff₀ (by norm_num)]
      linarith
  rw [hf]
  simp

/-- A number in `[256, 512)` that single precision represents is a multiple of
`2^(-15)`, and so is its difference to 360. -/
theorem f32_sub_360 (x : ℚ) (hx : f32 x = x) (h1 : 360 < x) (h2 : x < 512) :
    f32 (x - 360) = x - 360 := by
  have hg := f32_grid x 8 (by rw [abs_of_pos (by linarith)]; norm_num; linarith)
    (by rw [abs_of_pos (by linarith)]; norm_num; linarith) (by norm_num)
  rw [hx] at hg
  have e : ((8 : ℤ) - 23) = -15 := by norm_num
  rw [e] at hg
  refine f32_exact (x - 360) (roundEven (x / (2 : ℚ) ^ (-15 : ℤ)) - 11796480) (-15) ?_ ?_
    (by norm_num)
  · push_cast
    rw [sub_mul, ← hg]
    norm_num
  · rw [abs_of_pos (by linarith)]
    norm_num
    linarith

/-- Sums `a + 90` with `a` a multiple of `2^(-15)` below 360 are exact. -/
theorem f32_sum_exact (k : ℕ) (h : (k : ℚ) / 32768 < 360) :
    f32 ((k : ℚ) / 32768 + 90) = (k : ℚ) / 32768 + 90 := by
  have hk : (0 : ℚ) ≤ (k : ℚ) / 32768 := by positivity
  refine f32_exact _ ((k : ℤ) + 2949120) (-15) ?_ ?_ (by norm_num)
  · push_cast
    rw [zpow_neg]
    norm_num
    ring
  · rw [abs_of_pos (by linarith)]
    norm_num
    linarith

theorem gaugeOf_eq (a : ℚ) (h0 : 0 ≤ a) (h1 : a < 360) (hx : f32 (a + 90) = a + 90) :
    gaugeOf a = if a = 270 then 360 else mod360 (a + 90) := by
  unfold gaugeOf
  dsimp only
  rw [hx]
  by_cases h : a = 270
  · subst h
    norm_num
  · rw [if_neg h]
    by_cases hg : a + 90 > 360
    · rw [if_pos hg, mod360_high (a + 90) (by linarith) (by linarith)]
      exact f32_sub_360 (a + 90) hx hg (by linarith)
    · rw [if_neg hg]
      have hlt : a + 90 < 360 := by
        rcases lt_or_eq_of_le (not_lt.mp hg) with h2 | h2
        · exact h2
        · exact absurd (by linarith) h
      rw [mod360_low (a + 90) (by linarith) hlt]

/-! ## Serial reassembly -/

theorem take_succ_set {buf : List Nat} {idx : Nat} (c : Nat) (h : idx < buf.length) :
    (buf.set idx c).take (idx + 1) = buf.take idx ++ [c] := by
  rw [List.set_eq_take_append_cons_drop, if_pos h]
  have hl : (buf.take idx).length = idx := by
    rw [List.length_take]
    omega
  rw [List.take_append_eq_append_take, hl, List.take_of_length_le (by omega)]
  have : idx + 1 - idx = 1 := by omega
  rw [this]
  rfl

theorem serialByte_quiet (r : Reassembler) (c : Nat) (hidx : r.screenIdx < 50)
    (hw : ¬ (c = 255 ∧ r.endBuffer.1 = 255 ∧ r.endBuffer.2.1 = 255)) :
    serialByte r c =
      Except.ok ({ screenBuffer := r.screenBuffer.set r.screenIdx c,
                   endBuffer := (c, r.endBuffer.1, r.endBuffer.2.1),
                   screenIdx := r.screenIdx + 1 }, none) := by
  unfold serialByte
  rw [if_pos hidx]
  dsimp only
  have hne : ¬ ((c, r.endBuffer.1, r.endBuffer.2.1) = ((0xFF : Nat), (0xFF : Nat), (0xFF : Nat))) := by
    intro he
    simp only [Prod.mk.injEq] at he
    exact hw he
  rw [if_neg hne]

theorem serialByte_terminator (r : Reassembler) (hidx : r.screenIdx < 50)
    (hw : r.endBuffer.1 = 255 ∧ r.endBuffer.2.1 = 255) :
    serialByte r 255 =
      Except.ok (Reassembler.reset (r.screenBuffer.set r.screenIdx 255),
                 some (r.screenBuffer.set r.screenIdx 255, r.screenIdx + 1)) := by
  unfold serialByte
  rw [if_pos hidx]
  dsimp only
  rw [hw.1, hw.2, if_pos rfl]
  rfl

/-- While the stream shows no terminator (the two bytes of the window taken
along), every byte is stored and no frame is dispatched. -/
theorem feed_quiet (s : List Nat) (r : Reassembler) (hbuf : r.screenBuffer.length = 50)
    (hidx : r.screenIdx + s.length ≤ 50)
    (hno : ¬ [255, 255, 255] <:+: r.endBuffer.2.1 :: r.endBuffer.1 :: s) :
    ∃ r1, feed r s = Except.ok (r1, []) ∧ r1.screenBuffer.length = 50 ∧
      r1.screenIdx = r.screenIdx + s.length ∧
      r1.screenBuffer.take r1.screenIdx = r.screenBuffer.take r.screenIdx ++ s ∧
      (r1.endBuffer.1, r1.endBuffer.2.1) =
        s.foldl (fun w c => (c, w.1)) (r.endBuffer.1, r.endBuffer.2.1) := by
  induction s generalizing r with
  | nil => exact ⟨r, rfl, hbuf, rfl, (List.append_nil _).symm, rfl⟩
  | cons c t ih =>
    simp only [List.length_cons] at hidx
    have hlt : r.screenIdx < 50 := by omega
    have hw : ¬ (c = 255 ∧ r.endBuffer.1 = 255 ∧ r.endBuffer.2.1 = 255) := by
      rintro ⟨h1, h2, h3⟩
      apply hno
      rw [h1, h2, h3]
      exact (List.prefix_append [255, 255, 255] t).isInfix
    have hstep := serialByte_quiet r c hlt hw
    have hno1 : ¬ [255, 255, 255] <:+: r.endBuffer.1 :: c :: t := by
      intro h
      apply hno
      rw [List.infix_cons_iff]
      exact Or.inr h
    obtain ⟨r1, e1, e2, e3, e4, e5⟩ := ih
      { screenBuffer := r.screenBuffer.set r.screenIdx c,
        endBuffer := (c, r.endBuffer.1, r.endBuffer.2.1),
        screenIdx := r.screenIdx + 1 }
      (by simp only [List.length_set]; exact hbuf)
      (by simp only; omega) hno1
    refine ⟨r1, ?_, e2, ?_, ?_, ?_⟩
    · unfold feed
      rw [hstep]
      dsimp only
      rw [e1]
      rfl
    · rw [e3]
      simp only [List.length_cons]
      omega
    · rw [e4]
      simp only
      rw [take_succ_set c (by omega), List.append_assoc]
      rfl
    · rw [e5]
      rfl

theorem head_eq_of_leading {x : Nat} {p l : List Nat} (h : x :: p <+: l) : l.head? = some x := by
  obtain ⟨t, ht⟩ := h
  rw [← ht]
  rfl

theorem no_terminator_extend (body : List Nat) (hno : ¬ [255, 255, 255] <:+: body)
    (hlast : body.getLast? ≠ some 255) : ¬ [255, 255, 255] <:+: body ++ [255, 255] := by
  intro h
  have hr : [255, 255, 255] <:+: 255 :: 255 :: body.reverse := by
    have h1 := List.reverse_infix.mpr h
    simpa using h1
  have hhead : body.reverse.head? ≠ some 255 := by
    rw [List.head?_reverse]
    exact hlast
  rcases List.infix_cons_iff.mp hr with h1 | h1
  · rw [List.cons_prefix_cons, List.cons_prefix_cons] at h1
    exact hhead (head_eq_of_leading h1.2.2)
  · rcases List.infix_cons_iff.mp h1 with h2 | h2
    · rw [List.cons_prefix_cons] at h2
      exact hhead (head_eq_of_leading h2.2)
    · apply hno
      have h3 := List.reverse_infix.mpr h2
      simpa using h3

theorem no_terminator_zero (l : List Nat) (hno : ¬ [255, 255, 255] <:+: l) :
    ¬ [255, 255, 255] <:+: 0 :: 0 :: l := by
  intro h
  rcases List.infix_cons_iff.mp h with h1 | h1
  · rw [List.cons_prefix_cons] at h1
    exact absurd h1.1 (by decide)
  · rcases List.infix_cons_iff.mp h1 with h2 | h2
    · rw [List.cons_prefix_cons] at h2
      exact absurd h2.1 (by decide)
    · exact hno h2

theorem feed_cons (r : Reassembler) (c : Nat) (cs : List Nat) :
    feed r (c :: cs) =
      match serialByte r c with
      | Except.error e => Except.error e
      | Except.ok (r1, call) =>
        match feed r1 cs with
        | Except.error e => Except.error e
        | Except.ok (r2, calls) => Except.ok (r2, call.toList ++ calls) := by
  cases hs : serialByte r c with
  | error e => simp only [feed, hs]
  | ok p =>
    obtain ⟨r1, call⟩ := p
    cases hf : feed r1 cs <;> simp only [feed, hs, hf]

theorem feed_append (s t : List Nat) (r r1 : Reassembler) (calls : List (List Nat × Nat))
    (h : feed r s = Except.ok (r1, calls)) :
    feed r (s ++ t) =
      match feed r1 t with
      | Except.error e => Except.error e
      | Except.ok (r2, calls2) => Except.ok (r2, calls ++ calls2) := by
  induction s generalizing r calls with
  | nil =>
    injection h with h
    injection h with h1 h2
    subst h1
    subst h2
    simp only [List.nil_append]
    cases feed r t with
    | error e => rfl
    | ok p => rfl
  | cons c s ih =>
    rw [feed_cons] at h
    rw [List.cons_append, feed_cons]
    cases hs : serialByte r c with
    | error e => rw [hs] at h; cases h
    | ok p =>
      obtain ⟨ra, call⟩ := p
      rw [hs] at h
      dsimp only at h ⊢
      cases hf : feed ra s with
      | error e => rw [hf] at h; cases h
      | ok q =>
        obtain ⟨rb, cs⟩ := q
        rw [hf] at h
        dsimp only at h
        injection h with h
        injection h with h1 h2
        subst h1
        subst h2
        rw [ih ra cs hf]
        cases feed rb t with
        | error e => rfl
        | ok p2 =>
          obtain ⟨rc, c2⟩ := p2
          simp only [List.append_assoc]

/-! ## The poll scheduler -/

theorem receive_timer {lib : LibC} {l l1 : Loop} {datagram : Option (List Char)}
    {byte : Option Nat} (h : receive lib l datagram byte = Except.ok l1) :
    l1.timer = l.timer := by
  unfold receive at h
  split at h
  · cases h
  · split at h
    · injection h with h
      subst h
      rfl
    · split at h
      · cases h
      · injection h with h
        subst h
        rfl
      · split at h
        · cases h
        · injection h with h
          subst h
          rfl

theorem clock_stopped (t : CTimer) (ticks : Nat) (h : t.isRunning = false) :
    t.clock ticks = t := by
  unfold CTimer.isRunning at h
  unfold CTimer.clock
  have h0 : ¬ (t.m_timer > 0) := by simpa using h
  rw [if_neg (fun hc => h0 hc.1)]

theorem pollScheduler_stopped (l : Loop) (h : l.timer.isRunning = false) :
    pollScheduler l = l := by
  unfold pollScheduler
  dsimp only
  rw [clock_stopped _ _ h, h]
  simp only [Bool.false_and, Bool.false_eq_true, if_false]

theorem ticks_stopped (lib : LibC) (inputs : List (Option (List Char) × Option Nat))
    (l l1 : Loop) (hstop : l.timer.isRunning = false)
    (h : ticks lib l inputs = Except.ok l1) :
    l1.timer.isRunning = false ∧ receives lib l inputs = Except.ok l1 := by
  induction inputs generalizing l with
  | nil =>
    injection h with h
    subst h
    exact ⟨hstop, rfl⟩
  | cons p rest ih =>
    obtain ⟨datagram, byte⟩ := p
    simp only [ticks, tick] at h
    cases hr : receive lib l datagram byte with
    | error e => rw [hr] at h; cases h
    | ok l2 =>
      rw [hr] at h
      dsimp only at h
      have ht : l2.timer.isRunning = false := by rw [receive_timer hr]; exact hstop
      rw [pollScheduler_stopped l2 ht] at h
      obtain ⟨h1, h2⟩ := ih l2 ht h
      refine ⟨h1, ?_⟩
      simp only [receives, hr]
      exact h2

theorem expired_timeout_pos (t : CTimer) (h : t.hasExpired = true) : t.m_timeout > 0 := by
  unfold CTimer.hasExpired at h
  by_cases h0 : t.m_timeout = 0
  · rw [if_pos (Or.inl h0)] at h
    cases h
  · omega

/-! ## The volume -/

theorem sameVolume_refl (st : CM17TS) : SameVolume st st := ⟨rfl, rfl⟩

theorem SameVolume.compose {a b c : CM17TS} (h1 : SameVolume a b) (h2 : SameVolume b c) :
    SameVolume a c := by
  obtain ⟨a1, a2⟩ := h1
  obtain ⟨b1, b2⟩ := h2
  exact ⟨b1.trans a1, b2.trans a2⟩

theorem showSelection_vol {st st1 : CM17TS} (h : showSelection st = Except.ok st1) :
    SameVolume st st1 := by
  rcases showSelection_form h with e | ⟨c, d, e, -, -⟩
  · subst e
    exact sameVolume_refl _
  · subst e
    exact ⟨rfl, rfl⟩

theorem sendCommand_vol (st : CM17TS) (c : List Char) : SameVolume st (sendCommand st c) :=
  ⟨rfl, rfl⟩

theorem gotoPage1Tail_vol {st st1 : CM17TS} (h : gotoPage1Tail st = Except.ok st1) :
    SameVolume st st1 := by
  rw [gotoPage1Tail_form h]
  repeat (refine SameVolume.compose ?_ (sendCommand_vol _ _))
  exact sameVolume_refl _

theorem gotoPage1_vol {st st1 : CM17TS} (h : gotoPage1 st = Except.ok st1) :
    SameVolume st st1 := by
  unfold gotoPage1 at h
  dsimp only at h
  split at h
  · cases h
  · rename_i st3 h3
    exact (showSelection_vol h3).compose (gotoPage1Tail_vol h)

theorem gotoPage0_vol {st st1 : CM17TS} (h : gotoPage0 st = Except.ok st1) :
    SameVolume st st1 := by
  unfold gotoPage0 at h
  have h1 := showSelection_vol h
  exact SameVolume.compose (by exact ⟨rfl, rfl⟩) h1

theorem showRX_vol {st st1 : CM17TS} {isEnd : Bool} {source destination : List Char}
    (h : showRX st isEnd source destination = Except.ok st1) : SameVolume st st1 := by
  unfold showRX at h
  split at h
  · injection h with h
    rw [← h]
    repeat (refine SameVolume.compose ?_ (sendCommand_vol _ _))
    exact ⟨rfl, rfl⟩
  · split at h
    · cases h
    · rename_i st2 h2
      dsimp only at h
      split at h
      · cases h
      · rename_i st6 h6
        obtain ⟨e6, -⟩ := sendText_ok h6
        subst e6
        injection h with h
        rw [← h]
        repeat (refine SameVolume.compose ?_ (sendCommand_vol _ _))
        have h3 := gotoPage1_vol h2
        exact SameVolume.compose (SameVolume.compose (by exact ⟨rfl, rfl⟩) h3)
          (by exact ⟨rfl, rfl⟩)

theorem commandRX_vol {st st1 : CM17TS} {ptrs : List (List Char)}
    (h : commandRX st ptrs = Except.ok st1) : SameVolume st st1 := by
  unfold commandRX at h
  split at h
  · cases h
  · split at h
    · cases h
    · split at h
      · cases h
      · exact showRX_vol h

theorem commandTX_vol {st st1 : CM17TS} {ptrs : List (List Char)}
    (h : commandTX st ptrs = Except.ok st1) : SameVolume st st1 := by
  unfold commandTX at h
  split at h
  · cases h
  · dsimp only at h
    split at h <;>
    · injection h with h
      subst h
      exact ⟨rfl, rfl⟩

theorem showRSSI_vol (st : CM17TS) (rssi : Int) : SameVolume st (showRSSI st rssi) := by
  unfold showRSSI
  dsimp only
  split <;> exact ⟨rfl, rfl⟩

theorem showAltitude_vol (lib : LibC) (st : CM17TS) (a : Option ℚ) :
    SameVolume st (showAltitude lib st a) := by
  unfold showAltitude
  split
  · split <;> exact ⟨rfl, rfl⟩
  · exact sameVolume_refl _

theorem showSpeedTrack_vol (lib : LibC) (st : CM17TS) (s t : Option ℚ) :
    SameVolume st (showSpeedTrack lib st s t) := by
  unfold showSpeedTrack
  split
  · dsimp only
    split <;> exact ⟨rfl, rfl⟩
  · exact sameVolume_refl _

theorem showBearingDistance_vol (lib : LibC) (st : CM17TS) (b d : Option ℚ) :
    SameVolume st (showBearingDistance lib st b d) := by
  unfold showBearingDistance
  split
  · dsimp only
    split <;> exact ⟨rfl, rfl⟩
  · exact sameVolume_refl _

theorem showGPS_vol (lib : LibC) (st : CM17TS) (latitude longitude : ℚ) (locator : List Char)
    (altitude speed track bearing distance : Option ℚ) :
    SameVolume st
      (showGPS lib st latitude longitude locator altitude speed track bearing distance) := by
  unfold showGPS
  dsimp only
  refine SameVolume.compose ?_ (sendCommand_vol _ _)
  refine SameVolume.compose ?_ (sendCommand_vol _ _)
  refine SameVolume.compose ?_ (showBearingDistance_vol _ _ _ _)
  refine SameVolume.compose ?_ (showSpeedTrack_vol _ _ _ _)
  refine SameVolume.compose ?_ (showAltitude_vol _ _ _)
  refine SameVolume.compose ?_ (sendCommand_vol _ _)
  split <;> split <;> exact ⟨rfl, rfl⟩


theorem socketWrite_vol (st : CM17TS) (b : List Char) (h : isVol b = false) :
    SameVolume st (socketWrite st b) := by
  refine ⟨rfl, ?_⟩
  show (st.socket ++ [b]).filter isVol = _
  rw [List.filter_append, List.filter_cons, h]
  simp

theorem setChannel_vol {st st1 : CM17TS} {c : List Char}
    (h : setChannel st c = Except.ok st1) : SameVolume st st1 := by
  rw [(setChannel_ok h).1]
  exact socketWrite_vol st _ rfl

theorem setDestination_vol {st st1 : CM17TS} {c : List Char}
    (h : setDestination st c = Except.ok st1) : SameVolume st st1 := by
  rw [(setDestination_ok h).1]
  exact socketWrite_vol st _ rfl

theorem setTransmit_vol (st : CM17TS) (b : Bool) : SameVolume st (setTransmit st b) := by
  cases b
  · exact socketWrite_vol st _ rfl
  · exact socketWrite_vol st _ rfl

theorem selectChannel_vol {st st1 : CM17TS} (h : selectChannel st = Except.ok st1) :
    SameVolume st st1 := by
  unfold selectChannel at h
  dsimp only at h
  split at h
  · cases h
  · split at h
    · cases h
    · rename_i s2 hs2
      obtain ⟨e2, -⟩ := sendText_ok hs2
      subst e2
      refine SameVolume.compose ?_ (setChannel_vol h)
      exact ⟨rfl, rfl⟩

theorem selectDestination_vol {st st1 : CM17TS} (h : selectDestination st = Except.ok st1) :
    SameVolume st st1 := by
  unfold selectDestination at h
  dsimp only at h
  split at h
  · cases h
  · split at h
    · cases h
    · rename_i s2 hs2
      obtain ⟨e2, -⟩ := sendText_ok hs2
      subst e2
      refine SameVolume.compose ?_ (setDestination_vol h)
      exact ⟨rfl, rfl⟩

theorem channelChanged_vol {st st1 : CM17TS} {val : Int}
    (h : channelChanged st val = Except.ok st1) : SameVolume st st1 := by
  unfold channelChanged at h
  split at h
  · cases h
  · dsimp only at h
    split at h
    · cases h
    · split at h
      · cases h
      · rename_i s2 hs2
        obtain ⟨e2, -⟩ := sendText_ok hs2
        subst e2
        refine SameVolume.compose ?_ (setChannel_vol h)
        exact ⟨rfl, rfl⟩

theorem destinationChanged_vol {st st1 : CM17TS} {val : Int}
    (h : destinationChanged st val = Except.ok st1) : SameVolume st st1 := by
  unfold destinationChanged at h
  split at h
  · cases h
  · dsimp only at h
    split at h
    · cases h
    · split at h
      · cases h
      · rename_i s2 hs2
        obtain ⟨e2, -⟩ := sendText_ok hs2
        subst e2
        refine SameVolume.compose ?_ (setDestination_vol h)
        exact ⟨rfl, rfl⟩

theorem parseCommand_vol {lib : LibC} {st st1 : CM17TS} {command : List Char}
    (h : parseCommand lib st command = Except.ok st1) : SameVolume st st1 := by
  unfold parseCommand at h
  dsimp only at h
  split at h
  · cases h
  · split at h
    · exact SameVolume.compose (by exact ⟨rfl, rfl⟩) (selectChannel_vol h)
    · split at h
      · exact SameVolume.compose (by exact ⟨rfl, rfl⟩) (selectDestination_vol h)
      · split at h
        · exact commandRX_vol h
        · split at h
          · exact commandTX_vol h
          · split at h
            · split at h
              · cases h
              · obtain ⟨e, -⟩ := sendText_ok h
                subst e
                exact ⟨rfl, rfl⟩
            · split at h
              · split at h
                · cases h
                · obtain ⟨e, -⟩ := sendText_ok h
                  subst e
                  exact ⟨rfl, rfl⟩
              · split at h
                · split at h
                  · cases h
                  · injection h with h
                    subst h
                    exact showRSSI_vol _ _
                · split at h
                  · split at h
                    · cases h
                    · injection h with h
                      subst h
                      exact showGPS_vol _ _ _ _ _ _ _ _ _ _
                  · injection h with h
                    subst h
                    exact sameVolume_refl _

/-- A display frame either leaves the volume alone or is a slider value frame
applied to a pending volume query. -/
theorem parseScreen_vol {st st1 : CM17TS} {frame : List Nat} {length : Nat}
    (h : parseScreen st frame length = Except.ok st1) :
    SameVolume st st1 ∨
    (st.m_slider = SLIDER.SI_VOLUME ∧ frame.getD 0 0 = 0x71 ∧
      st1.m_volume = sliderValue frame ∧
      st1.socket = st.socket ++ ["VOL:".toList ++ fmtU (sliderValue frame)]) := by
  unfold parseScreen at h
  have hid : ∀ {s : CM17TS}, Except.ok st = (Except.ok s : Except Fault CM17TS) →
      SameVolume st s := by
    intro s hs
    injection hs with hs
    subst hs
    exact sameVolume_refl _
  split at h
  · left
    split at h
    · split at h
      · exact channelChanged_vol h
      · split at h
        · exact channelChanged_vol h
        · split at h
          · exact destinationChanged_vol h
          · split at h
            · exact destinationChanged_vol h
            · split at h
              · exact gotoPage1_vol h
              · split at h
                · exact gotoPage1_vol h
                · split at h
                  · injection h with h
                    subst h
                    exact ⟨rfl, rfl⟩
                  · exact hid h
    · split at h
      · split at h
        · exact gotoPage0_vol h
        · split at h
          · exact gotoPage0_vol h
          · split at h
            · injection h with h
              subst h
              exact setTransmit_vol _ _
            · exact hid h
      · exact hid h
  · split at h
    · rename_i h71
      split at h
      · rename_i hs
        right
        injection h with h
        subst h
        exact ⟨hs, h71, rfl, rfl⟩
      · exact Or.inl (hid h)
    · exact Or.inl (hid h)

theorem SameVolume.volumeOK {st st1 : CM17TS} (h : SameVolume st st1) (hv : VolumeOK st) :
    VolumeOK st1 := by
  obtain ⟨h1, h2⟩ := h
  unfold VolumeOK at *
  rw [h1, h2]
  exact hv

theorem isVol_vol (v : Nat) : isVol ("VOL:".toList ++ fmtU v) = true := by
  unfold isVol
  rw [List.isPrefixOf_iff_prefix]
  exact List.prefix_append _ _

theorem slider_volumeOK {st st1 : CM17TS} {v : Nat} (hv : VolumeOK st) (hle : v ≤ 100)
    (h1 : st1.m_volume = v) (h2 : st1.socket = st.socket ++ ["VOL:".toList ++ fmtU v]) :
    VolumeOK st1 := by
  unfold VolumeOK at *
  rw [h1, h2]
  refine ⟨hle, ?_⟩
  intro d hd
  rw [List.filter_append, List.mem_append] at hd
  rcases hd with hd | hd
  · exact hv.2 d hd
  · rw [List.filter_cons, isVol_vol] at hd
    simp only [if_true, List.filter_nil, List.mem_singleton] at hd
    exact ⟨v, hle, hd⟩

theorem startup_volumeOK {version : List Char} {conf : CConf} {st0 : CM17TS}
    (hconf : conf.volume ≤ 100) (h : startup version (construct conf) = Except.ok st0) :
    VolumeOK st0 := by
  have hbase : VolumeOK { construct conf with
      m_metric := conf.metric, m_volume := conf.volume, m_dimLevel := conf.dimLevel,
      m_dimTime := conf.dimTime, m_brightness := conf.brightness } := by
    refine ⟨hconf, ?_⟩
    intro d hd
    cases hd
  have hvol : VolumeOK (setVolume { construct conf with
      m_metric := conf.metric, m_volume := conf.volume, m_dimLevel := conf.dimLevel,
      m_dimTime := conf.dimTime, m_brightness := conf.brightness } conf.volume) :=
    slider_volumeOK hbase hconf rfl rfl
  unfold startup at h
  dsimp only at h
  split at h
  · cases h
  · rename_i st7 h7
    rw [(sendText_ok h).1]
    refine SameVolume.volumeOK (sendCommand_vol _ _) ?_
    refine SameVolume.volumeOK (gotoPage1_vol h7) ?_
    refine SameVolume.volumeOK (sendCommand_vol _ _) ?_
    refine SameVolume.volumeOK (sendCommand_vol _ _) ?_
    refine SameVolume.volumeOK (sendCommand_vol _ _) ?_
    refine SameVolume.volumeOK (sendCommand_vol _ _) ?_
    exact hvol

theorem reachableWithin_volumeOK {lib : LibC} {st0 st : CM17TS} (h0 : VolumeOK st0)
    (h : ReachableWithin lib st0 st) : VolumeOK st := by
  induction h with
  | start => exact h0
  | command d _ hs ih => exact (parseCommand_vol hs).volumeOK ih
  | screen f l _ hle hs ih =>
    rcases parseScreen_vol hs with hv | ⟨h1, h2, h3, h4⟩
    · exact hv.volumeOK ih
    · exact slider_volumeOK ih (hle h1 h2) h3 h4

/-! ## The page and the page directives -/

theorem samePage_refl (st : CM17TS) : SamePage st st := ⟨rfl, rfl⟩

theorem SamePage.follow {a b c : CM17TS} (h1 : SamePage a b) (h2 : SamePage b c) :
    SamePage a c :=
  ⟨h2.1.trans h1.1, h2.2.trans h1.2⟩

theorem SamePage.sync {st st1 : CM17TS} (h : SamePage st st1) (hs : PageSync st) :
    PageSync st1 := by
  unfold PageSync lastPage at *
  rw [h.1, h.2]
  exact hs

theorem pageOf_head {d : List Char} (c : Char) (h : d.head? = some c) (hc : c ≠ 'p') :
    pageOf d = none := by
  unfold pageOf
  rw [if_neg, if_neg]
  · intro e
    rw [e] at h
    injection h with h
    exact hc h.symm
  · intro e
    rw [e] at h
    injection h with h
    exact hc h.symm

theorem sendCommand_page (st : CM17TS) (d : List Char) (h : pageOf d = none) :
    SamePage st (sendCommand st d) := by
  refine ⟨rfl, ?_⟩
  show (st.uart ++ [d, TERMINATOR]).filterMap pageOf = _
  rw [List.filterMap_append]
  have e : [d, TERMINATOR].filterMap pageOf = [] := by
    rw [List.filterMap_cons_none h, List.filterMap_cons_none (by decide)]
    rfl
  rw [e, List.append_nil]

theorem sendCommand_quiet (st : CM17TS) (d : List Char) (c : Char) (h : d.head? = some c)
    (hc : c ≠ 'p') : SamePage st (sendCommand st d) :=
  sendCommand_page st d (pageOf_head c h hc)

theorem sendEither_quiet {a b : CM17TS} (p : Prop) [Decidable p] (d e : List Char) (c1 c2 : Char)
    (h : SamePage a b) (hd : d.head? = some c1) (hc1 : c1 ≠ 'p')
    (he : e.head? = some c2) (hc2 : c2 ≠ 'p') :
    SamePage a (if p then sendCommand b d else sendCommand b e) := by
  split
  · exact h.follow (sendCommand_quiet _ _ _ hd hc1)
  · exact h.follow (sendCommand_quiet _ _ _ he hc2)

theorem showSelection_page {st st1 : CM17TS} (h : showSelection st = Except.ok st1) :
    SamePage st st1 := by
  rcases showSelection_form h with e | ⟨c, d, e, hc, hd⟩
  · subst e
    exact samePage_refl _
  · subst e
    refine SamePage.follow ?_ (sendCommand_quiet _ _ _ hd (by decide))
    exact sendCommand_quiet _ _ _ hc (by decide)

theorem gotoPage1Tail_page {st st1 : CM17TS} (h : gotoPage1Tail st = Except.ok st1) :
    SamePage st st1 := by
  rw [gotoPage1Tail_form h]
  refine SamePage.follow ?_ (sendCommand_quiet _ _ _ rfl (by decide))
  refine SamePage.follow ?_ (sendCommand_page _ _ (by split <;> decide))
  refine SamePage.follow ?_ (sendCommand_page _ _ (by split <;> decide))
  refine SamePage.follow ?_ (sendCommand_quiet _ _ _ rfl (by decide))
  refine SamePage.follow ?_ (sendCommand_quiet _ _ _ rfl (by decide))
  exact sendCommand_quiet _ _ _ rfl (by decide)

theorem pageSet_sync (st : CM17TS) (d : List Char) (n : Nat) (h : pageOf d = some n) :
    PageSync { sendCommand st d with m_page := n } := by
  show ((st.uart ++ [d, TERMINATOR]).filterMap pageOf).getLast? = some n
  rw [List.filterMap_append]
  have e : [d, TERMINATOR].filterMap pageOf = [n] := by
    rw [List.filterMap_cons_some h, List.filterMap_cons_none (by decide)]
    rfl
  rw [e, List.getLast?_append]
  rfl

theorem gotoPage0_sync {st st1 : CM17TS} (h : gotoPage0 st = Except.ok st1) :
    PageSync st1 ∧ st1.m_page = 0 := by
  unfold gotoPage0 at h
  have h1 := showSelection_page h
  have h2 : SamePage { sendCommand st "page page0".toList with m_page := 0 } st1 := by
    refine SamePage.follow ?_ h1
    exact sendCommand_quiet _ _ _ rfl (by decide)
  exact ⟨h2.sync (pageSet_sync st _ 0 (by decide)), h2.1⟩

theorem gotoPage1_sync {st st1 : CM17TS} (h : gotoPage1 st = Except.ok st1) :
    PageSync st1 ∧ st1.m_page = 1 := by
  unfold gotoPage1 at h
  dsimp only at h
  split at h
  · cases h
  · rename_i st3 h3
    have h1 := showSelection_page h3
    have h2 : SamePage { sendCommand st "page page1".toList with m_page := 1 } st1 := by
      refine SamePage.follow (SamePage.follow ?_ h1) (gotoPage1Tail_page h)
      exact sendCommand_quiet _ _ _ rfl (by decide)
    exact ⟨h2.sync (pageSet_sync st _ 1 (by decide)), h2.1⟩

theorem showRX_page {st st1 : CM17TS} {isEnd : Bool} {source destination : List Char}
    (h : showRX st isEnd source destination = Except.ok st1) :
    SamePage st st1 ∨ PageSync st1 := by
  unfold showRX at h
  split at h
  · left
    injection h with h
    rw [← h]
    repeat (refine SamePage.follow ?_ (sendCommand_quiet _ _ _ rfl (by decide)))
    exact ⟨rfl, rfl⟩
  · right
    split at h
    · cases h
    · rename_i st2 h2
      dsimp only at h
      split at h
      · cases h
      · rename_i st6 h6
        obtain ⟨e6, -⟩ := sendText_ok h6
        subst e6
        injection h with h
        rw [← h]
        have h3 := (gotoPage1_sync h2).1
        refine SamePage.sync ?_ h3
        repeat (refine SamePage.follow ?_ (sendCommand_quiet _ _ _ rfl (by decide)))
        exact ⟨rfl, rfl⟩

theorem commandRX_page {st st1 : CM17TS} {ptrs : List (List Char)}
    (h : commandRX st ptrs = Except.ok st1) : SamePage st st1 ∨ PageSync st1 := by
  unfold commandRX at h
  split at h
  · cases h
  · split at h
    · cases h
    · split at h
      · cases h
      · exact showRX_page h

theorem commandTX_page {st st1 : CM17TS} {ptrs : List (List Char)}
    (h : commandTX st ptrs = Except.ok st1) : SamePage st st1 := by
  unfold commandTX at h
  split at h
  · cases h
  · dsimp only at h
    split at h <;>
    · injection h with h
      subst h
      repeat (refine SamePage.follow ?_ (sendCommand_quiet _ _ _ rfl (by decide)))
      exact ⟨rfl, rfl⟩

theorem showRSSI_page (st : CM17TS) (rssi : Int) : SamePage st (showRSSI st rssi) := by
  unfold showRSSI
  dsimp only
  split
  · refine SamePage.follow ?_ (sendCommand_quiet _ _ _ rfl (by decide))
    exact ⟨rfl, rfl⟩
  · exact ⟨rfl, rfl⟩

theorem showAltitude_page (lib : LibC) (st : CM17TS) (a : Option ℚ) :
    SamePage st (showAltitude lib st a) := by
  unfold showAltitude
  split
  · split <;> exact sendCommand_quiet _ _ _ rfl (by decide)
  · exact samePage_refl _

theorem showSpeedTrack_page (lib : LibC) (st : CM17TS) (s t : Option ℚ) :
    SamePage st (showSpeedTrack lib st s t) := by
  unfold showSpeedTrack
  split
  · dsimp only
    refine SamePage.follow ?_ (sendCommand_quiet _ _ _ rfl (by decide))
    split <;> exact sendCommand_quiet _ _ _ rfl (by decide)
  · exact samePage_refl _

theorem showBearingDistance_page (lib : LibC) (st : CM17TS) (b d : Option ℚ) :
    SamePage st (showBearingDistance lib st b d) := by
  unfold showBearingDistance
  split
  · dsimp only
    split
    · refine SamePage.follow ?_ (sendCommand_quiet _ _ _ rfl (by decide))
      exact sendCommand_quiet _ _ _ rfl (by decide)
    · refine SamePage.follow ?_ (sendCommand_quiet _ _ _ rfl (by decide))
      exact sendCommand_quiet _ _ _ rfl (by decide)
  · exact samePage_refl _

theorem showGPS_page (lib : LibC) (st : CM17TS) (latitude longitude : ℚ) (locator : List Char)
    (altitude speed track bearing distance : Option ℚ) :
    (showGPS lib st latitude longitude locator altitude speed track bearing distance).m_page =
      st.m_page ∧
    lastPage
      (showGPS lib st latitude longitude locator altitude speed track bearing distance).uart =
      some 1 := by
  have key : ∀ q : CM17TS, SamePage st q →
      (sendCommand q "page page1".toList).m_page = st.m_page ∧
      lastPage (sendCommand q "page page1".toList).uart = some 1 := by
    intro q hq
    refine ⟨hq.1, ?_⟩
    show ((q.uart ++ ["page page1".toList, TERMINATOR]).filterMap pageOf).getLast? = some 1
    rw [List.filterMap_append]
    have e : ["page page1".toList, TERMINATOR].filterMap pageOf = [1] := by decide
    rw [e, List.getLast?_append]
    rfl
  unfold showGPS
  dsimp only
  apply key
  refine SamePage.follow ?_ (sendCommand_quiet _ _ _ rfl (by decide))
  refine SamePage.follow ?_ (showBearingDistance_page _ _ _ _)
  refine SamePage.follow ?_ (showSpeedTrack_page _ _ _ _)
  refine SamePage.follow ?_ (showAltitude_page _ _ _)
  refine SamePage.follow ?_ (sendCommand_quiet _ _ _ rfl (by decide))
  refine sendEither_quiet _ _ _ _ _ ?_ rfl (by decide) rfl (by decide)
  refine sendEither_quiet _ _ _ _ _ ?_ rfl (by decide) rfl (by decide)
  exact sendCommand_page _ _ (by decide)

theorem persist_page (q : CM17TS) (c : CConf) : SamePage q { q with m_conf := c } :=
  ⟨rfl, rfl⟩

theorem socketWrite_page (st : CM17TS) (b : List Char) : SamePage st (socketWrite st b) :=
  ⟨rfl, rfl⟩

theorem selectChannel_page {st st1 : CM17TS} (h : selectChannel st = Except.ok st1) :
    SamePage st st1 := by
  unfold selectChannel at h
  dsimp only at h
  split at h
  · cases h
  · split at h
    · cases h
    · rename_i s2 hs2
      obtain ⟨e2, -⟩ := sendText_ok hs2
      subst e2
      rw [(setChannel_ok h).1]
      refine SamePage.follow ?_ (socketWrite_page _ _)
      refine SamePage.follow ?_ (sendCommand_quiet _ _ _ rfl (by decide))
      exact ⟨rfl, rfl⟩

theorem selectDestination_page {st st1 : CM17TS} (h : selectDestination st = Except.ok st1) :
    SamePage st st1 := by
  unfold selectDestination at h
  dsimp only at h
  split at h
  · cases h
  · split at h
    · cases h
    · rename_i s2 hs2
      obtain ⟨e2, -⟩ := sendText_ok hs2
      subst e2
      rw [(setDestination_ok h).1]
      refine SamePage.follow ?_ (socketWrite_page _ _)
      refine SamePage.follow ?_ (sendCommand_quiet _ _ _ rfl (by decide))
      exact ⟨rfl, rfl⟩

theorem channelChanged_page {st st1 : CM17TS} {val : Int}
    (h : channelChanged st val = Except.ok st1) : SamePage st st1 := by
  unfold channelChanged at h
  split at h
  · cases h
  · dsimp only at h
    split at h
    · cases h
    · split at h
      · cases h
      · rename_i s2 hs2
        obtain ⟨e2, -⟩ := sendText_ok hs2
        subst e2
        rw [(setChannel_ok h).1]
        refine SamePage.follow ?_ (socketWrite_page _ _)
        refine SamePage.follow ?_ (persist_page _ _)
        refine SamePage.follow ?_ (sendCommand_quiet _ _ _ rfl (by decide))
        exact ⟨rfl, rfl⟩

theorem destinationChanged_page {st st1 : CM17TS} {val : Int}
    (h : destinationChanged st val = Except.ok st1) : SamePage st st1 := by
  unfold destinationChanged at h
  split at h
  · cases h
  · dsimp only at h
    split at h
    · cases h
    · split at h
      · cases h
      · rename_i s2 hs2
        obtain ⟨e2, -⟩ := sendText_ok hs2
        subst e2
        rw [(setDestination_ok h).1]
        refine SamePage.follow ?_ (socketWrite_page _ _)
        refine SamePage.follow ?_ (persist_page _ _)
        refine SamePage.follow ?_ (sendCommand_quiet _ _ _ rfl (by decide))
        exact ⟨rfl, rfl⟩

/-- A datagram either leaves the page alone, or ends with `m_page` naming the
latest page directive (a begin of reception), or is a GPS datagram, which writes
`page page1` last and leaves `m_page` as it was. -/
theorem parseCommand_page {lib : LibC} {st st1 : CM17TS} {command : List Char}
    (h : parseCommand lib st command = Except.ok st1) :
    SamePage st st1 ∨ PageSync st1 ∨
    (vec_at (splitFields command) 0 = Except.ok "GPS".toList ∧
      st1.m_page = st.m_page ∧ lastPage st1.uart = some 1) := by
  unfold parseCommand at h
  dsimp only at h
  split at h
  · cases h
  · rename_i keyword hk
    split at h
    · exact Or.inl (SamePage.follow (by exact ⟨rfl, rfl⟩) (selectChannel_page h))
    · split at h
      · exact Or.inl (SamePage.follow (by exact ⟨rfl, rfl⟩) (selectDestination_page h))
      · split at h
        · rcases commandRX_page h with h1 | h1
          · exact Or.inl h1
          · exact Or.inr (Or.inl h1)
        · split at h
          · exact Or.inl (commandTX_page h)
          · split at h
            · split at h
              · cases h
              · obtain ⟨e, -⟩ := sendText_ok h
                subst e
                left
                refine SamePage.follow ?_ (sendCommand_quiet _ _ _ rfl (by decide))
                exact ⟨rfl, rfl⟩
            · split at h
              · split at h
                · cases h
                · obtain ⟨e, -⟩ := sendText_ok h
                  subst e
                  left
                  refine SamePage.follow ?_ (sendCommand_quiet _ _ _ rfl (by decide))
                  exact ⟨rfl, rfl⟩
              · split at h
                · split at h
                  · cases h
                  · injection h with h
                    subst h
                    exact Or.inl (showRSSI_page _ _)
                · split at h
                  · rename_i hg
                    split at h
                    · cases h
                    · injection h with h
                      subst h
                      rw [hg] at hk
                      exact Or.inr (Or.inr ⟨hk, showGPS_page _ _ _ _ _ _ _ _ _ _⟩)
                  · injection h with h
                    subst h
                    exact Or.inl (samePage_refl _)

/-- A display frame either leaves the page alone or ends with `m_page` naming
the latest page directive (a navigation touch). -/
theorem parseScreen_page {st st1 : CM17TS} {frame : List Nat} {length : Nat}
    (h : parseScreen st frame length = Except.ok st1) : SamePage st st1 ∨ PageSync st1 := by
  unfold parseScreen at h
  have hid : ∀ {s : CM17TS}, Except.ok st = (Except.ok s : Except Fault CM17TS) →
      SamePage st s := by
    intro s hs
    injection hs with hs
    subst hs
    exact samePage_refl _
  split at h
  · split at h
    · split at h
      · exact Or.inl (channelChanged_page h)
      · split at h
        · exact Or.inl (channelChanged_page h)
        · split at h
          · exact Or.inl (destinationChanged_page h)
          · split at h
            · exact Or.inl (destinationChanged_page h)
            · split at h
              · exact Or.inr (gotoPage1_sync h).1
              · split at h
                · exact Or.inr (gotoPage1_sync h).1
                · split at h
                  · injection h with h
                    subst h
                    left
                    refine SamePage.follow ?_ (sendCommand_quiet _ _ _ rfl (by decide))
                    exact ⟨rfl, rfl⟩
                  · exact Or.inl (hid h)
    · split at h
      · split at h
        · exact Or.inr (gotoPage0_sync h).1
        · split at h
          · exact Or.inr (gotoPage0_sync h).1
          · split at h
            · injection h with h
              subst h
              exact Or.inl (by exact ⟨rfl, rfl⟩)
            · exact Or.inl (hid h)
      · exact Or.inl (hid h)
  · split at h
    · split at h
      · injection h with h
        subst h
        exact Or.inl (by exact ⟨rfl, rfl⟩)
      · exact Or.inl (hid h)
    · exact Or.inl (hid h)

/-- Apart from a GPS datagram handled while `m_page = 0`, every handled datagram
and every handled frame keeps `m_page` in step with the page directives. -/
theorem pageSync_step {lib : LibC} {st st1 : CM17TS} {ev : Event} (hs : PageSync st)
    (h : handle lib st ev = Except.ok st1)
    (hgps : ∀ command, ev = Event.datagram command →
      vec_at (splitFields command) 0 = Except.ok "GPS".toList → st.m_page = 1) :
    PageSync st1 := by
  cases ev with
  | datagram command =>
    have h0 : parseCommand lib st command = Except.ok st1 := h
    rcases parseCommand_page h0 with h1 | h1 | ⟨h1, h2, h3⟩
    · exact h1.sync hs
    · exact h1
    · unfold PageSync
      rw [h3, h2, hgps command rfl h1]
  | frame buffer length =>
    have h0 : parseScreen st buffer length = Except.ok st1 := h
    rcases parseScreen_page h0 with h1 | h1
    · exact h1.sync hs
    · exact h1

theorem startup_pageSync {version : List Char} {st st1 : CM17TS}
    (h : startup version st = Except.ok st1) : PageSync st1 ∧ st1.m_page = 1 := by
  unfold startup at h
  dsimp only at h
  split at h
  · cases h
  · rename_i st7 h7
    rw [(sendText_ok h).1]
    obtain ⟨h1, h2⟩ := gotoPage1_sync h7
    have h3 : SamePage st7 (sendCommand st7
        ("TEXT.txt=\"M17TS ".toList ++ version ++ " started\"".toList)) :=
      sendCommand_quiet _ _ _ rfl (by decide)
    exact ⟨h3.sync h1, h2⟩

/-! ## Rotation followed by a replacement with the same names -/

theorem nodup_get?_unique {l : List (List Char)} (hnd : l.Nodup) {i j : Nat} {x : List Char}
    (hi : l.get? i = some x) (hj : l.get? j = some x) : i = j := by
  obtain ⟨hi1, hi2⟩ := List.get?_eq_some.mp hi
  obtain ⟨hj1, hj2⟩ := List.get?_eq_some.mp hj
  have := (List.Nodup.get_inj_iff hnd (i := ⟨i, hi1⟩) (j := ⟨j, hj1⟩)).mp (hi2.trans hj2.symm)
  exact congrArg Fin.val this

theorem channel_rotate_then_replace (lib : LibC) (st : CM17TS) (val : Int) (chan : List Char)
    (hne : st.m_channels ≠ []) (hnd : st.m_channels.Nodup)
    (hidx : st.m_channelIdx < st.m_channels.length) (h100 : chan.length ≤ 100)
    (hchan : splitFields chan = "CHAN".toList :: st.m_channels)
    (hshort : ∀ n ∈ st.m_channels, n.length < 15) :
    ∃ st1 st2, channelChanged st val = Except.ok st1 ∧
      st1.m_channelIdx = rotateIdx st.m_channelIdx st.m_channels.length val ∧
      parseCommand lib st1 chan = Except.ok st2 ∧
      st2.m_channels = st.m_channels ∧ st2.m_channelIdx = st1.m_channelIdx ∧
      st.m_channels.get? st1.m_channelIdx = some st1.m_conf.channel ∧
      st2.m_conf.channel = st1.m_conf.channel := by
  have hlen := names_length_lt h100 hchan
  have hlt := rotateIdx_lt st.m_channelIdx st.m_channels.length val hidx
    (by unfold U32; omega)
  obtain ⟨st1, name, e1, e2, e3, e4, -, e6, -⟩ := channelChanged_effect st val hne hlt hshort
  obtain ⟨st2, f1, f2, f3, f4, -⟩ :=
    selectChannel_spec { st1 with m_channels := st.m_channels } hne hlen hshort
  have hmem : name ∈ st.m_channels := List.get?_mem e4
  have hconf : ({ st1 with m_channels := st.m_channels } : CM17TS).m_conf.channel = name := e6
  rw [hconf] at f4
  refine ⟨st1, st2, e1, e2, ?_, f2, ?_, ?_, ?_⟩
  · rw [parseCommand_CHAN lib st1 chan st.m_channels hchan]
    exact f1
  · exact nodup_get?_unique hnd (f4 hmem).1 e4
  · rw [e6]
    exact e4
  · rw [f3]

theorem destination_rotate_then_replace (lib : LibC) (st : CM17TS) (val : Int)
    (dest : List Char) (hne : st.m_destinations ≠ []) (hnd : st.m_destinations.Nodup)
    (hidx : st.m_destinationIdx < st.m_destinations.length) (h100 : dest.length ≤ 100)
    (hdest : splitFields dest = "DEST".toList :: st.m_destinations)
    (hshort : ∀ n ∈ st.m_destinations, n.length < 15) :
    ∃ st1 st2, destinationChanged st val = Except.ok st1 ∧
      st1.m_destinationIdx = rotateIdx st.m_destinationIdx st.m_destinations.length val ∧
      parseCommand lib st1 dest = Except.ok st2 ∧
      st2.m_destinations = st.m_destinations ∧
      st2.m_destinationIdx = st1.m_destinationIdx ∧
      st.m_destinations.get? st1.m_destinationIdx = some st1.m_conf.destination ∧
      st2.m_conf.destination = st1.m_conf.destination := by
  have hlen := names_length_lt h100 hdest
  have hlt := rotateIdx_lt st.m_destinationIdx st.m_destinations.length val hidx
    (by unfold U32; omega)
  obtain ⟨st1, name, e1, e2, e3, e4, -, e6, -⟩ :=
    destinationChanged_effect st val hne hlt hshort
  obtain ⟨st2, f1, f2, f3, f4, -⟩ :=
    selectDestination_spec { st1 with m_destinations := st.m_destinations } hne hlen hshort
  have hmem : name ∈ st.m_destinations := List.get?_mem e4
  have hconf :
      ({ st1 with m_destinations := st.m_destinations } : CM17TS).m_conf.destination = name := e6
  rw [hconf] at f4
  refine ⟨st1, st2, e1, e2, ?_, f2, ?_, ?_, ?_⟩
  · rw [parseCommand_DEST lib st1 dest st.m_destinations hdest]
    exact f1
  · exact nodup_get?_unique hnd (f4 hmem).1 e4
  · rw [e6]
    exact e4
  · rw [f3]

/-! ## Names that do not fit `buffer[20]` -/

theorem sendText_setChannel_overrun (st : CM17TS) (d name : List Char) (hlong : 15 ≤ name.length)
    (f : CM17TS → CM17TS) :
    (match sendText st d with
      | Except.error e => Except.error e
      | Except.ok st2 => setChannel (f st2) name) = Except.error Fault.overrun := by
  by_cases hd : d.length < 100
  · rw [sendText_of_lt _ hd]
    exact setChannel_overrun _ hlong
  · rw [sendText_overrun _ (by omega)]

theorem sendText_setDestination_overrun (st : CM17TS) (d name : List Char)
    (hlong : 15 ≤ name.length) (f : CM17TS → CM17TS) :
    (match sendText st d with
      | Except.error e => Except.error e
      | Except.ok st2 => setDestination (f st2) name) = Except.error Fault.overrun := by
  by_cases hd : d.length < 100
  · rw [sendText_of_lt _ hd]
    exact setDestination_overrun _ hlong
  · rw [sendText_overrun _ (by omega)]

theorem vec_at_of_get? {α : Type} {v : List α} {i : Nat} {x : α} (h : v.get? i = some x) :
    vec_at v i = Except.ok x := by
  unfold vec_at
  rw [h]

theorem selectChannel_overrun (st : CM17TS) (hne : st.m_channels ≠ [])
    (hlen : st.m_channels.length < 0xFFFF) (hlong : ∀ n ∈ st.m_channels, 15 ≤ n.length) :
    selectChannel st = Except.error Fault.overrun := by
  obtain ⟨hlt, -, -⟩ := selectIdx_spec st.m_conf.channel st.m_channels hne hlen
  unfold selectChannel
  dsimp only
  rw [vec_at_of_lt hlt]
  exact sendText_setChannel_overrun _ _ _ (hlong _ (List.get_mem _ _ hlt)) id

theorem selectDestination_overrun (st : CM17TS) (hne : st.m_destinations ≠ [])
    (hlen : st.m_destinations.length < 0xFFFF)
    (hlong : ∀ n ∈ st.m_destinations, 15 ≤ n.length) :
    selectDestination st = Except.error Fault.overrun := by
  obtain ⟨hlt, -, -⟩ := selectIdx_spec st.m_conf.destination st.m_destinations hne hlen
  unfold selectDestination
  dsimp only
  rw [vec_at_of_lt hlt]
  exact sendText_setDestination_overrun _ _ _ (hlong _ (List.get_mem _ _ hlt)) id

theorem channelChanged_overrun (st : CM17TS) (val : Int) (name : List Char)
    (hname : st.m_channels.get? (rotateIdx st.m_channelIdx st.m_channels.length val) =
      some name)
    (hlong : 15 ≤ name.length) : channelChanged st val = Except.error Fault.overrun := by
  unfold channelChanged
  have he : st.m_channels.isEmpty = false := by
    cases hc : st.m_channels with
    | nil => rw [hc] at hname; cases hname
    | cons a l => rfl
  rw [he]
  dsimp only
  rw [vec_at_of_get? hname]
  exact sendText_setChannel_overrun _ _ _ hlong _

theorem destinationChanged_overrun (st : CM17TS) (val : Int) (name : List Char)
    (hname : st.m_destinations.get?
      (rotateIdx st.m_destinationIdx st.m_destinations.length val) = some name)
    (hlong : 15 ≤ name.length) : destinationChanged st val = Except.error Fault.overrun := by
  unfold destinationChanged
  have he : st.m_destinations.isEmpty = false := by
    cases hc : st.m_destinations with
    | nil => rw [hc] at hname; cases hname
    | cons a l => rfl
  rw [he]
  dsimp only
  rw [vec_at_of_get? hname]
  exact sendText_setDestination_overrun _ _ _ hlong _

/-! ## Library and array limits at concrete inputs -/

/-- The conversion `atoi` within and beyond the range of `int`: beyond it the
low 32 bits of the `long` are kept, and a number beyond `long` reads as
`LONG_MAX`, whose low 32 bits are `-1`. -/
theorem atoi_samples :
    atoi "-100".toList = -100 ∧ atoi " +5".toList = 5 ∧ atoi "12x".toList = 12 ∧
    atoi "".toList = 0 ∧ atoi "2147483647".toList = 2147483647 ∧
    atoi "-2147483648".toList = -2147483648 ∧ atoi "4294967196".toList = -100 ∧
    atoi "4294967297".toList = 1 ∧ atoi "99999999999999999999".toList = -1 := by
  refine ⟨by decide, by decide, by decide, by decide, by decide, by decide, by decide,
    by decide, by decide⟩

/-- Within the range of `int`, `toInt32` changes nothing. -/
theorem toInt32_of_range (v : Int) (h1 : -2147483648 ≤ v) (h2 : v ≤ 2147483647) :
    toInt32 v = v := by
  unfold toInt32
  omega

/-- A datagram of 100 bytes or more makes `run` store the closing NUL behind
the end of `command[100]`. -/
theorem receive_overrun (lib : LibC) (l : Loop) (command : List Char) (byte : Option Nat)
    (h : 100 ≤ command.length) :
    receive lib l (some command) byte = Except.error Fault.overrun := by
  unfold receive
  dsimp only
  rw [if_pos (by omega), if_neg (by omega)]

/-- A text of 89 characters, a call sign field of 84 characters, or a source
and a destination of 84 characters together do not fit `text[100]`. -/
theorem text_overrun (lib : LibC) (st : CM17TS) :
    ("TEXT:".toList ++ List.replicate 89 'A').length < 100 ∧
    parseCommand lib st ("TEXT:".toList ++ List.replicate 89 'A') =
      Except.error Fault.overrun ∧
    ("CALLS:".toList ++ List.replicate 84 'A').length < 100 ∧
    parseCommand lib st ("CALLS:".toList ++ List.replicate 84 'A') =
      Except.error Fault.overrun := by
  refine ⟨by decide, ?_, by decide, ?_⟩
  · have hs : splitFields ("TEXT:".toList ++ List.replicate 89 'A') =
        ["TEXT".toList, List.replicate 89 'A'] := by decide
    unfold parseCommand
    dsimp only
    rw [hs]
    rfl
  · have hs : splitFields ("CALLS:".toList ++ List.replicate 84 'A') =
        ["CALLS".toList, List.replicate 84 'A'] := by decide
    unfold parseCommand
    dsimp only
    rw [hs]
    rfl

/-! ## C1: the selection indices stay in range -/

/-- C1: in every state reachable from an initial state (both lists empty, both
indices 0) through daemon datagrams and display frames whose handlers return,
a non-empty channel list has its index below its length, and a non-empty
destination list has its index below its length. -/
theorem reachable_index_in_range (lib : LibC) (st : CM17TS) (h : Reachable lib st) :
    (st.m_channels ≠ [] → st.m_channelIdx < st.m_channels.length) ∧
    (st.m_destinations ≠ [] → st.m_destinationIdx < st.m_destinations.length) :=
  reachable_indexValid h

/-- Witness for C1: the state after `CHAN:A:B:C`, `DEST:X:ALL` and one CHAN_UP
touch is reachable; both lists are non-empty and both indices are in range. -/
theorem reachable_index_in_range_witness :
    Reachable libSample (sampleAfter sampleSession) ∧
    (sampleAfter sampleSession).m_channels = ["A".toList, "B".toList, "C".toList] ∧
    (sampleAfter sampleSession).m_destinations = ["X".toList, "ALL".toList] ∧
    (((sampleAfter sampleSession).m_channels ≠ [] →
       (sampleAfter sampleSession).m_channelIdx < (sampleAfter sampleSession).m_channels.length) ∧
     ((sampleAfter sampleSession).m_destinations ≠ [] →
       (sampleAfter sampleSession).m_destinationIdx <
         (sampleAfter sampleSession).m_destinations.length)) :=
  ⟨sampleAfter_reachable _ rfl, rfl, rfl,
   reachable_index_in_range libSample _ (sampleAfter_reachable _ rfl)⟩

/-! ## C2: selection by the persisted name -/

/-- Selection where the names fit `buffer[20]`: when a `CHAN` datagram (at
most 100 bytes) replaces the channel list by a non-empty list of names that are
all shorter than 15 characters, the handler returns and the channel index is
the position of the first entry equal to the persisted channel name (that entry
equals the name and no earlier entry does), or 0 when no entry equals it;
likewise for a `DEST` datagram, the destination list and the persisted
destination name. -/
theorem select_by_persisted_name (lib : LibC) (st : CM17TS)
    (chan dest : List Char) (channels destinations : List (List Char))
    (hc100 : chan.length ≤ 100) (hd100 : dest.length ≤ 100)
    (hchan : splitFields chan = "CHAN".toList :: channels)
    (hdest : splitFields dest = "DEST".toList :: destinations)
    (hcne : channels ≠ []) (hdne : destinations ≠ [])
    (hcs : ∀ n ∈ channels, n.length < 15) (hds : ∀ n ∈ destinations, n.length < 15) :
    (∃ st1, parseCommand lib st chan = Except.ok st1 ∧ st1.m_channels = channels ∧
      (st.m_conf.channel ∈ channels →
        channels.get? st1.m_channelIdx = some st.m_conf.channel ∧
        ∀ j, j < st1.m_channelIdx → channels.get? j ≠ some st.m_conf.channel) ∧
      (st.m_conf.channel ∉ channels → st1.m_channelIdx = 0)) ∧
    (∃ st1, parseCommand lib st dest = Except.ok st1 ∧ st1.m_destinations = destinations ∧
      (st.m_conf.destination ∈ destinations →
        destinations.get? st1.m_destinationIdx = some st.m_conf.destination ∧
        ∀ j, j < st1.m_destinationIdx → destinations.get? j ≠ some st.m_conf.destination) ∧
      (st.m_conf.destination ∉ destinations → st1.m_destinationIdx = 0)) := by
  constructor
  · obtain ⟨st1, e1, e2, _, e4, e5⟩ :=
      selectChannel_spec { st with m_channels := channels } hcne (names_length_lt hc100 hchan)
        hcs
    exact ⟨st1, (parseCommand_CHAN lib st chan channels hchan).trans e1, e2, e4, e5⟩
  · obtain ⟨st1, e1, e2, _, e4, e5⟩ :=
      selectDestination_spec { st with m_destinations := destinations } hdne
        (names_length_lt hd100 hdest) hds
    exact ⟨st1, (parseCommand_DEST lib st dest destinations hdest).trans e1, e2, e4, e5⟩

/-- An instance with short names: `CHAN:A:B:C` with persisted channel `B` (a
match at position 1) and `DEST:X:Y` with persisted destination `ALL` (no
match). -/
theorem select_by_persisted_name_witness :
    ("CHAN:A:B:C".toList.length ≤ 100 ∧ "DEST:X:Y".toList.length ≤ 100 ∧
      splitFields "CHAN:A:B:C".toList = "CHAN".toList :: ["A".toList, "B".toList, "C".toList] ∧
      splitFields "DEST:X:Y".toList = "DEST".toList :: ["X".toList, "Y".toList] ∧
      (construct confSample).m_conf.channel ∈ ["A".toList, "B".toList, "C".toList] ∧
      (construct confSample).m_conf.destination ∉ ["X".toList, "Y".toList] ∧
      (∀ n ∈ ["A".toList, "B".toList, "C".toList], n.length < 15) ∧
      (∀ n ∈ ["X".toList, "Y".toList], n.length < 15)) ∧
    ((∃ st1, parseCommand libSample (construct confSample) "CHAN:A:B:C".toList = Except.ok st1 ∧
        st1.m_channels = ["A".toList, "B".toList, "C".toList] ∧
        ((construct confSample).m_conf.channel ∈ ["A".toList, "B".toList, "C".toList] →
          ["A".toList, "B".toList, "C".toList].get? st1.m_channelIdx =
            some (construct confSample).m_conf.channel ∧
          ∀ j, j < st1.m_channelIdx →
            ["A".toList, "B".toList, "C".toList].get? j ≠
              some (construct confSample).m_conf.channel) ∧
        ((construct confSample).m_conf.channel ∉ ["A".toList, "B".toList, "C".toList] →
          st1.m_channelIdx = 0)) ∧
     (∃ st1, parseCommand libSample (construct confSample) "DEST:X:Y".toList = Except.ok st1 ∧
        st1.m_destinations = ["X".toList, "Y".toList] ∧
        ((construct confSample).m_conf.destination ∈ ["X".toList, "Y".toList] →
          ["X".toList, "Y".toList].get? st1.m_destinationIdx =
            some (construct confSample).m_conf.destination ∧
          ∀ j, j < st1.m_destinationIdx →
            ["X".toList, "Y".toList].get? j ≠ some (construct confSample).m_conf.destination) ∧
        ((construct confSample).m_conf.destination ∉ ["X".toList, "Y".toList] →
          st1.m_destinationIdx = 0))) :=
  ⟨⟨by decide, by decide, by decide, by decide, by decide, by decide, by decide, by decide⟩,
   select_by_persisted_name libSample (construct confSample) "CHAN:A:B:C".toList
     "DEST:X:Y".toList ["A".toList, "B".toList, "C".toList] ["X".toList, "Y".toList]
     (by decide) (by decide) (by decide) (by decide) (by decide) (by decide) (by decide)
     (by decide)⟩

/-- C2 (the code departs from the claim): `selectChannel` derives the index and
then hands the selected name to `setChannel`, which builds `CHAN:<name>` in
`char buffer[20U]` with `strcat` and no test of the length. So when a `CHAN`
datagram (at most 100 bytes) replaces the channel list by a non-empty list whose
names all have 15 characters or more, the handler does not return with an
index: the selected name is written behind the end of `buffer`. The same holds
for a `DEST` datagram, `selectDestination` and `setDestination`. -/
theorem select_overruns_on_long_names (lib : LibC) (st : CM17TS)
    (chan dest : List Char) (channels destinations : List (List Char))
    (hc100 : chan.length ≤ 100) (hd100 : dest.length ≤ 100)
    (hchan : splitFields chan = "CHAN".toList :: channels)
    (hdest : splitFields dest = "DEST".toList :: destinations)
    (hcne : channels ≠ []) (hdne : destinations ≠ [])
    (hcl : ∀ n ∈ channels, 15 ≤ n.length) (hdl : ∀ n ∈ destinations, 15 ≤ n.length) :
    parseCommand lib st chan = Except.error Fault.overrun ∧
    parseCommand lib st dest = Except.error Fault.overrun := by
  constructor
  · rw [parseCommand_CHAN lib st chan channels hchan]
    exact selectChannel_overrun { st with m_channels := channels } hcne
      (names_length_lt hc100 hchan) hcl
  · rw [parseCommand_DEST lib st dest destinations hdest]
    exact selectDestination_overrun { st with m_destinations := destinations } hdne
      (names_length_lt hd100 hdest) hdl

/-- Witness for C2: the datagrams `CHAN:ABCDEFGHIJKLMNO` and
`DEST:ABCDEFGHIJKLMNO` (one name of 15 characters) in the constructed state;
`CHAN:ABCDEFGHIJKLMNO` and its NUL take 21 bytes. -/
theorem select_overruns_on_long_names_witness :
    ("CHAN:ABCDEFGHIJKLMNO".toList.length ≤ 100 ∧ "DEST:ABCDEFGHIJKLMNO".toList.length ≤ 100 ∧
      splitFields "CHAN:ABCDEFGHIJKLMNO".toList = "CHAN".toList :: ["ABCDEFGHIJKLMNO".toList] ∧
      splitFields "DEST:ABCDEFGHIJKLMNO".toList = "DEST".toList :: ["ABCDEFGHIJKLMNO".toList] ∧
      ["ABCDEFGHIJKLMNO".toList] ≠ [] ∧
      (∀ n ∈ ["ABCDEFGHIJKLMNO".toList], 15 ≤ n.length) ∧
      "CHAN:ABCDEFGHIJKLMNO".toList.length + 1 = 21) ∧
    parseCommand libSample (construct confSample) "CHAN:ABCDEFGHIJKLMNO".toList =
      Except.error Fault.overrun ∧
    parseCommand libSample (construct confSample) "DEST:ABCDEFGHIJKLMNO".toList =
      Except.error Fault.overrun :=
  ⟨⟨by decide, by decide, by decide, by decide, by decide, by decide, by decide⟩,
   select_overruns_on_long_names libSample (construct confSample)
     "CHAN:ABCDEFGHIJKLMNO".toList "DEST:ABCDEFGHIJKLMNO".toList
     ["ABCDEFGHIJKLMNO".toList] ["ABCDEFGHIJKLMNO".toList]
     (by decide) (by decide) (by decide) (by decide) (by decide) (by decide) (by decide)
     (by decide)⟩

/-! ## C3: a full cycle of forward rotations -/

/-- A full cycle where the names fit `buffer[20]`: for a non-empty channel
list of length `n` (representable in the `unsigned int` index) whose names are
all shorter than 15 characters and a valid index, `n` forward rotations
`channelChanged(+1)` in a row all return and bring the channel index back to
its starting value; the same holds for `destinationChanged(+1)` and the
destination list. -/
theorem forward_rotation_full_cycle (sc sd : CM17TS)
    (hcne : sc.m_channels ≠ []) (hci : sc.m_channelIdx < sc.m_channels.length)
    (hcn : sc.m_channels.length < 4294967296)
    (hdne : sd.m_destinations ≠ []) (hdi : sd.m_destinationIdx < sd.m_destinations.length)
    (hdn : sd.m_destinations.length < 4294967296)
    (hcs : ∀ n ∈ sc.m_channels, n.length < 15) (hds : ∀ n ∈ sd.m_destinations, n.length < 15) :
    (∃ st1, iterate (fun s => channelChanged s 1) sc.m_channels.length sc = Except.ok st1 ∧
      st1.m_channels = sc.m_channels ∧ st1.m_channelIdx = sc.m_channelIdx) ∧
    (∃ st1, iterate (fun s => destinationChanged s 1) sd.m_destinations.length sd =
        Except.ok st1 ∧
      st1.m_destinations = sd.m_destinations ∧ st1.m_destinationIdx = sd.m_destinationIdx) := by
  constructor
  · obtain ⟨st1, e1, e2, e3⟩ := iterate_channel_forward sc.m_channels.length sc hcne hci hcn
      hcs
    refine ⟨st1, e1, e2, ?_⟩
    rw [e3, Nat.add_mod_right, Nat.mod_eq_of_lt hci]
  · obtain ⟨st1, e1, e2, e3⟩ :=
      iterate_destination_forward sd.m_destinations.length sd hdne hdi hdn hds
    refine ⟨st1, e1, e2, ?_⟩
    rw [e3, Nat.add_mod_right, Nat.mod_eq_of_lt hdi]

/-- An instance with short names: the sample session ends with channels `A, B, C` at index 2
and destinations `X, ALL` at index 1; three forward channel rotations and two
forward destination rotations return to these indices. -/
theorem forward_rotation_full_cycle_witness :
    ((sampleAfter sampleSession).m_channels ≠ [] ∧
      (sampleAfter sampleSession).m_channelIdx < (sampleAfter sampleSession).m_channels.length ∧
      (sampleAfter sampleSession).m_channels.length < 4294967296 ∧
      (sampleAfter sampleSession).m_destinations ≠ [] ∧
      (sampleAfter sampleSession).m_destinationIdx <
        (sampleAfter sampleSession).m_destinations.length ∧
      (sampleAfter sampleSession).m_destinations.length < 4294967296 ∧
      (∀ n ∈ (sampleAfter sampleSession).m_channels, n.length < 15) ∧
      (∀ n ∈ (sampleAfter sampleSession).m_destinations, n.length < 15)) ∧
    ((∃ st1, iterate (fun s => channelChanged s 1) (sampleAfter sampleSession).m_channels.length
          (sampleAfter sampleSession) = Except.ok st1 ∧
        st1.m_channels = (sampleAfter sampleSession).m_channels ∧
        st1.m_channelIdx = (sampleAfter sampleSession).m_channelIdx) ∧
     (∃ st1, iterate (fun s => destinationChanged s 1)
          (sampleAfter sampleSession).m_destinations.length (sampleAfter sampleSession) =
          Except.ok st1 ∧
        st1.m_destinations = (sampleAfter sampleSession).m_destinations ∧
        st1.m_destinationIdx = (sampleAfter sampleSession).m_destinationIdx)) :=
  ⟨⟨by decide, by decide, by decide, by decide, by decide, by decide, by decide, by decide⟩,
   forward_rotation_full_cycle (sampleAfter sampleSession) (sampleAfter sampleSession)
     (by decide) (by decide) (by decide) (by decide) (by decide) (by decide) (by decide)
     (by decide)⟩

/-- C3 (the code departs from the claim): `channelChanged` ends by handing the
name at the new index to `setChannel`, which builds `CHAN:<name>` in
`char buffer[20U]` without a test of the length. So for a channel list of
length `n` with a valid index `i` where the entry at `(i + 1) mod n` has 15
characters or more, the `n` forward rotations do not bring the index back: the
first of them writes behind the end of `buffer`. The same holds for
`destinationChanged(+1)` and `setDestination`. -/
theorem forward_cycle_overruns (sc sd : CM17TS) (cname dname : List Char)
    (hci : sc.m_channelIdx < sc.m_channels.length) (hcn : sc.m_channels.length < 4294967296)
    (hc : sc.m_channels.get? ((sc.m_channelIdx + 1) % sc.m_channels.length) = some cname)
    (hcl : 15 ≤ cname.length)
    (hdi : sd.m_destinationIdx < sd.m_destinations.length)
    (hdn : sd.m_destinations.length < 4294967296)
    (hd : sd.m_destinations.get? ((sd.m_destinationIdx + 1) % sd.m_destinations.length) =
      some dname)
    (hdl : 15 ≤ dname.length) :
    iterate (fun s => channelChanged s 1) sc.m_channels.length sc =
      Except.error Fault.overrun ∧
    iterate (fun s => destinationChanged s 1) sd.m_destinations.length sd =
      Except.error Fault.overrun := by
  constructor
  · have h1 : channelChanged sc 1 = Except.error Fault.overrun :=
      channelChanged_overrun sc 1 cname (by rw [rotateIdx_forward _ _ hci hcn]; exact hc) hcl
    obtain ⟨k, hk⟩ : ∃ k, sc.m_channels.length = k + 1 := ⟨sc.m_channels.length - 1, by omega⟩
    rw [hk]
    unfold iterate
    rw [h1]
  · have h1 : destinationChanged sd 1 = Except.error Fault.overrun :=
      destinationChanged_overrun sd 1 dname
        (by rw [rotateIdx_forward _ _ hdi hdn]; exact hd) hdl
    obtain ⟨k, hk⟩ : ∃ k, sd.m_destinations.length = k + 1 :=
      ⟨sd.m_destinations.length - 1, by omega⟩
    rw [hk]
    unfold iterate
    rw [h1]

/-- Witness for C3: the datagrams `CHAN:A:ABCDEFGHIJKLMNOPQRS` and
`DEST:X:ABCDEFGHIJKLMNOPQRS` are handled from the constructed state and leave
two lists of length 2 at index 0; the entry at index 1 has 19 characters. -/
theorem forward_cycle_overruns_witness :
    (handleAll libSample (construct confSample)
        [Event.datagram "CHAN:A:ABCDEFGHIJKLMNOPQRS".toList,
         Event.datagram "DEST:X:ABCDEFGHIJKLMNOPQRS".toList] = Except.ok sampleLong ∧
      sampleLong.m_channelIdx < sampleLong.m_channels.length ∧
      sampleLong.m_channels.length < 4294967296 ∧
      sampleLong.m_channels.get? ((sampleLong.m_channelIdx + 1) % sampleLong.m_channels.length) =
        some "ABCDEFGHIJKLMNOPQRS".toList ∧
      15 ≤ "ABCDEFGHIJKLMNOPQRS".toList.length ∧
      sampleLong.m_destinationIdx < sampleLong.m_destinations.length ∧
      sampleLong.m_destinations.length < 4294967296 ∧
      sampleLong.m_destinations.get?
          ((sampleLong.m_destinationIdx + 1) % sampleLong.m_destinations.length) =
        some "ABCDEFGHIJKLMNOPQRS".toList) ∧
    iterate (fun s => channelChanged s 1) sampleLong.m_channels.length sampleLong =
      Except.error Fault.overrun ∧
    iterate (fun s => destinationChanged s 1) sampleLong.m_destinations.length sampleLong =
      Except.error Fault.overrun :=
  ⟨⟨rfl, by decide, by decide, by decide, by decide, by decide, by decide, by decide⟩,
   forward_cycle_overruns sampleLong sampleLong "ABCDEFGHIJKLMNOPQRS".toList
     "ABCDEFGHIJKLMNOPQRS".toList (by decide) (by decide) (by decide) (by decide) (by decide)
     (by decide) (by decide) (by decide)⟩

/-! ## C4: one rotation step -/

/-- One rotation where the names fit `buffer[20]`: for a non-empty channel
list of length `n` (representable in the `unsigned int` index) whose names are
all shorter than 15 characters and a valid index `i`, `channelChanged(+1)`
returns with
the index `(i + 1) mod n` and `channelChanged(-1)` returns with the index
`(i + n - 1) mod n`; the same holds for `destinationChanged` and the
destination list. In particular, for every list length `n` with
`0 < n < 2^32`, stepping back from index 0 gives `n - 1` and stepping forward
from `n - 1` gives 0. -/
theorem rotation_step_index (sc sd : CM17TS)
    (hcne : sc.m_channels ≠ []) (hci : sc.m_channelIdx < sc.m_channels.length)
    (hcn : sc.m_channels.length < 4294967296)
    (hdne : sd.m_destinations ≠ []) (hdi : sd.m_destinationIdx < sd.m_destinations.length)
    (hdn : sd.m_destinations.length < 4294967296)
    (hcs : ∀ n ∈ sc.m_channels, n.length < 15) (hds : ∀ n ∈ sd.m_destinations, n.length < 15) :
    (∃ st1, channelChanged sc 1 = Except.ok st1 ∧ st1.m_channels = sc.m_channels ∧
      st1.m_channelIdx = (sc.m_channelIdx + 1) % sc.m_channels.length) ∧
    (∃ st1, channelChanged sc (-1) = Except.ok st1 ∧ st1.m_channels = sc.m_channels ∧
      st1.m_channelIdx =
        (sc.m_channelIdx + sc.m_channels.length - 1) % sc.m_channels.length) ∧
    (∃ st1, destinationChanged sd 1 = Except.ok st1 ∧
      st1.m_destinations = sd.m_destinations ∧
      st1.m_destinationIdx = (sd.m_destinationIdx + 1) % sd.m_destinations.length) ∧
    (∃ st1, destinationChanged sd (-1) = Except.ok st1 ∧
      st1.m_destinations = sd.m_destinations ∧
      st1.m_destinationIdx =
        (sd.m_destinationIdx + sd.m_destinations.length - 1) % sd.m_destinations.length) ∧
    (∀ n : Nat, 0 < n → n < 4294967296 →
      rotateIdx 0 n (-1) = n - 1 ∧ rotateIdx (n - 1) n 1 = 0) := by
  have hcpos : 0 < sc.m_channels.length := List.length_pos.mpr hcne
  have hdpos : 0 < sd.m_destinations.length := List.length_pos.mpr hdne
  have c1 := rotateIdx_forward _ _ hci hcn
  have c2 := rotateIdx_backward _ _ hci hcn
  have d1 := rotateIdx_forward _ _ hdi hdn
  have d2 := rotateIdx_backward _ _ hdi hdn
  refine ⟨?_, ?_, ?_, ?_, ?_⟩
  · obtain ⟨st1, e1, e2, e3⟩ := channelChanged_spec sc 1 hcne
      (by rw [c1]; exact Nat.mod_lt _ hcpos) hcs
    exact ⟨st1, e1, e2, e3.trans c1⟩
  · obtain ⟨st1, e1, e2, e3⟩ := channelChanged_spec sc (-1) hcne
      (by rw [c2]; exact Nat.mod_lt _ hcpos) hcs
    exact ⟨st1, e1, e2, e3.trans c2⟩
  · obtain ⟨st1, e1, e2, e3⟩ := destinationChanged_spec sd 1 hdne
      (by rw [d1]; exact Nat.mod_lt _ hdpos) hds
    exact ⟨st1, e1, e2, e3.trans d1⟩
  · obtain ⟨st1, e1, e2, e3⟩ := destinationChanged_spec sd (-1) hdne
      (by rw [d2]; exact Nat.mod_lt _ hdpos) hds
    exact ⟨st1, e1, e2, e3.trans d2⟩
  · intro n hn0 hn
    constructor
    · rw [rotateIdx_backward 0 n hn0 hn, Nat.zero_add, Nat.mod_eq_of_lt (by omega)]
    · rw [rotateIdx_forward (n - 1) n (by omega) hn]
      have e : n - 1 + 1 = n := by omega
      rw [e, Nat.mod_self]

/-- An instance with short names: the sample session ends with channels `A, B, C` at index 2
(the last entry) and destinations `X, ALL` at index 1. -/
theorem rotation_step_index_witness :
    ((sampleAfter sampleSession).m_channels ≠ [] ∧
      (sampleAfter sampleSession).m_channelIdx < (sampleAfter sampleSession).m_channels.length ∧
      (sampleAfter sampleSession).m_channels.length < 4294967296 ∧
      (sampleAfter sampleSession).m_destinations ≠ [] ∧
      (sampleAfter sampleSession).m_destinationIdx <
        (sampleAfter sampleSession).m_destinations.length ∧
      (sampleAfter sampleSession).m_destinations.length < 4294967296 ∧
      (∀ n ∈ (sampleAfter sampleSession).m_channels, n.length < 15) ∧
      (∀ n ∈ (sampleAfter sampleSession).m_destinations, n.length < 15)) ∧
    ((∃ st1, channelChanged (sampleAfter sampleSession) 1 = Except.ok st1 ∧
        st1.m_channels = (sampleAfter sampleSession).m_channels ∧
        st1.m_channelIdx = ((sampleAfter sampleSession).m_channelIdx + 1) %
          (sampleAfter sampleSession).m_channels.length) ∧
     (∃ st1, channelChanged (sampleAfter sampleSession) (-1) = Except.ok st1 ∧
        st1.m_channels = (sampleAfter sampleSession).m_channels ∧
        st1.m_channelIdx =
          ((sampleAfter sampleSession).m_channelIdx +
            (sampleAfter sampleSession).m_channels.length - 1) %
          (sampleAfter sampleSession).m_channels.length) ∧
     (∃ st1, destinationChanged (sampleAfter sampleSession) 1 = Except.ok st1 ∧
        st1.m_destinations = (sampleAfter sampleSession).m_destinations ∧
        st1.m_destinationIdx = ((sampleAfter sampleSession).m_destinationIdx + 1) %
          (sampleAfter sampleSession).m_destinations.length) ∧
     (∃ st1, destinationChanged (sampleAfter sampleSession) (-1) = Except.ok st1 ∧
        st1.m_destinations = (sampleAfter sampleSession).m_destinations ∧
        st1.m_destinationIdx =
          ((sampleAfter sampleSession).m_destinationIdx +
            (sampleAfter sampleSession).m_destinations.length - 1) %
          (sampleAfter sampleSession).m_destinations.length) ∧
     (∀ n : Nat, 0 < n → n < 4294967296 →
        rotateIdx 0 n (-1) = n - 1 ∧ rotateIdx (n - 1) n 1 = 0)) :=
  ⟨⟨by decide, by decide, by decide, by decide, by decide, by decide, by decide, by decide⟩,
   rotation_step_index (sampleAfter sampleSession) (sampleAfter sampleSession)
     (by decide) (by decide) (by decide) (by decide) (by decide) (by decide) (by decide)
     (by decide)⟩

/-- C4 (the code departs from the claim): `channelChanged` computes the new
index, reads the name there and ends in `setChannel`, which builds
`CHAN:<name>` in `char buffer[20U]` without a test of the length. So for a
channel list of length `n` with a valid index `i`, a forward rotation does not
complete when the entry at `(i + 1) mod n` has 15 characters or more, and a
backward rotation does not complete when the entry at `(i + n - 1) mod n` has:
the name is written behind the end of `buffer`. The same holds for
`destinationChanged` and `setDestination`. -/
theorem rotation_step_overruns (sc sd : CM17TS) (cup cdown dup ddown : List Char)
    (hci : sc.m_channelIdx < sc.m_channels.length) (hcn : sc.m_channels.length < 4294967296)
    (hcu : sc.m_channels.get? ((sc.m_channelIdx + 1) % sc.m_channels.length) = some cup)
    (hcul : 15 ≤ cup.length)
    (hcd : sc.m_channels.get?
      ((sc.m_channelIdx + sc.m_channels.length - 1) % sc.m_channels.length) = some cdown)
    (hcdl : 15 ≤ cdown.length)
    (hdi : sd.m_destinationIdx < sd.m_destinations.length)
    (hdn : sd.m_destinations.length < 4294967296)
    (hdu : sd.m_destinations.get? ((sd.m_destinationIdx + 1) % sd.m_destinations.length) =
      some dup)
    (hdul : 15 ≤ dup.length)
    (hdd : sd.m_destinations.get?
      ((sd.m_destinationIdx + sd.m_destinations.length - 1) % sd.m_destinations.length) =
      some ddown)
    (hddl : 15 ≤ ddown.length) :
    channelChanged sc 1 = Except.error Fault.overrun ∧
    channelChanged sc (-1) = Except.error Fault.overrun ∧
    destinationChanged sd 1 = Except.error Fault.overrun ∧
    destinationChanged sd (-1) = Except.error Fault.overrun :=
  ⟨channelChanged_overrun sc 1 cup (by rw [rotateIdx_forward _ _ hci hcn]; exact hcu) hcul,
   channelChanged_overrun sc (-1) cdown
     (by rw [rotateIdx_backward _ _ hci hcn]; exact hcd) hcdl,
   destinationChanged_overrun sd 1 dup
     (by rw [rotateIdx_forward _ _ hdi hdn]; exact hdu) hdul,
   destinationChanged_overrun sd (-1) ddown
     (by rw [rotateIdx_backward _ _ hdi hdn]; exact hdd) hddl⟩

/-- Witness for C4: the state after `CHAN:A:ABCDEFGHIJKLMNOPQRS` and
`DEST:X:ABCDEFGHIJKLMNOPQRS` (both handled; lists of length 2 at index 0), where
forward and backward both lead to index 1, a name of 19 characters. -/
theorem rotation_step_overruns_witness :
    (handleAll libSample (construct confSample)
        [Event.datagram "CHAN:A:ABCDEFGHIJKLMNOPQRS".toList,
         Event.datagram "DEST:X:ABCDEFGHIJKLMNOPQRS".toList] = Except.ok sampleLong ∧
      sampleLong.m_channelIdx < sampleLong.m_channels.length ∧
      sampleLong.m_channels.get? ((sampleLong.m_channelIdx + 1) % sampleLong.m_channels.length) =
        some "ABCDEFGHIJKLMNOPQRS".toList ∧
      sampleLong.m_channels.get?
          ((sampleLong.m_channelIdx + sampleLong.m_channels.length - 1) %
            sampleLong.m_channels.length) = some "ABCDEFGHIJKLMNOPQRS".toList ∧
      15 ≤ "ABCDEFGHIJKLMNOPQRS".toList.length ∧
      sampleLong.m_destinationIdx < sampleLong.m_destinations.length ∧
      sampleLong.m_destinations.get?
          ((sampleLong.m_destinationIdx + 1) % sampleLong.m_destinations.length) =
        some "ABCDEFGHIJKLMNOPQRS".toList ∧
      sampleLong.m_destinations.get?
          ((sampleLong.m_destinationIdx + sampleLong.m_destinations.length - 1) %
            sampleLong.m_destinations.length) = some "ABCDEFGHIJKLMNOPQRS".toList) ∧
    channelChanged sampleLong 1 = Except.error Fault.overrun ∧
    channelChanged sampleLong (-1) = Except.error Fault.overrun ∧
    destinationChanged sampleLong 1 = Except.error Fault.overrun ∧
    destinationChanged sampleLong (-1) = Except.error Fault.overrun :=
  ⟨⟨rfl, by decide, by decide, by decide, by decide, by decide, by decide, by decide⟩,
   rotation_step_overruns sampleLong sampleLong "ABCDEFGHIJKLMNOPQRS".toList
     "ABCDEFGHIJKLMNOPQRS".toList "ABCDEFGHIJKLMNOPQRS".toList "ABCDEFGHIJKLMNOPQRS".toList
     (by decide) (by decide) (by decide) (by decide) (by decide) (by decide)
     (by decide) (by decide) (by decide) (by decide) (by decide) (by decide)⟩

/-! ## C5: datagrams with too few fields -/

/-- C5 (the code departs from the claim): a datagram with a recognised keyword
and too few fields, or with no field at all, does not make `parseCommand`
return. For every state, `TX`, `TEXT`, `CALLS`, `RSSI`, `RX:0:G4KLX` (two
fields), a datagram of delimiters only and the empty command string (which
`run` itself never passes on, as it reads `ret > 0` bytes) end in the
uncaught `std::out_of_range` of `ptrs.at`, and `GPS:51:0` (two fields) ends in
an uncaught exception as well. -/
theorem short_datagram_faults (lib : LibC) (st : CM17TS) :
    parseCommand lib st "TX".toList = Except.error Fault.out_of_range ∧
    parseCommand lib st "TEXT".toList = Except.error Fault.out_of_range ∧
    parseCommand lib st "CALLS".toList = Except.error Fault.out_of_range ∧
    parseCommand lib st "RSSI".toList = Except.error Fault.out_of_range ∧
    parseCommand lib st "RX:0:G4KLX".toList = Except.error Fault.out_of_range ∧
    parseCommand lib st [] = Except.error Fault.out_of_range ∧
    parseCommand lib st ":::".toList = Except.error Fault.out_of_range ∧
    (∃ e, parseCommand lib st "GPS:51:0".toList = Except.error e) := by
  refine ⟨rfl, rfl, rfl, rfl, rfl, rfl, rfl, ?_⟩
  have hp : parseCommand lib st "GPS:51:0".toList =
      match parseGPS lib ["GPS".toList, "51".toList, "0".toList] with
      | Except.error e => Except.error e
      | Except.ok fix =>
        Except.ok (showGPS lib st fix.latitude fix.longitude fix.locator fix.altitude
          fix.speed fix.track fix.bearing fix.distance) := rfl
  rw [hp]
  unfold parseGPS
  cases h1 : stofAt lib ["GPS".toList, "51".toList, "0".toList] 1 with
  | error e => exact ⟨e, rfl⟩
  | ok lat =>
    cases h2 : stofAt lib ["GPS".toList, "51".toList, "0".toList] 2 with
    | error e => exact ⟨e, rfl⟩
    | ok lon => exact ⟨Fault.out_of_range, rfl⟩

/-! ## C6, C7: slider value frames -/

/-- C6: for a display frame `0x71 b1 b2 b3 b4 ...` handled while the pending
slider query is `SI_VOLUME`, the handler returns; afterwards `m_volume` is the
little-endian value `b1 + 256*b2 + 65536*b3 + 16777216*b4`, the pending query is
`SI_NONE`, exactly one datagram `VOL:<value in decimal>` has been sent to the
daemon, the same value is the persisted volume, and nothing was written to the
display. -/
theorem slider_frame_sets_volume (st : CM17TS) (b1 b2 b3 b4 : Nat) (rest : List Nat)
    (length : Nat) (h1 : b1 < 256) (h2 : b2 < 256) (h3 : b3 < 256) (h4 : b4 < 256)
    (hs : st.m_slider = SLIDER.SI_VOLUME) :
    ∃ st1, parseScreen st (0x71 :: b1 :: b2 :: b3 :: b4 :: rest) length = Except.ok st1 ∧
      st1.m_volume = b1 + 256 * b2 + 65536 * b3 + 16777216 * b4 ∧
      st1.m_volume < 4294967296 ∧
      st1.m_slider = SLIDER.SI_NONE ∧
      st1.socket = st.socket ++
        ["VOL:".toList ++ Nat.toDigits 10 (b1 + 256 * b2 + 65536 * b3 + 16777216 * b4)] ∧
      st1.m_conf.volume = b1 + 256 * b2 + 65536 * b3 + 16777216 * b4 ∧
      st1.uart = st.uart := by
  have hv := sliderValue_frame 0x71 b1 b2 b3 b4 rest h1 h2 h3
  rw [parseScreen_slider, hs]
  refine ⟨_, rfl, hv, ?_, rfl, ?_, hv, rfl⟩
  · show sliderValue _ < 4294967296
    rw [hv]
    omega
  · show st.socket ++ [_] = _
    unfold fmtU
    rw [hv]
    rfl

/-- Witness for C6: the frame `71 04 03 02 01` with a pending volume query
gives the volume `0x01020304 = 16909060`. -/
theorem slider_frame_sets_volume_witness :
    ((4 : Nat) < 256 ∧ (3 : Nat) < 256 ∧ (2 : Nat) < 256 ∧ (1 : Nat) < 256 ∧
      (volumeChanged (construct confSample)).m_slider = SLIDER.SI_VOLUME) ∧
    ∃ st1, parseScreen (volumeChanged (construct confSample))
        (0x71 :: 4 :: 3 :: 2 :: 1 :: [255, 255, 255]) 8 = Except.ok st1 ∧
      st1.m_volume = 4 + 256 * 3 + 65536 * 2 + 16777216 * 1 ∧
      st1.m_volume < 4294967296 ∧
      st1.m_slider = SLIDER.SI_NONE ∧
      st1.socket = (volumeChanged (construct confSample)).socket ++
        ["VOL:".toList ++ Nat.toDigits 10 (4 + 256 * 3 + 65536 * 2 + 16777216 * 1)] ∧
      st1.m_conf.volume = 4 + 256 * 3 + 65536 * 2 + 16777216 * 1 ∧
      st1.uart = (volumeChanged (construct confSample)).uart :=
  ⟨⟨by decide, by decide, by decide, by decide, rfl⟩,
   slider_frame_sets_volume (volumeChanged (construct confSample)) 4 3 2 1 [255, 255, 255] 8
     (by decide) (by decide) (by decide) (by decide) rfl⟩

/-- C7: a display frame whose first byte is `0x71`, handled while the pending
slider query is `SI_NONE`, returns the state unchanged: every member, the
persisted configuration and both output traces are as before. -/
theorem slider_frame_ignored (st : CM17TS) (rest : List Nat) (length : Nat)
    (hs : st.m_slider = SLIDER.SI_NONE) :
    parseScreen st (0x71 :: rest) length = Except.ok st := by
  rw [parseScreen_slider, hs]

/-- Witness for C7: the frame `71 04 03 02 01` right after construction, when
no slider query is pending. -/
theorem slider_frame_ignored_witness :
    (construct confSample).m_slider = SLIDER.SI_NONE ∧
    parseScreen (construct confSample) (0x71 :: [4, 3, 2, 1, 255, 255, 255]) 8 =
      Except.ok (construct confSample) :=
  ⟨rfl, slider_frame_ignored (construct confSample) [4, 3, 2, 1, 255, 255, 255] 8 rfl⟩

/-! ## C8, C9: the S-meter value -/

/-- C8: for an `RSSI` datagram whose value field reads (by `atoi`) as the
signed integer `dBm`, the handler returns and `m_sMeter` is
`min(100, max(0, 140 - dBm))` when `|dBm| < 140` and 0 otherwise; it is between
0 and 100 in every case; -200 gives 0 and +5 gives 100. The embedding computes
with the mathematical integer, so this covers in particular every `dBm` of the
32-bit `int` range other than `INT_MIN`. -/
theorem rssi_sets_sMeter (lib : LibC) (st : CM17TS) (command field : List Char)
    (rest : List (List Char)) (dBm : Int)
    (hcmd : splitFields command = "RSSI".toList :: field :: rest)
    (hval : atoi field = dBm) :
    (∃ st1, parseCommand lib st command = Except.ok st1 ∧
      (st1.m_sMeter : Int) = (if |dBm| < 140 then min 100 (max 0 (140 - dBm)) else 0) ∧
      st1.m_sMeter ≤ 100) ∧
    (showRSSI st (-200)).m_sMeter = 0 ∧ (showRSSI st 5).m_sMeter = 100 := by
  refine ⟨⟨showRSSI st (atoi field), parseCommand_RSSI lib st command field rest hcmd, ?_, ?_⟩,
    ?_, ?_⟩
  · rw [showRSSI_sMeter, hval]
    exact sMeterOf_eq dBm
  · rw [showRSSI_sMeter]
    exact sMeterOf_le _
  · rw [showRSSI_sMeter]
    rfl
  · rw [showRSSI_sMeter]
    rfl

/-- Witness for C8: the datagram `RSSI:60` (a reading inside the band where the
value is not clamped: `140 - 60 = 80`). -/
theorem rssi_sets_sMeter_witness :
    (splitFields "RSSI:60".toList = "RSSI".toList :: "60".toList :: [] ∧
      atoi "60".toList = 60) ∧
    ((∃ st1, parseCommand libSample (construct confSample) "RSSI:60".toList = Except.ok st1 ∧
        (st1.m_sMeter : Int) =
          (if |(60 : Int)| < 140 then min 100 (max 0 (140 - 60)) else 0) ∧
        st1.m_sMeter ≤ 100) ∧
      (showRSSI (construct confSample) (-200)).m_sMeter = 0 ∧
      (showRSSI (construct confSample) 5).m_sMeter = 100) :=
  ⟨⟨by decide, by decide⟩,
   rssi_sets_sMeter libSample (construct confSample) "RSSI:60".toList "60".toList [] 60
     (by decide) (by decide)⟩

/-- C9 (the code departs from the claim): an `RSSI` command carrying -100 dBm
sets `m_sMeter` to 100, not 40: `RSSI_BASE - rssi` is `140 + 100 = 240`, which
is clamped to 100. The value 40 is what `RSSI_BASE - dBm` gives, with the
magnitude `dBm = std::abs(rssi)` that `showRSSI` computes just before. -/
theorem rssi_minus_100_gives_100 (lib : LibC) (st : CM17TS) :
    parseCommand lib st "RSSI:-100".toList = Except.ok (showRSSI st (-100)) ∧
    (showRSSI st (-100)).m_sMeter = 100 ∧
    (showRSSI st (-100)).m_sMeter ≠ 40 ∧
    RSSI_BASE - (-100 : Int).natAbs = 40 := by
  refine ⟨rfl, ?_, ?_, rfl⟩
  · rw [showRSSI_sMeter]
    rfl
  · rw [showRSSI_sMeter]
    decide

/-! ## C10: the start of a reception -/

/-- C10 (the code departs from the claim): the state after the single datagram
`DEST:A` is reachable from the constructed state; its channel list is empty and
its destination list is not. Routing `RX:0:S:D` in that state does not return:
`gotoPage1` tests only `m_destinations.empty()` before `m_channels.at(...)`,
whose `std::out_of_range` is not caught. -/
theorem rx_begin_faults_after_dest_only :
    Reachable libSample (sampleAfter [Event.datagram "DEST:A".toList]) ∧
    (sampleAfter [Event.datagram "DEST:A".toList]).m_channels = [] ∧
    (sampleAfter [Event.datagram "DEST:A".toList]).m_destinations = ["A".toList] ∧
    splitFields "RX:0:S:D".toList = ["RX".toList, "0".toList, "S".toList, "D".toList] ∧
    parseCommand libSample (sampleAfter [Event.datagram "DEST:A".toList]) "RX:0:S:D".toList =
      Except.error Fault.out_of_range :=
  ⟨sampleAfter_reachable _ rfl, rfl, rfl, rfl, rfl⟩

/-! ## C11, C20: end of a reception; unknown keywords -/

/-- C11: for every prior state, routing an `RX` command whose end field reads
as 1 (with its source and destination fields) returns and leaves
`m_receive = false`, `m_sMeter = 0`, and `m_source`, `m_text` and
`m_callsigns` empty. -/
theorem rx_end_clears (lib : LibC) (st : CM17TS) (command p1 source destination : List Char)
    (rest : List (List Char))
    (hcmd : splitFields command = "RX".toList :: p1 :: source :: destination :: rest)
    (hend : atoi p1 = 1) :
    ∃ st1, parseCommand lib st command = Except.ok st1 ∧ st1.m_receive = false ∧
      st1.m_sMeter = 0 ∧ st1.m_source = [] ∧ st1.m_text = [] ∧ st1.m_callsigns = [] := by
  rw [parseCommand_RX lib st command p1 source destination rest hcmd, hend]
  exact showRX_end st source destination

/-- Witness for C11: `RX:1:G4KLX:ALL` in the state left by `RX:0:G4KLX:ALL`,
`TEXT:hello`, `CALLS:M0IEI` and `RSSI:60`, where all five members are set. -/
theorem rx_end_clears_witness :
    (splitFields "RX:1:G4KLX:ALL".toList =
        "RX".toList :: "1".toList :: "G4KLX".toList :: "ALL".toList :: [] ∧
      atoi "1".toList = 1 ∧
      (sampleAfter [Event.datagram "RX:0:G4KLX:ALL".toList, Event.datagram "TEXT:hello".toList,
        Event.datagram "CALLS:M0IEI".toList, Event.datagram "RSSI:60".toList]).m_receive = true ∧
      (sampleAfter [Event.datagram "RX:0:G4KLX:ALL".toList, Event.datagram "TEXT:hello".toList,
        Event.datagram "CALLS:M0IEI".toList, Event.datagram "RSSI:60".toList]).m_sMeter = 80) ∧
    ∃ st1, parseCommand libSample
        (sampleAfter [Event.datagram "RX:0:G4KLX:ALL".toList, Event.datagram "TEXT:hello".toList,
          Event.datagram "CALLS:M0IEI".toList, Event.datagram "RSSI:60".toList])
        "RX:1:G4KLX:ALL".toList = Except.ok st1 ∧
      st1.m_receive = false ∧ st1.m_sMeter = 0 ∧ st1.m_source = [] ∧ st1.m_text = [] ∧
      st1.m_callsigns = [] :=
  ⟨⟨by decide, by decide, by decide, by decide⟩,
   rx_end_clears libSample _ "RX:1:G4KLX:ALL".toList "1".toList "G4KLX".toList "ALL".toList []
     (by decide) (by decide)⟩

/-- C20: a datagram with at least one field whose first field is none of
`CHAN`, `DEST`, `RX`, `TX`, `TEXT`, `CALLS`, `RSSI`, `GPS` makes `parseCommand`
return the state as it was: every member, both selection lists, the persisted
configuration and both output traces are unchanged. -/
theorem unknown_keyword_ignored (lib : LibC) (st : CM17TS) (command keyword : List Char)
    (rest : List (List Char)) (hcmd : splitFields command = keyword :: rest)
    (h1 : keyword ≠ "CHAN".toList) (h2 : keyword ≠ "DEST".toList) (h3 : keyword ≠ "RX".toList)
    (h4 : keyword ≠ "TX".toList) (h5 : keyword ≠ "TEXT".toList) (h6 : keyword ≠ "CALLS".toList)
    (h7 : keyword ≠ "RSSI".toList) (h8 : keyword ≠ "GPS".toList) :
    parseCommand lib st command = Except.ok st := by
  unfold parseCommand
  dsimp only
  rw [hcmd]
  have h0 : vec_at (keyword :: rest) 0 = Except.ok keyword := rfl
  rw [h0]
  dsimp only
  rw [if_neg h1, if_neg h2, if_neg h3, if_neg h4, if_neg h5, if_neg h6, if_neg h7, if_neg h8]

/-- Witness for C20: the datagram `PING:1` in the state after the sample
session. -/
theorem unknown_keyword_ignored_witness :
    (splitFields "PING:1".toList = "PING".toList :: ["1".toList] ∧
      "PING".toList ≠ "CHAN".toList ∧ "PING".toList ≠ "DEST".toList ∧
      "PING".toList ≠ "RX".toList ∧ "PING".toList ≠ "TX".toList ∧
      "PING".toList ≠ "TEXT".toList ∧ "PING".toList ≠ "CALLS".toList ∧
      "PING".toList ≠ "RSSI".toList ∧ "PING".toList ≠ "GPS".toList) ∧
    parseCommand libSample (sampleAfter sampleSession) "PING:1".toList =
      Except.ok (sampleAfter sampleSession) :=
  ⟨⟨by decide, by decide, by decide, by decide, by decide, by decide, by decide, by decide,
     by decide⟩,
   unknown_keyword_ignored libSample (sampleAfter sampleSession) "PING:1".toList "PING".toList
     ["1".toList] (by decide) (by decide) (by decide) (by decide) (by decide) (by decide)
     (by decide) (by decide) (by decide)⟩

/-! ## C12: empty fields of a GPS datagram -/

/-- C12 (the code departs from the claim): in the datagram
`GPS:51:0:IO91:100:::270:5` the speed and track fields are empty. `strtok`
skips runs of delimiters, so `ptrs` holds seven entries, the bearing `270` and
the distance `5` move into the places of speed and track, and `ptrs.at(7U)`
throws: no fix is decoded, for any conversion functions. The same happens
for a single empty field (`GPS:51:0:IO91::10:20:270:5`, altitude), while the
datagram with all eight fields present decodes. -/
theorem gps_empty_field_faults (lib : LibC) (st : CM17TS) :
    splitFields "GPS:51:0:IO91:100:::270:5".toList =
      ["GPS".toList, "51".toList, "0".toList, "IO91".toList, "100".toList, "270".toList,
       "5".toList] ∧
    (∃ e, parseCommand lib st "GPS:51:0:IO91:100:::270:5".toList = Except.error e) ∧
    (∃ e, parseCommand lib st "GPS:51:0:IO91::10:20:270:5".toList = Except.error e) ∧
    parseCommand libSample st "GPS:51:0:IO91:100:::270:5".toList =
      Except.error Fault.out_of_range ∧
    parseGPS libSample (splitFields "GPS:51:0:IO91:100:10:20:270:5".toList) =
      Except.ok { latitude := 51, longitude := 0, locator := "IO91".toList,
                  altitude := some 100, speed := some 10, track := some 20,
                  bearing := some 270, distance := some 5 } := by
  refine ⟨by decide, ?_, ?_, rfl, by decide⟩
  · rw [parseCommand_GPS lib st _
      ["51".toList, "0".toList, "IO91".toList, "100".toList, "270".toList, "5".toList]
      (by decide)]
    obtain ⟨e, he⟩ := parseGPS_short lib
      ["GPS".toList, "51".toList, "0".toList, "IO91".toList, "100".toList, "270".toList,
       "5".toList] (by decide)
    exact ⟨e, by rw [he]⟩
  · rw [parseCommand_GPS lib st _
      ["51".toList, "0".toList, "IO91".toList, "10".toList, "20".toList, "270".toList,
       "5".toList] (by decide)]
    obtain ⟨e, he⟩ := parseGPS_short lib
      ["GPS".toList, "51".toList, "0".toList, "IO91".toList, "10".toList, "20".toList,
       "270".toList, "5".toList] (by decide)
    exact ⟨e, by rw [he]⟩

/-! ## C13, C14: the GPS page -/

/-- C13: for every fix handed to `showGPS`, the writes it adds to the display
always hold a LATITUDE, a LONGITUDE and a LOCATOR update; they hold an ALTITUDE
update exactly when the altitude is present, a SPEED update and a TRACK update
exactly when both speed and track are present, and a BEARING update and a
DISTANCE update exactly when both bearing and distance are present. -/
theorem gps_updates_shown (lib : LibC) (st : CM17TS) (latitude longitude : ℚ)
    (locator : List Char) (altitude speed track bearing distance : Option ℚ) :
    ∃ emitted,
      (showGPS lib st latitude longitude locator altitude speed track bearing distance).uart =
        st.uart ++ emitted ∧
      hasUpdate "LATITUDE".toList emitted = true ∧
      hasUpdate "LONGITUDE".toList emitted = true ∧
      hasUpdate "LOCATOR".toList emitted = true ∧
      (hasUpdate "ALTITUDE".toList emitted = true ↔ altitude.isSome = true) ∧
      (hasUpdate "SPEED".toList emitted = true ↔
        (speed.isSome = true ∧ track.isSome = true)) ∧
      (hasUpdate "TRACK".toList emitted = true ↔
        (speed.isSome = true ∧ track.isSome = true)) ∧
      (hasUpdate "BEARING".toList emitted = true ↔
        (bearing.isSome = true ∧ distance.isSome = true)) ∧
      (hasUpdate "DISTANCE".toList emitted = true ↔
        (bearing.isSome = true ∧ distance.isSome = true)) := by
  obtain ⟨emitted, he, hu⟩ :=
    showGPS_emits lib st latitude longitude locator altitude speed track bearing distance
  unfold updates at hu
  simp only [List.cons.injEq, and_true] at hu
  obtain ⟨u1, u2, u3, u4, u5, u6, u7, u8⟩ := hu
  refine ⟨emitted, he, u1, u2, u3, ?_, ?_, ?_, ?_, ?_⟩
  · rw [u4]
  · rw [u5, Bool.and_eq_true]
  · rw [u6, Bool.and_eq_true]
  · rw [u7, Bool.and_eq_true]
  · rw [u8, Bool.and_eq_true]

theorem showSpeedTrack_uart (lib : LibC) (st : CM17TS) (s t : ℚ) :
    ∃ speedDirective, (showSpeedTrack lib st (some s) (some t)).uart =
      st.uart ++ [speedDirective, TERMINATOR,
        "TRACK.txt=\"".toList ++ lib.fmtF 0 (gaugeOf t) ++ "\"".toList, TERMINATOR] := by
  have hassoc : ∀ (u : List (List Char)) (x y : List Char),
      u ++ [x, TERMINATOR] ++ [y, TERMINATOR] = u ++ [x, TERMINATOR, y, TERMINATOR] := by
    intro u x y
    rw [List.append_assoc]
    rfl
  unfold showSpeedTrack
  dsimp only
  split
  · exact ⟨"SPEED.txt=\"".toList ++ lib.fmtF 1 s ++ " km/h\"".toList, hassoc _ _ _⟩
  · exact ⟨"SPEED.txt=\"".toList ++ lib.fmtF 1 (f32 (s / f32 (1602 / 1000))) ++
      " mph\"".toList, hassoc _ _ _⟩

theorem showBearingDistance_uart (lib : LibC) (st : CM17TS) (b d : ℚ) :
    ∃ distanceDirective, (showBearingDistance lib st (some b) (some d)).uart =
      st.uart ++ ["BEARING.txt=\"".toList ++ lib.fmtF 0 (gaugeOf b) ++ "\"".toList, TERMINATOR,
        distanceDirective, TERMINATOR] := by
  have hassoc : ∀ (u : List (List Char)) (x y : List Char),
      u ++ [x, TERMINATOR] ++ [y, TERMINATOR] = u ++ [x, TERMINATOR, y, TERMINATOR] := by
    intro u x y
    rw [List.append_assoc]
    rfl
  unfold showBearingDistance
  dsimp only
  split
  · exact ⟨"DISTANCE.txt=\"".toList ++ lib.fmtF 0 d ++ " km\"".toList, hassoc _ _ _⟩
  · exact ⟨"DISTANCE.txt=\"".toList ++ lib.fmtF 0 (f32 (d / f32 (1602 / 1000))) ++
      " miles\"".toList, hassoc _ _ _⟩

/-- C14, counterexample: 270 is an angle in `[0, 360)`, `(270 + 90) mod 360` is
0, and the gauge value computed for 270 is 360 (the test is `gauge > 360`). And
the angle `12582911 / 8388608` (the `float` next below 1.5) is in `[0, 360)`,
the sum with 90 is computed in `float` and rounds to 91.5, so the gauge value
is 91.5 and not `(a + 90) mod 360`, which lies below 91.5. -/
theorem gauge_of_270_is_360 :
    (0 : ℚ) ≤ 270 ∧ (270 : ℚ) < 360 ∧ mod360 (270 + 90) = 0 ∧ gaugeOf 270 = 360 ∧
    gaugeOf 270 ≠ mod360 (270 + 90) ∧
    (0 : ℚ) ≤ 12582911 / 8388608 ∧ (12582911 / 8388608 : ℚ) < 360 ∧
    f32 (12582911 / 8388608) = 12582911 / 8388608 ∧
    gaugeOf (12582911 / 8388608) = 183 / 2 ∧
    mod360 (12582911 / 8388608 + 90) = 767557631 / 8388608 ∧
    gaugeOf (12582911 / 8388608) ≠ mod360 (12582911 / 8388608 + 90) := by
  have hm : mod360 (270 + 90) = 0 := by
    rw [mod360_high (270 + 90) (by norm_num) (by norm_num)]
    norm_num
  have hx : f32 ((270 : ℚ) + 90) = 270 + 90 :=
    f32_exact _ 360 0 (by norm_num) (by norm_num) (by norm_num)
  have hg : gaugeOf 270 = 360 := by
    rw [gaugeOf_eq 270 (by norm_num) (by norm_num) hx, if_pos rfl]
  have hr : f32 (12582911 / 8388608 + 90) = 183 / 2 := by
    rw [f32_grid _ 6 (by norm_num [abs_of_pos]) (by norm_num [abs_of_pos]) (by norm_num),
      roundEven_near _ 11993088 (by norm_num) (by norm_num)]
    norm_num
  have hg2 : gaugeOf (12582911 / 8388608) = 183 / 2 := by
    unfold gaugeOf
    dsimp only
    rw [hr, if_neg (by norm_num)]
  have hm2 : mod360 (12582911 / 8388608 + 90) = 767557631 / 8388608 := by
    rw [mod360_low _ (by norm_num) (by norm_num)]
    norm_num
  have hf : f32 (12582911 / 8388608) = 12582911 / 8388608 :=
    f32_exact _ 12582911 (-23) (by norm_num) (by norm_num [abs_of_pos]) (by norm_num)
  refine ⟨by norm_num, by norm_num, hm, hg, ?_, by norm_num, by norm_num, hf, hg2, hm2, ?_⟩
  · rw [hm, hg]
    norm_num
  · rw [hm2, hg2]
    norm_num

/-- C14, as amended: for every angle `a` with `0 ≤ a < 360` whose sum `a + 90`
is exact in single precision (`f32 (a + 90) = a + 90`; this holds for every
whole number of degrees and for every multiple of `2^(-15)` degrees), the gauge
value that `showGPS` computes for a track or a bearing of `a` is
`(a + 90) mod 360`, except at `a = 270`, where it is 360; this value is what the
TRACK directive (after the SPEED directive) and the BEARING directive (before
the DISTANCE directive) carry. 300 gives 30, 200 gives 290 and 280 gives 10. -/
theorem gauge_value (a : ℚ) (h0 : 0 ≤ a) (h1 : a < 360) (hx : f32 (a + 90) = a + 90) :
    gaugeOf a = (if a = 270 then 360 else mod360 (a + 90)) ∧
    (∀ (lib : LibC) (st : CM17TS) (s : ℚ), ∃ speedDirective,
      (showSpeedTrack lib st (some s) (some a)).uart =
        st.uart ++ [speedDirective, TERMINATOR,
          "TRACK.txt=\"".toList ++
            lib.fmtF 0 (if a = 270 then 360 else mod360 (a + 90)) ++ "\"".toList,
          TERMINATOR]) ∧
    (∀ (lib : LibC) (st : CM17TS) (d : ℚ), ∃ distanceDirective,
      (showBearingDistance lib st (some a) (some d)).uart =
        st.uart ++ ["BEARING.txt=\"".toList ++
            lib.fmtF 0 (if a = 270 then 360 else mod360 (a + 90)) ++ "\"".toList,
          TERMINATOR, distanceDirective, TERMINATOR]) ∧
    (∀ k : ℕ, (k : ℚ) / 32768 < 360 → f32 ((k : ℚ) / 32768 + 90) = (k : ℚ) / 32768 + 90) ∧
    gaugeOf 300 = 30 ∧ gaugeOf 200 = 290 ∧ gaugeOf 280 = 10 := by
  have hg := gaugeOf_eq a h0 h1 hx
  have hw : ∀ n : ℕ, (n : ℚ) < 360 → f32 ((n : ℚ) + 90) = (n : ℚ) + 90 := by
    intro n hn
    exact f32_exact _ ((n : ℤ) + 90) 0 (by push_cast; norm_num)
      (by rw [abs_of_nonneg (by positivity)]; norm_num; linarith) (by norm_num)
  refine ⟨hg, ?_, ?_, f32_sum_exact, ?_, ?_, ?_⟩
  · intro lib st s
    rw [← hg]
    exact showSpeedTrack_uart lib st s a
  · intro lib st d
    rw [← hg]
    exact showBearingDistance_uart lib st a d
  · have h := gaugeOf_eq 300 (by norm_num) (by norm_num) (by exact_mod_cast hw 300 (by norm_num))
    rw [h, if_neg (by norm_num), mod360_high _ (by norm_num) (by norm_num)]
    norm_num
  · have h := gaugeOf_eq 200 (by norm_num) (by norm_num) (by exact_mod_cast hw 200 (by norm_num))
    rw [h, if_neg (by norm_num), mod360_low _ (by norm_num) (by norm_num)]
    norm_num
  · have h := gaugeOf_eq 280 (by norm_num) (by norm_num) (by exact_mod_cast hw 280 (by norm_num))
    rw [h, if_neg (by norm_num), mod360_high _ (by norm_num) (by norm_num)]
    norm_num

/-- Witness for C14 as amended: the angle 300; `300 + 90 = 390` is a whole
number below `2^24` and so exact in single precision. -/
theorem gauge_value_witness :
    ((0 : ℚ) ≤ 300 ∧ (300 : ℚ) < 360 ∧ f32 ((300 : ℚ) + 90) = 300 + 90) ∧
    gaugeOf 300 = (if (300 : ℚ) = 270 then 360 else mod360 (300 + 90)) ∧
    mod360 (300 + 90) = 30 :=
  ⟨⟨by norm_num, by norm_num, f32_exact _ 390 0 (by norm_num) (by norm_num) (by norm_num)⟩,
   (gauge_value 300 (by norm_num) (by norm_num)
     (f32_exact _ 390 0 (by norm_num) (by norm_num) (by norm_num))).1,
   by rw [mod360_high (300 + 90) (by norm_num) (by norm_num)]; norm_num⟩

/-! ## C15: reassembly of display frames -/

/-- C15, counterexample: the body `65 01 FF` has three bytes and no three
consecutive `FF`. Fed with its terminator from the reset state, the frame is
dispatched after the fifth byte, one byte before the end of the terminator, and
the last byte stays behind: the reassembler ends with `screenIdx = 1` and the
window `FF 00 00`, not in its reset state. -/
theorem frame_ending_in_FF_dispatched_early :
    [0x65, 1, 255].length ≤ 47 ∧ ¬ [255, 255, 255] <:+: [0x65, 1, 255] ∧
    feed (Reassembler.reset (List.replicate 50 0)) ([0x65, 1, 255] ++ [255, 255]) =
      Except.ok (Reassembler.reset ([0x65, 1, 255, 255, 255] ++ List.replicate 45 0),
        [([0x65, 1, 255, 255, 255] ++ List.replicate 45 0, 5)]) ∧
    feed (Reassembler.reset (List.replicate 50 0)) ([0x65, 1, 255] ++ [255, 255, 255]) =
      Except.ok ({ screenBuffer := [255, 1, 255, 255, 255] ++ List.replicate 45 0,
                   endBuffer := (255, 0, 0), screenIdx := 1 },
        [([0x65, 1, 255, 255, 255] ++ List.replicate 45 0, 5)]) := by
  refine ⟨by decide, by decide, by decide, by decide⟩

/-- C15, as amended: for every frame body of at most 47 bytes that contains no
three consecutive `FF` bytes and does not end in `FF`, feeding the body
followed by `FF FF FF` byte by byte to the reassembly step, from the reset state
with any buffer content, dispatches nothing up to the last but one byte and
makes exactly one call of `parseScreen` due at the last byte, with a buffer that
starts with the body followed by the terminator and with the byte count
`length + 3`; the reassembler is then back in its reset state. -/
theorem frame_reassembled (buffer0 body : List Nat) (hbuf : buffer0.length = 50)
    (hlen : body.length ≤ 47) (hno : ¬ [255, 255, 255] <:+: body)
    (hlast : body.getLast? ≠ some 255) :
    (∃ r1, feed (Reassembler.reset buffer0) (body ++ [255, 255]) = Except.ok (r1, [])) ∧
    ∃ buffer, feed (Reassembler.reset buffer0) (body ++ [255, 255, 255]) =
        Except.ok (Reassembler.reset buffer, [(buffer, body.length + 3)]) ∧
      buffer.take body.length = body ∧
      buffer.take (body.length + 3) = body ++ [255, 255, 255] := by
  have hno2 := no_terminator_zero _ (no_terminator_extend body hno hlast)
  obtain ⟨r1, e1, e2, e3, e4, e5⟩ := feed_quiet (body ++ [255, 255])
    (Reassembler.reset buffer0) hbuf
    (by simp only [Reassembler.reset, List.length_append, List.length_cons, List.length_nil]
        omega) hno2
  simp only [Reassembler.reset, List.length_append, List.length_cons, List.length_nil,
    Nat.zero_add, List.take_zero, List.nil_append] at e3 e4
  have hwin : r1.endBuffer.1 = 255 ∧ r1.endBuffer.2.1 = 255 := by
    rw [List.foldl_append] at e5
    simp only [List.foldl_cons, List.foldl_nil, Prod.mk.injEq] at e5
    exact e5
  have hidx : r1.screenIdx < 50 := by omega
  have hlast1 := serialByte_terminator r1 hidx hwin
  have hsplit : body ++ [255, 255, 255] = (body ++ [255, 255]) ++ [255] := by simp
  have htake : (r1.screenBuffer.set r1.screenIdx 255).take (r1.screenIdx + 1) =
      body ++ [255, 255, 255] := by
    rw [take_succ_set 255 (by omega), e4]
    simp
  refine ⟨⟨r1, e1⟩, r1.screenBuffer.set r1.screenIdx 255, ?_, ?_, ?_⟩
  · rw [hsplit, feed_append _ _ _ _ _ e1, feed_cons, hlast1]
    dsimp only
    rw [feed]
    simp only [Option.toList, List.append_nil, List.nil_append]
    rw [e3]
  · have h1 : (List.take (r1.screenIdx + 1) (r1.screenBuffer.set r1.screenIdx 255)).take
        body.length = body := by
      rw [htake, List.take_append_eq_append_take]
      simp
    rw [List.take_take] at h1
    have hmin : min body.length (r1.screenIdx + 1) = body.length := by omega
    rw [hmin] at h1
    exact h1
  · rw [← htake, e3]

/-- Witness for C15 as amended: the touch frame body `65 01 03`. -/
theorem frame_reassembled_witness :
    ((List.replicate 50 7).length = 50 ∧ [0x65, 1, 3].length ≤ 47 ∧
      ¬ [255, 255, 255] <:+: [0x65, 1, 3] ∧ [0x65, 1, 3].getLast? ≠ some 255) ∧
    ((∃ r1, feed (Reassembler.reset (List.replicate 50 7)) ([0x65, 1, 3] ++ [255, 255]) =
        Except.ok (r1, [])) ∧
     ∃ buffer, feed (Reassembler.reset (List.replicate 50 7)) ([0x65, 1, 3] ++ [255, 255, 255]) =
        Except.ok (Reassembler.reset buffer, [(buffer, [0x65, 1, 3].length + 3)]) ∧
      buffer.take [0x65, 1, 3].length = [0x65, 1, 3] ∧
      buffer.take ([0x65, 1, 3].length + 3) = [0x65, 1, 3] ++ [255, 255, 255]) :=
  ⟨⟨by decide, by decide, by decide, by decide⟩,
   frame_reassembled (List.replicate 50 7) [0x65, 1, 3] (by decide) (by decide) (by decide)
     (by decide)⟩

/-! ## C17: the range of the volume -/

/-- C17, counterexample: started with the configured volume 50, the touch
frame `65 01 0A` (slider moved) followed by the value frame `71 C8 00 00 00`
leaves `m_volume = 200` and the datagram `VOL:200` in the socket trace. -/
theorem volume_above_100 :
    confSample.volume ≤ 100 ∧
    startup "1.0".toList (construct confSample) = Except.ok sampleStarted ∧
    handleAll libSample sampleStarted
        [Event.frame [0x65, 1, 10, 255, 255, 255] 6,
         Event.frame [0x71, 200, 0, 0, 0, 255, 255, 255] 8] =
      Except.ok (stateOr sampleStarted (handleAll libSample sampleStarted
        [Event.frame [0x65, 1, 10, 255, 255, 255] 6,
         Event.frame [0x71, 200, 0, 0, 0, 255, 255, 255] 8])) ∧
    (stateOr sampleStarted (handleAll libSample sampleStarted
        [Event.frame [0x65, 1, 10, 255, 255, 255] 6,
         Event.frame [0x71, 200, 0, 0, 0, 255, 255, 255] 8])).m_volume = 200 ∧
    (stateOr sampleStarted (handleAll libSample sampleStarted
        [Event.frame [0x65, 1, 10, 255, 255, 255] 6,
         Event.frame [0x71, 200, 0, 0, 0, 255, 255, 255] 8])).socket =
      ["VOL:50".toList, "VOL:200".toList] ∧
    ¬ ((200 : Nat) ≤ 100) := by
  refine ⟨by decide, rfl, rfl, by decide, by decide, by decide⟩

/-- C17, as amended: started from a configured volume between 0 and 100, and
provided every slider value frame that arrives while a volume query is pending
carries a value between 0 and 100, after every sequence of inbound daemon
datagrams and display frames whose handlers return `m_volume` is between 0 and
100 and every `VOL` command sent to the daemon carries the decimal form of a
value between 0 and 100. -/
theorem volume_within_range (lib : LibC) (version : List Char) (conf : CConf)
    (st0 st : CM17TS) (hconf : conf.volume ≤ 100)
    (hstart : startup version (construct conf) = Except.ok st0)
    (hreach : ReachableWithin lib st0 st) :
    st.m_volume ≤ 100 ∧
    ∀ d ∈ st.socket, "VOL:".toList <+: d → ∃ v, v ≤ 100 ∧ d = "VOL:".toList ++ fmtU v := by
  have hv := reachableWithin_volumeOK (startup_volumeOK hconf hstart) hreach
  refine ⟨hv.1, ?_⟩
  intro d hd hp
  apply hv.2 d
  rw [List.mem_filter]
  refine ⟨hd, ?_⟩
  unfold isVol
  rw [List.isPrefixOf_iff_prefix]
  exact hp

/-- Witness for C17 as amended: started with the configured volume 50, the
touch frame `65 01 0A` followed by the value frame `71 2A 00 00 00` (42). -/
theorem volume_within_range_witness :
    (confSample.volume ≤ 100 ∧
      startup "1.0".toList (construct confSample) = Except.ok sampleStarted ∧
      ReachableWithin libSample sampleStarted
        (stateOr sampleStarted (handleAll libSample sampleStarted
          [Event.frame [0x65, 1, 10, 255, 255, 255] 6,
           Event.frame [0x71, 42, 0, 0, 0, 255, 255, 255] 8])) ∧
      (stateOr sampleStarted (handleAll libSample sampleStarted
          [Event.frame [0x65, 1, 10, 255, 255, 255] 6,
           Event.frame [0x71, 42, 0, 0, 0, 255, 255, 255] 8])).socket =
        ["VOL:50".toList, "VOL:42".toList]) ∧
    ((stateOr sampleStarted (handleAll libSample sampleStarted
          [Event.frame [0x65, 1, 10, 255, 255, 255] 6,
           Event.frame [0x71, 42, 0, 0, 0, 255, 255, 255] 8])).m_volume ≤ 100 ∧
     ∀ d ∈ (stateOr sampleStarted (handleAll libSample sampleStarted
          [Event.frame [0x65, 1, 10, 255, 255, 255] 6,
           Event.frame [0x71, 42, 0, 0, 0, 255, 255, 255] 8])).socket,
       "VOL:".toList <+: d → ∃ v, v ≤ 100 ∧ d = "VOL:".toList ++ fmtU v) :=
  have hreach : ReachableWithin libSample sampleStarted
      (stateOr sampleStarted (handleAll libSample sampleStarted
        [Event.frame [0x65, 1, 10, 255, 255, 255] 6,
         Event.frame [0x71, 42, 0, 0, 0, 255, 255, 255] 8])) :=
    ReachableWithin.screen [0x71, 42, 0, 0, 0, 255, 255, 255] 8
      (ReachableWithin.screen [0x65, 1, 10, 255, 255, 255] 6 ReachableWithin.start
        (by decide)
        (rfl : parseScreen sampleStarted [0x65, 1, 10, 255, 255, 255] 6 =
          Except.ok (volumeChanged sampleStarted)))
      (by decide) rfl
  ⟨⟨by decide, rfl, hreach, by decide⟩,
   volume_within_range libSample "1.0".toList confSample sampleStarted _ (by decide) rfl hreach⟩

/-! ## C18, C16: touch events on the selection lists -/

/-- Touch rotation where the names fit `buffer[20]`: for a non-empty channel
list with a valid index (and a length that fits the `unsigned int` index) whose
names are all shorter than 15 characters, a CHAN_UP (`65 01 03`) or CHAN_DOWN
(`65 01 04`) touch event returns, moves the index forward resp. backward with wrap-around,
and with `name` the list entry at the new index it writes the directive
`CHANNEL.txt="name"` and the terminator to the display, stores `name` as the
persisted channel and sends the one datagram `CHAN:name` to the daemon; the
same holds for DEST_UP (`65 01 05`) and DEST_DOWN (`65 01 06`) with
`DESTINATION.txt="name"`, the persisted destination and `DEST:name`. -/
theorem touch_rotation_outputs (sc sd : CM17TS) (rest : List Nat) (length : Nat)
    (hcne : sc.m_channels ≠ []) (hci : sc.m_channelIdx < sc.m_channels.length)
    (hcn : sc.m_channels.length < 4294967296)
    (hdne : sd.m_destinations ≠ []) (hdi : sd.m_destinationIdx < sd.m_destinations.length)
    (hdn : sd.m_destinations.length < 4294967296)
    (hcs : ∀ n ∈ sc.m_channels, n.length < 15) (hds : ∀ n ∈ sd.m_destinations, n.length < 15) :
    (∃ st1 name, parseScreen sc (0x65 :: 1 :: 3 :: rest) length = Except.ok st1 ∧
      st1.m_channelIdx = (sc.m_channelIdx + 1) % sc.m_channels.length ∧
      st1.m_channels = sc.m_channels ∧
      sc.m_channels.get? st1.m_channelIdx = some name ∧
      st1.uart = sc.uart ++ ["CHANNEL.txt=\"".toList ++ name ++ "\"".toList, TERMINATOR] ∧
      st1.m_conf.channel = name ∧
      st1.socket = sc.socket ++ ["CHAN:".toList ++ name]) ∧
    (∃ st1 name, parseScreen sc (0x65 :: 1 :: 4 :: rest) length = Except.ok st1 ∧
      st1.m_channelIdx = (sc.m_channelIdx + sc.m_channels.length - 1) % sc.m_channels.length ∧
      st1.m_channels = sc.m_channels ∧
      sc.m_channels.get? st1.m_channelIdx = some name ∧
      st1.uart = sc.uart ++ ["CHANNEL.txt=\"".toList ++ name ++ "\"".toList, TERMINATOR] ∧
      st1.m_conf.channel = name ∧
      st1.socket = sc.socket ++ ["CHAN:".toList ++ name]) ∧
    (∃ st1 name, parseScreen sd (0x65 :: 1 :: 5 :: rest) length = Except.ok st1 ∧
      st1.m_destinationIdx = (sd.m_destinationIdx + 1) % sd.m_destinations.length ∧
      st1.m_destinations = sd.m_destinations ∧
      sd.m_destinations.get? st1.m_destinationIdx = some name ∧
      st1.uart = sd.uart ++ ["DESTINATION.txt=\"".toList ++ name ++ "\"".toList, TERMINATOR] ∧
      st1.m_conf.destination = name ∧
      st1.socket = sd.socket ++ ["DEST:".toList ++ name]) ∧
    (∃ st1 name, parseScreen sd (0x65 :: 1 :: 6 :: rest) length = Except.ok st1 ∧
      st1.m_destinationIdx =
        (sd.m_destinationIdx + sd.m_destinations.length - 1) % sd.m_destinations.length ∧
      st1.m_destinations = sd.m_destinations ∧
      sd.m_destinations.get? st1.m_destinationIdx = some name ∧
      st1.uart = sd.uart ++ ["DESTINATION.txt=\"".toList ++ name ++ "\"".toList, TERMINATOR] ∧
      st1.m_conf.destination = name ∧
      st1.socket = sd.socket ++ ["DEST:".toList ++ name]) := by
  obtain ⟨t1, t2, t3, t4⟩ := parseScreen_touch sc rest length
  obtain ⟨u1, u2, u3, u4⟩ := parseScreen_touch sd rest length
  refine ⟨?_, ?_, ?_, ?_⟩
  · obtain ⟨st1, name, e1, e2, e3, e4, e5, e6, e7⟩ :=
      channelChanged_effect sc 1 hcne (rotateIdx_lt _ _ _ hci hcn) hcs
    exact ⟨st1, name, t1.trans e1, e2.trans (rotateIdx_forward _ _ hci hcn), e3, e4, e5, e6, e7⟩
  · obtain ⟨st1, name, e1, e2, e3, e4, e5, e6, e7⟩ :=
      channelChanged_effect sc (-1) hcne (rotateIdx_lt _ _ _ hci hcn) hcs
    exact ⟨st1, name, t2.trans e1, e2.trans (rotateIdx_backward _ _ hci hcn), e3, e4, e5, e6, e7⟩
  · obtain ⟨st1, name, e1, e2, e3, e4, e5, e6, e7⟩ :=
      destinationChanged_effect sd 1 hdne (rotateIdx_lt _ _ _ hdi hdn) hds
    exact ⟨st1, name, u3.trans e1, e2.trans (rotateIdx_forward _ _ hdi hdn), e3, e4, e5, e6, e7⟩
  · obtain ⟨st1, name, e1, e2, e3, e4, e5, e6, e7⟩ :=
      destinationChanged_effect sd (-1) hdne (rotateIdx_lt _ _ _ hdi hdn) hds
    exact ⟨st1, name, u4.trans e1, e2.trans (rotateIdx_backward _ _ hdi hdn), e3, e4, e5, e6, e7⟩

/-- An instance with short names: the touch frames in the state after
`CHAN:A:B:C` and `DEST:X:ALL` (channel index 1, destination index 1). -/
theorem touch_rotation_outputs_witness :
    ((sampleAfter (sampleSession.take 2)).m_channels ≠ [] ∧
      (sampleAfter (sampleSession.take 2)).m_channelIdx <
        (sampleAfter (sampleSession.take 2)).m_channels.length ∧
      (sampleAfter (sampleSession.take 2)).m_channels.length < 4294967296 ∧
      (sampleAfter (sampleSession.take 2)).m_destinations ≠ [] ∧
      (sampleAfter (sampleSession.take 2)).m_destinationIdx <
        (sampleAfter (sampleSession.take 2)).m_destinations.length ∧
      (sampleAfter (sampleSession.take 2)).m_destinations.length < 4294967296 ∧
      (∀ n ∈ (sampleAfter (sampleSession.take 2)).m_channels, n.length < 15) ∧
      (∀ n ∈ (sampleAfter (sampleSession.take 2)).m_destinations, n.length < 15)) ∧
    (∃ st1 name, parseScreen (sampleAfter (sampleSession.take 2))
        (0x65 :: 1 :: 3 :: [255, 255, 255]) 6 = Except.ok st1 ∧
      st1.m_channelIdx = ((sampleAfter (sampleSession.take 2)).m_channelIdx + 1) %
        (sampleAfter (sampleSession.take 2)).m_channels.length ∧
      st1.m_channels = (sampleAfter (sampleSession.take 2)).m_channels ∧
      (sampleAfter (sampleSession.take 2)).m_channels.get? st1.m_channelIdx = some name ∧
      st1.uart = (sampleAfter (sampleSession.take 2)).uart ++
        ["CHANNEL.txt=\"".toList ++ name ++ "\"".toList, TERMINATOR] ∧
      st1.m_conf.channel = name ∧
      st1.socket = (sampleAfter (sampleSession.take 2)).socket ++ ["CHAN:".toList ++ name]) :=
  ⟨⟨by decide, by decide, by decide, by decide, by decide, by decide, by decide, by decide⟩,
   (touch_rotation_outputs (sampleAfter (sampleSession.take 2))
     (sampleAfter (sampleSession.take 2)) [255, 255, 255] 6
     (by decide) (by decide) (by decide) (by decide) (by decide) (by decide) (by decide)
     (by decide)).1⟩

/-- C18 (the code departs from the claim): `channelChanged` writes
`CHANNEL.txt="<name>"`, persists `<name>` and then calls `setChannel`, which
builds `CHAN:<name>` in `char buffer[20U]` with `strcat` and no test of the
length. So for a channel list with a valid index where the entry at the index
after the rotation has 15 characters or more, a CHAN_UP (`65 01 03`) resp.
CHAN_DOWN (`65 01 04`) touch event does not send `CHAN:<name>`: the name is
written behind the end of `buffer`. The same holds for DEST_UP (`65 01 05`) and
DEST_DOWN (`65 01 06`) with `setDestination`. -/
theorem touch_rotation_overruns (sc sd : CM17TS) (rest : List Nat) (length : Nat)
    (cup cdown dup ddown : List Char)
    (hci : sc.m_channelIdx < sc.m_channels.length) (hcn : sc.m_channels.length < 4294967296)
    (hcu : sc.m_channels.get? ((sc.m_channelIdx + 1) % sc.m_channels.length) = some cup)
    (hcul : 15 ≤ cup.length)
    (hcd : sc.m_channels.get?
      ((sc.m_channelIdx + sc.m_channels.length - 1) % sc.m_channels.length) = some cdown)
    (hcdl : 15 ≤ cdown.length)
    (hdi : sd.m_destinationIdx < sd.m_destinations.length)
    (hdn : sd.m_destinations.length < 4294967296)
    (hdu : sd.m_destinations.get? ((sd.m_destinationIdx + 1) % sd.m_destinations.length) =
      some dup)
    (hdul : 15 ≤ dup.length)
    (hdd : sd.m_destinations.get?
      ((sd.m_destinationIdx + sd.m_destinations.length - 1) % sd.m_destinations.length) =
      some ddown)
    (hddl : 15 ≤ ddown.length) :
    parseScreen sc (0x65 :: 1 :: 3 :: rest) length = Except.error Fault.overrun ∧
    parseScreen sc (0x65 :: 1 :: 4 :: rest) length = Except.error Fault.overrun ∧
    parseScreen sd (0x65 :: 1 :: 5 :: rest) length = Except.error Fault.overrun ∧
    parseScreen sd (0x65 :: 1 :: 6 :: rest) length = Except.error Fault.overrun := by
  obtain ⟨t1, t2, -, -⟩ := parseScreen_touch sc rest length
  obtain ⟨-, -, u3, u4⟩ := parseScreen_touch sd rest length
  refine ⟨t1.trans ?_, t2.trans ?_, u3.trans ?_, u4.trans ?_⟩
  · exact channelChanged_overrun sc 1 cup (by rw [rotateIdx_forward _ _ hci hcn]; exact hcu) hcul
  · exact channelChanged_overrun sc (-1) cdown
      (by rw [rotateIdx_backward _ _ hci hcn]; exact hcd) hcdl
  · exact destinationChanged_overrun sd 1 dup
      (by rw [rotateIdx_forward _ _ hdi hdn]; exact hdu) hdul
  · exact destinationChanged_overrun sd (-1) ddown
      (by rw [rotateIdx_backward _ _ hdi hdn]; exact hdd) hddl

/-- Witness for C18: the state after `CHAN:A:ABCDEFGHIJKLMNOPQRS` and
`DEST:X:ABCDEFGHIJKLMNOPQRS` (both handled; lists of length 2 at index 0) and
the four touch frames; the name at index 1 has 19 characters, so
`CHAN:ABCDEFGHIJKLMNOPQRS` and its NUL take 25 bytes. -/
theorem touch_rotation_overruns_witness :
    (handleAll libSample (construct confSample)
        [Event.datagram "CHAN:A:ABCDEFGHIJKLMNOPQRS".toList,
         Event.datagram "DEST:X:ABCDEFGHIJKLMNOPQRS".toList] = Except.ok sampleLong ∧
      sampleLong.m_channelIdx < sampleLong.m_channels.length ∧
      sampleLong.m_channels.get? ((sampleLong.m_channelIdx + 1) % sampleLong.m_channels.length) =
        some "ABCDEFGHIJKLMNOPQRS".toList ∧
      sampleLong.m_channels.get?
          ((sampleLong.m_channelIdx + sampleLong.m_channels.length - 1) %
            sampleLong.m_channels.length) = some "ABCDEFGHIJKLMNOPQRS".toList ∧
      15 ≤ "ABCDEFGHIJKLMNOPQRS".toList.length ∧
      sampleLong.m_destinationIdx < sampleLong.m_destinations.length ∧
      sampleLong.m_destinations.get?
          ((sampleLong.m_destinationIdx + 1) % sampleLong.m_destinations.length) =
        some "ABCDEFGHIJKLMNOPQRS".toList ∧
      sampleLong.m_destinations.get?
          ((sampleLong.m_destinationIdx + sampleLong.m_destinations.length - 1) %
            sampleLong.m_destinations.length) = some "ABCDEFGHIJKLMNOPQRS".toList ∧
      "CHAN:ABCDEFGHIJKLMNOPQRS".toList.length + 1 = 25) ∧
    parseScreen sampleLong (0x65 :: 1 :: 3 :: [255, 255, 255]) 6 = Except.error Fault.overrun ∧
    parseScreen sampleLong (0x65 :: 1 :: 4 :: [255, 255, 255]) 6 = Except.error Fault.overrun ∧
    parseScreen sampleLong (0x65 :: 1 :: 5 :: [255, 255, 255]) 6 = Except.error Fault.overrun ∧
    parseScreen sampleLong (0x65 :: 1 :: 6 :: [255, 255, 255]) 6 = Except.error Fault.overrun :=
  ⟨⟨rfl, by decide, by decide, by decide, by decide, by decide, by decide, by decide,
     by decide⟩,
   touch_rotation_overruns sampleLong sampleLong [255, 255, 255] 6
     "ABCDEFGHIJKLMNOPQRS".toList "ABCDEFGHIJKLMNOPQRS".toList "ABCDEFGHIJKLMNOPQRS".toList
     "ABCDEFGHIJKLMNOPQRS".toList
     (by decide) (by decide) (by decide) (by decide) (by decide) (by decide)
     (by decide) (by decide) (by decide) (by decide) (by decide) (by decide)⟩

/-- C16 (the code departs from the claim): with an empty channel list a CHAN_UP
(`65 01 03`) or CHAN_DOWN (`65 01 04`) touch event is not a no-op: `parseScreen`
calls `channelChanged` without testing the list, and `channelChanged` stops at
`assert(!m_channels.empty())` (with assertions compiled out, at the
`std::out_of_range` of `m_channels.at`). The same holds for DEST_UP
(`65 01 05`) and DEST_DOWN (`65 01 06`) with an empty destination list. -/
theorem touch_on_empty_list_faults (st : CM17TS) (rest : List Nat) (length : Nat) :
    parseScreen { st with m_channels := [] } (0x65 :: 1 :: 3 :: rest) length =
      Except.error Fault.assertion ∧
    parseScreen { st with m_channels := [] } (0x65 :: 1 :: 4 :: rest) length =
      Except.error Fault.assertion ∧
    parseScreen { st with m_destinations := [] } (0x65 :: 1 :: 5 :: rest) length =
      Except.error Fault.assertion ∧
    parseScreen { st with m_destinations := [] } (0x65 :: 1 :: 6 :: rest) length =
      Except.error Fault.assertion ∧
    parseScreen (construct confSample) [0x65, 1, 3, 255, 255, 255] 6 =
      Except.error Fault.assertion :=
  ⟨rfl, rfl, rfl, rfl, rfl⟩

/-! ## C19: the poll scheduler -/

/-- C19: when, after `timer.clock(20)`, the poll timer is running and has
expired, the scheduler does exactly one of three things: with an empty channel
list it sends `CHAN:?` and restarts the timer; otherwise with an empty
destination list it sends `DEST:?` and restarts the timer; otherwise it sends
nothing and stops the timer; it changes nothing else. And from a loop state
whose timer is stopped, after any sequence of iterations (whatever datagrams
and bytes they read) the timer is still stopped and the loop state is exactly
the one produced by the same iterations without the scheduler block: no
iteration called `getChannels` or `getDestinations`. -/
theorem poll_scheduler (lib : LibC) (l l0 l1 : Loop)
    (inputs : List (Option (List Char) × Option Nat))
    (hrun : (l.timer.clock 20).isRunning = true)
    (hexp : (l.timer.clock 20).hasExpired = true)
    (hstop : l0.timer.isRunning = false)
    (hticks : ticks lib l0 inputs = Except.ok l1) :
    ((pollScheduler l).host =
        (if l.host.m_channels = [] then socketWrite l.host "CHAN:?".toList
         else if l.host.m_destinations = [] then socketWrite l.host "DEST:?".toList
         else l.host) ∧
      (pollScheduler l).timer.isRunning =
        decide (l.host.m_channels = [] ∨ l.host.m_destinations = []) ∧
      (pollScheduler l).timer.m_timer =
        (if l.host.m_channels = [] ∨ l.host.m_destinations = [] then 1 else 0) ∧
      (pollScheduler l).serial = l.serial) ∧
    (l1.timer.isRunning = false ∧ receives lib l0 inputs = Except.ok l1) := by
  refine ⟨?_, ticks_stopped lib inputs l0 l1 hstop hticks⟩
  have hpos := expired_timeout_pos _ hexp
  have hstart : (l.timer.clock 20).start = { (l.timer.clock 20) with m_timer := 1 } := by
    unfold CTimer.start
    rw [if_pos hpos]
  unfold pollScheduler
  dsimp only
  rw [hrun, hexp, hstart]
  cases hc : l.host.m_channels with
  | nil => exact ⟨rfl, rfl, rfl, rfl⟩
  | cons c cs =>
    cases hd : l.host.m_destinations with
    | nil => exact ⟨rfl, rfl, rfl, rfl⟩
    | cons d ds => exact ⟨rfl, rfl, rfl, rfl⟩

/-- Witness for C19: the sample loop one iteration before its first expiry
(both lists empty), and the sample loop with a stopped timer followed by ten
more iterations. -/
theorem poll_scheduler_witness :
    ((sampleExpiring.timer.clock 20).isRunning = true ∧
      (sampleExpiring.timer.clock 20).hasExpired = true ∧
      sampleStopped.timer.isRunning = false ∧
      ticks libSample sampleStopped sampleReads =
        Except.ok (loopOr sampleStopped (ticks libSample sampleStopped sampleReads))) ∧
    (((pollScheduler sampleExpiring).host =
        (if sampleExpiring.host.m_channels = [] then
           socketWrite sampleExpiring.host "CHAN:?".toList
         else if sampleExpiring.host.m_destinations = [] then
           socketWrite sampleExpiring.host "DEST:?".toList
         else sampleExpiring.host) ∧
      (pollScheduler sampleExpiring).timer.isRunning =
        decide (sampleExpiring.host.m_channels = [] ∨ sampleExpiring.host.m_destinations = []) ∧
      (pollScheduler sampleExpiring).timer.m_timer =
        (if sampleExpiring.host.m_channels = [] ∨ sampleExpiring.host.m_destinations = []
         then 1 else 0) ∧
      (pollScheduler sampleExpiring).serial = sampleExpiring.serial) ∧
     ((loopOr sampleStopped (ticks libSample sampleStopped sampleReads)).timer.isRunning =
        false ∧
      receives libSample sampleStopped sampleReads =
        Except.ok (loopOr sampleStopped (ticks libSample sampleStopped sampleReads)))) :=
  ⟨⟨by decide, by decide, by decide, rfl⟩,
   poll_scheduler libSample sampleExpiring sampleStopped
     (loopOr sampleStopped (ticks libSample sampleStopped sampleReads)) sampleReads
     (by decide) (by decide) (by decide) rfl⟩

/-! ## C21: stores into the reassembly buffer -/

/-- C21 (the code departs from the claim): `run` stores every byte with
`screenBuffer[screenIdx++] = c` and tests no bound; `screenIdx` returns to 0 only
when the window reads `FF FF FF`. So whenever more than 50 bytes arrive and the
first 50 of them hold no three consecutive `FF`, the first 50 bytes fill the
positions 0 to 49 without a dispatch, leaving `screenIdx = 50`, and the 51st
byte, whatever it is, is stored at position 50, outside `screenBuffer[50]`
(the fault `overrun` of the embedding); this holds from the reset state with
any buffer content. -/
theorem unterminated_bytes_overrun (buffer0 s : List Nat) (hbuf : buffer0.length = 50)
    (hlen : 50 < s.length) (hno : ¬ [255, 255, 255] <:+: s.take 50) :
    (∃ r1, feed (Reassembler.reset buffer0) (s.take 50) = Except.ok (r1, []) ∧
      r1.screenIdx = 50 ∧ r1.screenBuffer = s.take 50) ∧
    (∀ r1 c, r1.screenIdx = 50 → serialByte r1 c = Except.error Fault.overrun) ∧
    feed (Reassembler.reset buffer0) s = Except.error Fault.overrun := by
  have hl : (s.take 50).length = 50 := by
    rw [List.length_take]
    omega
  obtain ⟨r1, e1, e2, e3, e4, -⟩ := feed_quiet (s.take 50) (Reassembler.reset buffer0) hbuf
    (by simp only [Reassembler.reset, hl]; omega) (no_terminator_zero _ hno)
  simp only [Reassembler.reset, hl, Nat.zero_add, List.take_zero, List.nil_append] at e3 e4
  have hover : ∀ (r : Reassembler) (c : Nat), r.screenIdx = 50 →
      serialByte r c = Except.error Fault.overrun := by
    intro r c hr
    unfold serialByte
    rw [if_neg (by omega)]
  have hbuf1 : r1.screenBuffer = s.take 50 := by
    rw [← e4, e3, List.take_of_length_le (by omega)]
  refine ⟨⟨r1, e1, e3, hbuf1⟩, hover, ?_⟩
  obtain ⟨c, t, hct⟩ : ∃ c t, s.drop 50 = c :: t := by
    cases hd : s.drop 50 with
    | nil =>
      have := congrArg List.length hd
      simp only [List.length_drop, List.length_nil] at this
      omega
    | cons c t => exact ⟨c, t, rfl⟩
  have hs : s = s.take 50 ++ c :: t := by
    rw [← hct, List.take_append_drop]
  rw [hs, feed_append _ _ _ _ _ e1, feed_cons, hover r1 c e3]

/-- Witness for C21: 51 zero bytes. -/
theorem unterminated_bytes_overrun_witness :
    ((List.replicate 50 0).length = 50 ∧ 50 < (List.replicate 51 0).length ∧
      ¬ [255, 255, 255] <:+: (List.replicate 51 0).take 50) ∧
    feed (Reassembler.reset (List.replicate 50 0)) (List.replicate 51 0) =
      Except.error Fault.overrun :=
  ⟨⟨by decide, by decide, by decide⟩,
   (unterminated_bytes_overrun (List.replicate 50 0) (List.replicate 51 0) (by decide)
     (by decide) (by decide)).2.2⟩

/-! ## C22: the recorded page and the page directives -/

/-- C22 (the code departs from the claim): `showGPS` ends by writing the
directive `page page1` with `sendCommand` and never assigns `m_page`; only
`gotoPage0` and `gotoPage1` assign it. So for every GPS datagram that decodes
to a fix and is handled while `m_page = 0`, the handler returns with `m_page`
still 0 although the most recent `page page0` / `page page1` directive written
to the display is `page page1`: the recorded page does not name the page of
that directive. From then on `showRSSI`, which writes the meter only when
`m_page = 1`, writes nothing to the display. -/
theorem gps_on_page0_leaves_page_stale (lib : LibC) (st : CM17TS) (command : List Char)
    (rest : List (List Char)) (fix : GPSFix)
    (hfields : splitFields command = "GPS".toList :: rest)
    (hfix : parseGPS lib ("GPS".toList :: rest) = Except.ok fix)
    (hpage : st.m_page = 0) :
    ∃ st1, parseCommand lib st command = Except.ok st1 ∧
      st1.m_page = 0 ∧ lastPage st1.uart = some 1 ∧ ¬ PageSync st1 ∧
      ∀ rssi, (showRSSI st1 rssi).uart = st1.uart := by
  obtain ⟨h1, h2⟩ := showGPS_page lib st fix.latitude fix.longitude fix.locator fix.altitude
    fix.speed fix.track fix.bearing fix.distance
  rw [hpage] at h1
  refine ⟨_, ?_, h1, h2, ?_, ?_⟩
  · rw [parseCommand_GPS lib st command rest hfields, hfix]
  · unfold PageSync
    rw [h2, h1]
    decide
  · intro rssi
    unfold showRSSI
    dsimp only
    rw [if_neg]
    rw [h1]
    decide

/-- Witness for C22: the sample host is started (`gotoPage1`: page 1 recorded
and shown), the touch frame `65 02 01` brings it to page 0 (recorded and
shown), and the datagram `GPS:51:0:IO91:100:10:20:270:5` is then handled. -/
theorem gps_on_page0_leaves_page_stale_witness :
    (startup "1.0".toList (construct confSample) = Except.ok sampleStarted ∧
      sampleStarted.m_page = 1 ∧ lastPage sampleStarted.uart = some 1 ∧
      parseScreen sampleStarted [0x65, 2, 1, 255, 255, 255] 6 = Except.ok samplePage0 ∧
      lastPage samplePage0.uart = some 0 ∧
      splitFields "GPS:51:0:IO91:100:10:20:270:5".toList =
        "GPS".toList :: ["51".toList, "0".toList, "IO91".toList, "100".toList, "10".toList,
          "20".toList, "270".toList, "5".toList] ∧
      parseGPS libSample ("GPS".toList :: ["51".toList, "0".toList, "IO91".toList,
          "100".toList, "10".toList, "20".toList, "270".toList, "5".toList]) =
        Except.ok { latitude := 51, longitude := 0, locator := "IO91".toList,
                    altitude := some 100, speed := some 10, track := some 20,
                    bearing := some 270, distance := some 5 } ∧
      samplePage0.m_page = 0) ∧
    ∃ st1, parseCommand libSample samplePage0 "GPS:51:0:IO91:100:10:20:270:5".toList =
        Except.ok st1 ∧
      st1.m_page = 0 ∧ lastPage st1.uart = some 1 ∧ ¬ PageSync st1 ∧
      ∀ rssi, (showRSSI st1 rssi).uart = st1.uart :=
  ⟨⟨rfl, by decide, by decide, rfl, by decide, by decide, by decide, by decide⟩,
   gps_on_page0_leaves_page_stale libSample samplePage0
     "GPS:51:0:IO91:100:10:20:270:5".toList
     ["51".toList, "0".toList, "IO91".toList, "100".toList, "10".toList, "20".toList,
      "270".toList, "5".toList]
     { latitude := 51, longitude := 0, locator := "IO91".toList, altitude := some 100,
       speed := some 10, track := some 20, bearing := some 270, distance := some 5 }
     (by decide) (by decide) (by decide)⟩

/-! ## C23: a rotation survives the replacement of the list by itself -/

/-- The round trip where the names fit `buffer[20]`: for a non-empty channel
list of pairwise distinct names, all shorter than 15 characters, with a valid
index, a CHAN_UP (`65 01 03`) or CHAN_DOWN (`65 01 04`) touch event returns with
the selection at some index `j` of the list and with the name at `j` persisted;
a CHAN datagram (of at most 100 bytes, the receive buffer of `run`) whose fields
are these same names in the same order is then handled, leaves the same list
and the same persisted name, and its re-derived channel index is again `j`. The
same holds for destinations with DEST_UP (`65 01 05`), DEST_DOWN (`65 01 06`)
and a DEST datagram. -/
theorem rotation_survives_replacement (lib : LibC) (sc sd : CM17TS) (chan dest : List Char)
    (rest : List Nat) (length : Nat)
    (hcne : sc.m_channels ≠ []) (hcnd : sc.m_channels.Nodup)
    (hci : sc.m_channelIdx < sc.m_channels.length) (hc100 : chan.length ≤ 100)
    (hchan : splitFields chan = "CHAN".toList :: sc.m_channels)
    (hdne : sd.m_destinations ≠ []) (hdnd : sd.m_destinations.Nodup)
    (hdi : sd.m_destinationIdx < sd.m_destinations.length) (hd100 : dest.length ≤ 100)
    (hdest : splitFields dest = "DEST".toList :: sd.m_destinations)
    (hcs : ∀ n ∈ sc.m_channels, n.length < 15) (hds : ∀ n ∈ sd.m_destinations, n.length < 15) :
    (∃ st1 st2 j, parseScreen sc (0x65 :: 1 :: 3 :: rest) length = Except.ok st1 ∧
      st1.m_channelIdx = j ∧ sc.m_channels.get? j = some st1.m_conf.channel ∧
      parseCommand lib st1 chan = Except.ok st2 ∧ st2.m_channels = sc.m_channels ∧
      st2.m_conf.channel = st1.m_conf.channel ∧ st2.m_channelIdx = j) ∧
    (∃ st1 st2 j, parseScreen sc (0x65 :: 1 :: 4 :: rest) length = Except.ok st1 ∧
      st1.m_channelIdx = j ∧ sc.m_channels.get? j = some st1.m_conf.channel ∧
      parseCommand lib st1 chan = Except.ok st2 ∧ st2.m_channels = sc.m_channels ∧
      st2.m_conf.channel = st1.m_conf.channel ∧ st2.m_channelIdx = j) ∧
    (∃ st1 st2 j, parseScreen sd (0x65 :: 1 :: 5 :: rest) length = Except.ok st1 ∧
      st1.m_destinationIdx = j ∧ sd.m_destinations.get? j = some st1.m_conf.destination ∧
      parseCommand lib st1 dest = Except.ok st2 ∧ st2.m_destinations = sd.m_destinations ∧
      st2.m_conf.destination = st1.m_conf.destination ∧ st2.m_destinationIdx = j) ∧
    (∃ st1 st2 j, parseScreen sd (0x65 :: 1 :: 6 :: rest) length = Except.ok st1 ∧
      st1.m_destinationIdx = j ∧ sd.m_destinations.get? j = some st1.m_conf.destination ∧
      parseCommand lib st1 dest = Except.ok st2 ∧ st2.m_destinations = sd.m_destinations ∧
      st2.m_conf.destination = st1.m_conf.destination ∧ st2.m_destinationIdx = j) := by
  obtain ⟨t1, t2, t3, t4⟩ := parseScreen_touch sc rest length
  obtain ⟨u1, u2, u3, u4⟩ := parseScreen_touch sd rest length
  refine ⟨?_, ?_, ?_, ?_⟩
  · obtain ⟨st1, st2, e1, -, e3, e4, e5, e6, e7⟩ :=
      channel_rotate_then_replace lib sc 1 chan hcne hcnd hci hc100 hchan hcs
    exact ⟨st1, st2, _, t1.trans e1, rfl, e6, e3, e4, e7, e5⟩
  · obtain ⟨st1, st2, e1, -, e3, e4, e5, e6, e7⟩ :=
      channel_rotate_then_replace lib sc (-1) chan hcne hcnd hci hc100 hchan hcs
    exact ⟨st1, st2, _, t2.trans e1, rfl, e6, e3, e4, e7, e5⟩
  · obtain ⟨st1, st2, e1, -, e3, e4, e5, e6, e7⟩ :=
      destination_rotate_then_replace lib sd 1 dest hdne hdnd hdi hd100 hdest hds
    exact ⟨st1, st2, _, u3.trans e1, rfl, e6, e3, e4, e7, e5⟩
  · obtain ⟨st1, st2, e1, -, e3, e4, e5, e6, e7⟩ :=
      destination_rotate_then_replace lib sd (-1) dest hdne hdnd hdi hd100 hdest hds
    exact ⟨st1, st2, _, u4.trans e1, rfl, e6, e3, e4, e7, e5⟩

/-- An instance with short names: the state after `CHAN:A:B:C` and `DEST:X:ALL` (channel
index 1, destination index 1), the four touch frames, and the same two
datagrams again; CHAN_UP moves the channel to index 2 and `CHAN:A:B:C` derives
index 2 again. -/
theorem rotation_survives_replacement_witness :
    ((sampleAfter (sampleSession.take 2)).m_channels ≠ [] ∧
      (sampleAfter (sampleSession.take 2)).m_channels.Nodup ∧
      (sampleAfter (sampleSession.take 2)).m_channelIdx <
        (sampleAfter (sampleSession.take 2)).m_channels.length ∧
      "CHAN:A:B:C".toList.length ≤ 100 ∧
      splitFields "CHAN:A:B:C".toList =
        "CHAN".toList :: (sampleAfter (sampleSession.take 2)).m_channels ∧
      (sampleAfter (sampleSession.take 2)).m_destinations ≠ [] ∧
      (sampleAfter (sampleSession.take 2)).m_destinations.Nodup ∧
      (sampleAfter (sampleSession.take 2)).m_destinationIdx <
        (sampleAfter (sampleSession.take 2)).m_destinations.length ∧
      "DEST:X:ALL".toList.length ≤ 100 ∧
      splitFields "DEST:X:ALL".toList =
        "DEST".toList :: (sampleAfter (sampleSession.take 2)).m_destinations ∧
      (∀ n ∈ (sampleAfter (sampleSession.take 2)).m_channels, n.length < 15) ∧
      (∀ n ∈ (sampleAfter (sampleSession.take 2)).m_destinations, n.length < 15)) ∧
    (∃ st1 st2 j, parseScreen (sampleAfter (sampleSession.take 2))
        (0x65 :: 1 :: 3 :: [255, 255, 255]) 6 = Except.ok st1 ∧
      st1.m_channelIdx = j ∧
      (sampleAfter (sampleSession.take 2)).m_channels.get? j = some st1.m_conf.channel ∧
      parseCommand libSample st1 "CHAN:A:B:C".toList = Except.ok st2 ∧
      st2.m_channels = (sampleAfter (sampleSession.take 2)).m_channels ∧
      st2.m_conf.channel = st1.m_conf.channel ∧ st2.m_channelIdx = j) ∧
    (stateOr (construct confSample) (handleAll libSample (sampleAfter (sampleSession.take 2))
        [Event.frame [0x65, 1, 3, 255, 255, 255] 6])).m_channelIdx = 2 ∧
    (stateOr (construct confSample) (handleAll libSample (sampleAfter (sampleSession.take 2))
        [Event.frame [0x65, 1, 3, 255, 255, 255] 6,
         Event.datagram "CHAN:A:B:C".toList])).m_channelIdx = 2 :=
  ⟨⟨by decide, by decide, by decide, by decide, by decide, by decide, by decide, by decide,
     by decide, by decide, by decide, by decide⟩,
   (rotation_survives_replacement libSample (sampleAfter (sampleSession.take 2))
     (sampleAfter (sampleSession.take 2)) "CHAN:A:B:C".toList "DEST:X:ALL".toList
     [255, 255, 255] 6 (by decide) (by decide) (by decide) (by decide) (by decide)
     (by decide) (by decide) (by decide) (by decide) (by decide) (by decide) (by decide)).1,
   by decide, by decide⟩

/-- C23 (the code departs from the claim): the rotation ends in `setChannel`,
which builds `CHAN:<name>` in `char buffer[20U]` without a test of the length.
So for a channel list (pairwise distinct names or not) with a valid index where the
entry at the index `j` after the rotation has 15 characters or more, the
CHAN_UP (`65 01 03`) resp. CHAN_DOWN (`65 01 04`) touch event followed by any
datagram does not end with the index `j` again: the touch event already writes
behind the end of `buffer`. The same holds for DEST_UP (`65 01 05`), DEST_DOWN
(`65 01 06`) and `setDestination`. -/
theorem rotation_round_trip_overruns (lib : LibC) (sc sd : CM17TS) (chan dest : List Char)
    (rest : List Nat) (length : Nat) (cup cdown dup ddown : List Char)
    (hci : sc.m_channelIdx < sc.m_channels.length)
    (hcn : sc.m_channels.length < 4294967296)
    (hcu : sc.m_channels.get? ((sc.m_channelIdx + 1) % sc.m_channels.length) = some cup)
    (hcul : 15 ≤ cup.length)
    (hcd : sc.m_channels.get?
      ((sc.m_channelIdx + sc.m_channels.length - 1) % sc.m_channels.length) = some cdown)
    (hcdl : 15 ≤ cdown.length)
    (hdi : sd.m_destinationIdx < sd.m_destinations.length)
    (hdn : sd.m_destinations.length < 4294967296)
    (hdu : sd.m_destinations.get? ((sd.m_destinationIdx + 1) % sd.m_destinations.length) =
      some dup)
    (hdul : 15 ≤ dup.length)
    (hdd : sd.m_destinations.get?
      ((sd.m_destinationIdx + sd.m_destinations.length - 1) % sd.m_destinations.length) =
      some ddown)
    (hddl : 15 ≤ ddown.length) :
    handleAll lib sc [Event.frame (0x65 :: 1 :: 3 :: rest) length, Event.datagram chan] =
      Except.error Fault.overrun ∧
    handleAll lib sc [Event.frame (0x65 :: 1 :: 4 :: rest) length, Event.datagram chan] =
      Except.error Fault.overrun ∧
    handleAll lib sd [Event.frame (0x65 :: 1 :: 5 :: rest) length, Event.datagram dest] =
      Except.error Fault.overrun ∧
    handleAll lib sd [Event.frame (0x65 :: 1 :: 6 :: rest) length, Event.datagram dest] =
      Except.error Fault.overrun := by
  obtain ⟨t1, t2, -, -⟩ := parseScreen_touch sc rest length
  obtain ⟨-, -, u3, u4⟩ := parseScreen_touch sd rest length
  have key : ∀ (st : CM17TS) (frame : List Nat) (d : List Char),
      parseScreen st frame length = Except.error Fault.overrun →
      handleAll lib st [Event.frame frame length, Event.datagram d] =
        Except.error Fault.overrun := by
    intro st frame d h
    have h0 : handle lib st (Event.frame frame length) = Except.error Fault.overrun := h
    unfold handleAll
    rw [h0]
  refine ⟨key _ _ _ (t1.trans ?_), key _ _ _ (t2.trans ?_), key _ _ _ (u3.trans ?_),
    key _ _ _ (u4.trans ?_)⟩
  · exact channelChanged_overrun sc 1 cup (by rw [rotateIdx_forward _ _ hci hcn]; exact hcu) hcul
  · exact channelChanged_overrun sc (-1) cdown
      (by rw [rotateIdx_backward _ _ hci hcn]; exact hcd) hcdl
  · exact destinationChanged_overrun sd 1 dup
      (by rw [rotateIdx_forward _ _ hdi hdn]; exact hdu) hdul
  · exact destinationChanged_overrun sd (-1) ddown
      (by rw [rotateIdx_backward _ _ hdi hdn]; exact hdd) hddl

/-- Witness for C23: the state after `CHAN:A:ABCDEFGHIJKLMNOPQRS` and
`DEST:X:ABCDEFGHIJKLMNOPQRS` (both handled; two distinct names in each list,
index 0), a touch frame, and the same datagram again. -/
theorem rotation_round_trip_overruns_witness :
    (handleAll libSample (construct confSample)
        [Event.datagram "CHAN:A:ABCDEFGHIJKLMNOPQRS".toList,
         Event.datagram "DEST:X:ABCDEFGHIJKLMNOPQRS".toList] = Except.ok sampleLong ∧
      sampleLong.m_channels.Nodup ∧
      sampleLong.m_channelIdx < sampleLong.m_channels.length ∧
      splitFields "CHAN:A:ABCDEFGHIJKLMNOPQRS".toList = "CHAN".toList :: sampleLong.m_channels ∧
      sampleLong.m_channels.get? ((sampleLong.m_channelIdx + 1) % sampleLong.m_channels.length) =
        some "ABCDEFGHIJKLMNOPQRS".toList ∧
      sampleLong.m_channels.get?
          ((sampleLong.m_channelIdx + sampleLong.m_channels.length - 1) %
            sampleLong.m_channels.length) = some "ABCDEFGHIJKLMNOPQRS".toList ∧
      15 ≤ "ABCDEFGHIJKLMNOPQRS".toList.length ∧
      sampleLong.m_destinations.Nodup ∧
      sampleLong.m_destinationIdx < sampleLong.m_destinations.length ∧
      splitFields "DEST:X:ABCDEFGHIJKLMNOPQRS".toList =
        "DEST".toList :: sampleLong.m_destinations ∧
      sampleLong.m_destinations.get?
          ((sampleLong.m_destinationIdx + 1) % sampleLong.m_destinations.length) =
        some "ABCDEFGHIJKLMNOPQRS".toList ∧
      sampleLong.m_destinations.get?
          ((sampleLong.m_destinationIdx + sampleLong.m_destinations.length - 1) %
            sampleLong.m_destinations.length) = some "ABCDEFGHIJKLMNOPQRS".toList) ∧
    handleAll libSample sampleLong
        [Event.frame (0x65 :: 1 :: 3 :: [255, 255, 255]) 6,
         Event.datagram "CHAN:A:ABCDEFGHIJKLMNOPQRS".toList] = Except.error Fault.overrun ∧
    handleAll libSample sampleLong
        [Event.frame (0x65 :: 1 :: 5 :: [255, 255, 255]) 6,
         Event.datagram "DEST:X:ABCDEFGHIJKLMNOPQRS".toList] = Except.error Fault.overrun :=
  ⟨⟨rfl, by decide, by decide, by decide, by decide, by decide, by decide, by decide,
     by decide, by decide, by decide, by decide⟩,
   (rotation_round_trip_overruns libSample sampleLong sampleLong
     "CHAN:A:ABCDEFGHIJKLMNOPQRS".toList "DEST:X:ABCDEFGHIJKLMNOPQRS".toList [255, 255, 255] 6
     "ABCDEFGHIJKLMNOPQRS".toList "ABCDEFGHIJKLMNOPQRS".toList "ABCDEFGHIJKLMNOPQRS".toList
     "ABCDEFGHIJKLMNOPQRS".toList
     (by decide) (by decide) (by decide) (by decide) (by decide) (by decide)
     (by decide) (by decide) (by decide) (by decide) (by decide) (by decide)).1,
   (rotation_round_trip_overruns libSample sampleLong sampleLong
     "CHAN:A:ABCDEFGHIJKLMNOPQRS".toList "DEST:X:ABCDEFGHIJKLMNOPQRS".toList [255, 255, 255] 6
     "ABCDEFGHIJKLMNOPQRS".toList "ABCDEFGHIJKLMNOPQRS".toList "ABCDEFGHIJKLMNOPQRS".toList
     "ABCDEFGHIJKLMNOPQRS".toList
     (by decide) (by decide) (by decide) (by decide) (by decide) (by decide)
     (by decide) (by decide) (by decide) (by decide) (by decide) (by decide)).2.2.1⟩

end M17TS
